import Mathlib

/-!
The gpsd serial line handling: speed codec, termios driver and hunt controller.

A shallow embedding of `gpsd/serial.c`.  Every definition carries the name of the
C function (or constant) it embeds.  Stateful functions are pure functions on an
explicit `gps_device_t` record; the system calls they issue on the device are
appended to the `calls` field of the record, in program order.
-/

namespace Gpsd

/-! ## Speed codec (`speed2code`, `code2speed`) -/

/-- The `B...` speed codes of `<termios.h>` on a platform where every optional
constant is defined.  The constants are distinct symbolic values (they are the
`case` labels of `code2speed`). -/
inductive speed_t where
  | B0 | B300 | B1200 | B2400 | B4800 | B9600 | B19200 | B38400 | B57600
  | B115200 | B230400 | B460800 | B500000 | B576000 | B921600 | B1000000
  | B1152000 | B1500000 | B2000000 | B2500000 | B3000000 | B3500000 | B4000000
  deriving DecidableEq

open speed_t

/-- `static speed_t speed2code(const int speed)`, serial.c lines 265-354, with every
`#ifdef B...` branch present. -/
def speed2code (speed : Int) : speed_t :=
  if 1200 > speed then B300
  else if 2400 > speed then B1200
  else if 4800 > speed then B2400
  else if 9600 > speed then B4800
  else if 19200 > speed then B9600
  else if 38400 > speed then B19200
  else if 57600 > speed then B38400
  else if 115200 > speed then B57600
  else if 230400 > speed then B115200
  else if 460800 > speed then B230400
  else if 500000 > speed then B460800
  else if 576000 > speed then B500000
  else if 921600 > speed then B576000
  else if 1000000 > speed then B921600
  else if 1152000 > speed then B1000000
  else if 1500000 > speed then B1152000
  else if 2000000 > speed then B1500000
  else if 2500000 > speed then B2000000
  else if 3000000 > speed then B2500000
  else if 3500000 > speed then B3500000
  else if 4000000 > speed then B3500000
  else if 4000000 = speed then B4000000
  else B9600

/-- `static int code2speed(const speed_t code)`, serial.c lines 357-418.  The `switch`
has cases up to `B1500000`; every other code takes the `default` branch. -/
def code2speed (code : speed_t) : Int :=
  match code with
  | B300 => 300
  | B1200 => 1200
  | B2400 => 2400
  | B4800 => 4800
  | B9600 => 9600
  | B19200 => 19200
  | B38400 => 38400
  | B57600 => 57600
  | B115200 => 115200
  | B230400 => 230400
  | B460800 => 460800
  | B500000 => 500000
  | B576000 => 576000
  | B921600 => 921600
  | B1000000 => 1000000
  | B1152000 => 1152000
  | B1500000 => 1500000
  | _ => 0

/-- The bit rate a speed code denotes (the number in the name of the constant); this is
the reading of the codes used by the specification, not a function of serial.c. -/
def speed_t.rate : speed_t → Int
  | B0 => 0
  | B300 => 300
  | B1200 => 1200
  | B2400 => 2400
  | B4800 => 4800
  | B9600 => 9600
  | B19200 => 19200
  | B38400 => 38400
  | B57600 => 57600
  | B115200 => 115200
  | B230400 => 230400
  | B460800 => 460800
  | B500000 => 500000
  | B576000 => 576000
  | B921600 => 921600
  | B1000000 => 1000000
  | B1152000 => 1152000
  | B1500000 => 1500000
  | B2000000 => 2000000
  | B2500000 => 2500000
  | B3000000 => 3000000
  | B3500000 => 3500000
  | B4000000 => 4000000

/-- The supported rates of the specification, ascending, each with its speed code. -/
def supported_rates : List (Int × speed_t) :=
  [(300, B300), (1200, B1200), (2400, B2400), (4800, B4800), (9600, B9600),
   (19200, B19200), (38400, B38400), (57600, B57600), (115200, B115200),
   (230400, B230400), (460800, B460800), (500000, B500000), (576000, B576000),
   (921600, B921600), (1000000, B1000000), (1152000, B1152000),
   (1500000, B1500000), (2000000, B2000000), (2500000, B2500000),
   (3000000, B3000000), (3500000, B3500000), (4000000, B4000000)]

/-- The staircase as the specification words it: the code of the largest supported
rate `R` with `R ≤ r`, found by scanning the ascending table (`dflt` when no rate
is at most `r`). -/
def spec_round_down_from (dflt : speed_t) : List (Int × speed_t) → Int → speed_t
  | [], _ => dflt
  | (R, c) :: rest, r => if R ≤ r then spec_round_down_from c rest r else dflt

/-- The `speed_to_code` of the specification on `300 ≤ r`: round down on the staircase. -/
def spec_round_down (r : Int) : Option speed_t :=
  if 300 ≤ r then some (spec_round_down_from B300 supported_rates r) else none

/-! ## Data model of `serial.c` -/

/-- `struct timespec`. -/
structure timespec where
  tv_sec : Int
  tv_nsec : Int
  deriving DecidableEq

/-- `struct termios`: the four flag words (`tcflag_t`, 32 bits), the control characters
and the input and output speed that `cfgetispeed`/`cfsetispeed` and
`cfgetospeed`/`cfsetospeed` read and write. -/
structure termios where
  c_iflag : Nat
  c_oflag : Nat
  c_cflag : Nat
  c_lflag : Nat
  c_cc : List Nat
  c_ispeed : speed_t
  c_ospeed : speed_t
  deriving DecidableEq

def cfgetispeed (t : termios) : speed_t := t.c_ispeed

def cfgetospeed (t : termios) : speed_t := t.c_ospeed

def cfsetispeed (t : termios) (rate : speed_t) : termios := { t with c_ispeed := rate }

def cfsetospeed (t : termios) (rate : speed_t) : termios := { t with c_ospeed := rate }

/-- Flag bits of `<termios.h>` used by `gpsd_set_speed` (Linux values, octal in the header). -/
def PARMRK : Nat := 0x8

def INPCK : Nat := 0x10

def CSIZE : Nat := 0x30

def CS7 : Nat := 0x20

def CS8 : Nat := 0x30

def CSTOPB : Nat := 0x40

def PARENB : Nat := 0x100

def PARODD : Nat := 0x200

/-- `flags &= ~mask` on a 32-bit `tcflag_t`. -/
def clear_bits (flags mask : Nat) : Nat := flags &&& (0xFFFFFFFF ^^^ mask)

/-- `sourcetype_t` (include/gpsd.h), the values named in the sources. -/
inductive sourcetype_t where
  | SOURCE_UNKNOWN | SOURCE_BLOCKDEV | SOURCE_RS232 | SOURCE_USB | SOURCE_BLUETOOTH
  | SOURCE_PTY | SOURCE_TCP | SOURCE_PPS | SOURCE_PIPE | SOURCE_ACM | SOURCE_QRTR
  deriving DecidableEq

open sourcetype_t

/-- `event_t`: the events handed to the `event_hook` of a driver. -/
inductive event_t where
  | event_wakeup | event_reactivate | event_deactivate
  deriving DecidableEq

open event_t

/-- `struct gps_type_t`, as far as serial.c looks at it: the name of the driver and whether
its `event_hook` is non-NULL. -/
structure gps_type_t where
  type_name : String
  event_hook : Bool
  deriving DecidableEq

/-- What a function does to the outside world, in program order: the termios system
calls on the device, the settle sleep, the driver hooks and the lexer reset. -/
inductive syscall where
  | tcsetattr (fd : Int) (t : termios)
  | tcflush (fd : Int)
  | nanosleep (tv_sec tv_nsec : Nat)
  | event_hook (driver : String) (event : event_t)
  | packet_reset
  deriving DecidableEq

/-- `struct gps_context_t`: `fixed_port_framing` is the `char` array, read as the
integer values of its bytes (index past the end reads NUL). -/
structure gps_context_t where
  readonly : Bool
  fixed_port_speed : Int
  fixed_port_framing : List Int
  deriving DecidableEq

/-- `struct devconfig_t` (`session->gpsdata.dev`): `parity` is a `char`, `baudrate` and
`stopbits` are `unsigned int`. -/
structure devconfig_t where
  path : String
  baudrate : Nat
  parity : Int
  stopbits : Nat
  deriving DecidableEq

structure gps_data_t where
  gps_fd : Int
  dev : devconfig_t
  deriving DecidableEq

/-- `struct gps_lexer_t`, the fields serial.c touches (`retry_counter` is `unsigned long`). -/
structure gps_lexer_t where
  type : Int
  retry_counter : Nat
  deriving DecidableEq

/-- `struct gps_device_t`, the fields serial.c touches, and `calls`: the log of what the
functions did to the outside world (oldest first). -/
structure gps_device_t where
  context : gps_context_t
  gpsdata : gps_data_t
  sourcetype : sourcetype_t
  ttyset : termios
  ttyset_old : termios
  baudindex : Nat
  saved_baud : Int
  lexer : gps_lexer_t
  ts_startCurrentBaud : timespec
  device_type : Option gps_type_t
  calls : List syscall
  deriving DecidableEq

/-- What serial.c uses and does not define: `MAX_PACKET_LENGTH` (include/gpsd.h), the
`TS_SUB` subtraction (include/timespec.h), `packet_reset` (gpsd/packet.c), the driver table
`gpsd_drivers` (drivers/drivers.c) and the answer of `isatty` for a descriptor. -/
structure Env where
  MAX_PACKET_LENGTH : Nat
  TS_SUB : timespec → timespec → timespec
  packet_reset : gps_lexer_t → gps_lexer_t
  gpsd_drivers : List gps_type_t
  isatty : Int → Bool

/-- Modelled from the spec: `TS_SUB(r, ts1, ts2)` of include/timespec.h (not under src/), as the
hunt controller uses it on `(ts_startCurrentBaud, ts_now)`: "Compute
Δ = now − ts_start_current_baud", the difference `ts2 − ts1` with `tv_nsec`
brought back into `[0, 10^9)`. -/
def TS_SUB (ts1 ts2 : timespec) : timespec :=
  let sec := ts2.tv_sec - ts1.tv_sec
  let nsec := ts2.tv_nsec - ts1.tv_nsec
  if nsec < 0 then { tv_sec := sec - 1, tv_nsec := nsec + 1000000000 }
  else { tv_sec := sec, tv_nsec := nsec }

/-- The packet type `BAD_PACKET` (include/gpsd.h). -/
def BAD_PACKET : Int := -1

/-- Modelled from the spec: `packet_reset` of gpsd/packet.c ("reset the lexer"): the
lexer goes back to its no-packet state; the retry counter belongs to the hunt
controller and is not touched. -/
def packet_reset (lexer : gps_lexer_t) : gps_lexer_t := { lexer with type := BAD_PACKET }

/-- An environment with the `TS_SUB` and `packet_reset` of the spec; `mpl` is
`MAX_PACKET_LENGTH`, and every descriptor `fd ≥ 0` is a tty. -/
def spec_env (mpl : Nat) : Env :=
  { MAX_PACKET_LENGTH := mpl
    TS_SUB := TS_SUB
    packet_reset := packet_reset
    gpsd_drivers := []
    isatty := fun fd => decide (0 ≤ fd) }

/-! ## Termios driver (`gpsd_set_speed`) -/

/-- Conversion of a `speed_t` (32-bit unsigned) argument to the `int` parameter of
`speed2code`. -/
def int_of_speed (speed : Nat) : Int :=
  if speed % 2 ^ 32 < 2 ^ 31 then (speed % 2 ^ 32 : Nat) else ((speed % 2 ^ 32 : Nat) : Int) - 2 ^ 32

/-- Conversion of an `int` to `unsigned int`. -/
def uint_of_int (v : Int) : Nat := (v % 2 ^ 32).toNat

/-- The `switch (parity)` of `gpsd_set_speed`, serial.c lines 489-508
(`E` is 69, `O` is 79, `N` is 78). -/
def normalize_parity (parity : Int) : Int :=
  if parity = 69 ∨ parity = 2 then 69
  else if parity = 79 ∨ parity = 1 then 79
  else 78

/-- The wakeup cascade at the end of `gpsd_set_speed`, serial.c lines 643-658. -/
def wakeup_calls (E : Env) (session : gps_device_t) : List syscall :=
  if !session.context.readonly && session.sourcetype != SOURCE_USB
      && session.sourcetype != SOURCE_BLUETOOTH then
    if E.isatty session.gpsdata.gps_fd && !session.context.readonly then
      match session.device_type with
      | none =>
          (E.gpsd_drivers.filter (fun dp => dp.event_hook)).map
            (fun dp => syscall.event_hook dp.type_name event_wakeup)
      | some dt => if dt.event_hook then [syscall.event_hook dt.type_name event_wakeup] else []
    else []
  else []

/-- `void gpsd_set_speed(session, speed, parity, stopbits)`, serial.c lines 466-661.
`now` is what `clock_gettime` answers at the end of the call. -/
def gpsd_set_speed (E : Env) (session : gps_device_t) (speed : Nat) (parity : Int)
    (stopbits : Nat) (now : timespec) : gps_device_t :=
  let speed : Nat :=
    if 0 < session.context.fixed_port_speed then uint_of_int session.context.fixed_port_speed
    else speed
  let fixed_framing : Bool := session.context.fixed_port_framing.getD 0 0 != 0
  let parity : Int := if fixed_framing then session.context.fixed_port_framing.getD 1 0 else parity
  let stopbits : Nat :=
    if fixed_framing then uint_of_int (session.context.fixed_port_framing.getD 2 0 - 48)
    else stopbits
  let rate := speed2code (int_of_speed speed)
  let parity := normalize_parity parity
  let session :=
    if rate ≠ cfgetispeed session.ttyset ∨ parity ≠ session.gpsdata.dev.parity
        ∨ stopbits ≠ session.gpsdata.dev.stopbits then
      let t := session.ttyset
      let t := if rate = B0 then t else cfsetospeed (cfsetispeed t rate) rate
      let t := { t with c_iflag := clear_bits t.c_iflag (PARMRK ||| INPCK) }
      let t := { t with c_cflag := clear_bits t.c_cflag (CSIZE ||| CSTOPB ||| PARENB ||| PARODD) }
      let t := { t with c_cflag := t.c_cflag ||| (if stopbits = 2 then CS7 ||| CSTOPB else CS8) }
      let t :=
        if parity = 69 then
          { t with c_iflag := t.c_iflag ||| INPCK, c_cflag := t.c_cflag ||| PARENB }
        else if parity = 79 then
          { t with c_iflag := t.c_iflag ||| INPCK, c_cflag := t.c_cflag ||| (PARENB ||| PARODD) }
        else t
      let fd := session.gpsdata.gps_fd
      { session with
        ttyset := t
        calls := session.calls ++
          [syscall.tcsetattr fd t, syscall.tcflush fd, syscall.nanosleep 0 200000000,
           syscall.tcflush fd] }
    else session
  let session :=
    { session with
      gpsdata := { session.gpsdata with
        dev := { session.gpsdata.dev with baudrate := speed, parity := parity, stopbits := stopbits } } }
  let session := { session with calls := session.calls ++ wakeup_calls E session }
  let session :=
    { session with
      lexer := E.packet_reset session.lexer
      calls := session.calls ++ [syscall.packet_reset] }
  { session with ts_startCurrentBaud := now }

/-! ## Hunt controller (`gpsd_next_hunt_setting`) -/

/-- `#define SNIFF_RETRIES (MAX_PACKET_LENGTH + 128)`, serial.c line 927. -/
def SNIFF_RETRIES (E : Env) : Nat := E.MAX_PACKET_LENGTH + 128

/-- `static unsigned int rates[]`, serial.c lines 961-963. -/
def rates : List Nat := [0, 4800, 9600, 19200, 38400, 57600, 115200, 230400, 460800, 921600]

/-- The tail of the exhausted-cell branch of `gpsd_next_hunt_setting`, serial.c lines
985-996: pick the framing, call `gpsd_set_speed`, zero the retry counter. -/
def hunt_reconfigure (E : Env) (session : gps_device_t) (ts_set : timespec) :
    Bool × gps_device_t :=
  let fixed_framing : Bool := session.context.fixed_port_framing.getD 0 0 != 0
  let new_parity : Int :=
    if !fixed_framing then session.gpsdata.dev.parity
    else session.context.fixed_port_framing.getD 1 0
  let new_stop : Nat :=
    if !fixed_framing then session.gpsdata.dev.stopbits
    else uint_of_int (session.context.fixed_port_framing.getD 2 0 - 48)
  let session := gpsd_set_speed E session (rates.getD session.baudindex 0) new_parity new_stop ts_set
  (true, { session with lexer := { session.lexer with retry_counter := 0 } })

/-- `bool gpsd_next_hunt_setting(session)`, serial.c lines 930-999.  `ts_now` is what
`clock_gettime` answers at line 946, `ts_set` what it answers inside `gpsd_set_speed`
when the function reconfigures.  `retry_counter` is a 64-bit `unsigned long`,
`baudindex` and `stopbits` are 32-bit `unsigned int`. -/
def gpsd_next_hunt_setting (E : Env) (session : gps_device_t) (ts_now ts_set : timespec) :
    Bool × gps_device_t :=
  if E.isatty session.gpsdata.gps_fd = false then (false, session)
  else if session.sourcetype = SOURCE_PPS then (false, session)
  else
    let ts_diff := E.TS_SUB session.ts_startCurrentBaud ts_now
    let retry := session.lexer.retry_counter
    let session :=
      { session with lexer := { session.lexer with retry_counter := (retry + 1) % 2 ^ 64 } }
    if SNIFF_RETRIES E ≤ retry ∨ 3 < ts_diff.tv_sec then
      if 0 < session.context.fixed_port_speed then (false, session)
      else
        let index := session.baudindex
        let session := { session with baudindex := (index + 1) % 2 ^ 32 }
        if rates.length - 1 ≤ index then
          let session := { session with baudindex := 0 }
          if session.context.fixed_port_framing.getD 0 0 != 0 then (false, session)
          else
            let stop := session.gpsdata.dev.stopbits
            let session :=
              { session with
                gpsdata := { session.gpsdata with
                  dev := { session.gpsdata.dev with stopbits := (stop + 1) % 2 ^ 32 } } }
            if 2 ≤ stop then (false, session)
            else hunt_reconfigure E session ts_set
        else hunt_reconfigure E session ts_set
    else (true, session)


/-! ## Concrete sessions used as test inputs -/

/-- A line at 9600 baud, 8N1, receiver enabled (`CS8 | CREAD | CLOCAL`). -/
def line_9600 : termios :=
  { c_iflag := 0, c_oflag := 0, c_cflag := 0x8B0, c_lflag := 0, c_cc := [],
    c_ispeed := B9600, c_ospeed := B9600 }

/-- A serial session as `gpsd_serial_open` leaves it on a line found at 9600 baud:
hunt cursor at index 0, one stop bit, no parity, retry counter 0, with the given fixed
framing (the empty list is "no fixed framing") and no fixed speed. -/
def fresh_session (framing : List Int) : gps_device_t :=
  { context := { readonly := false, fixed_port_speed := 0, fixed_port_framing := framing }
    gpsdata := { gps_fd := 3, dev := { path := "/dev/ttyS0", baudrate := 9600, parity := 78, stopbits := 1 } }
    sourcetype := SOURCE_RS232
    ttyset := line_9600
    ttyset_old := line_9600
    baudindex := 0
    saved_baud := -1
    lexer := { type := BAD_PACKET, retry_counter := 0 }
    ts_startCurrentBaud := { tv_sec := 100, tv_nsec := 0 }
    device_type := none
    calls := [] }

/-! ## Vocabulary of the statements -/

/-- The speed `gpsd_set_speed` works with, serial.c lines 472-474: the fixed port speed
when the context has one, else the argument. -/
def effective_speed (s : gps_device_t) (speed : Nat) : Nat :=
  if 0 < s.context.fixed_port_speed then uint_of_int s.context.fixed_port_speed else speed

/-- The parity byte `gpsd_set_speed` works with, serial.c lines 475-477: position 1 of the
fixed framing when the context has one, else the argument. -/
def effective_parity (s : gps_device_t) (parity : Int) : Int :=
  if s.context.fixed_port_framing.getD 0 0 != 0 then s.context.fixed_port_framing.getD 1 0 else parity

/-- The stop bits `gpsd_set_speed` works with, serial.c lines 475-478: position 2 of the
fixed framing minus the character 0 when the context has one, else the argument. -/
def effective_stopbits (s : gps_device_t) (stopbits : Nat) : Nat :=
  if s.context.fixed_port_framing.getD 0 0 != 0 then uint_of_int (s.context.fixed_port_framing.getD 2 0 - 48) else stopbits

/-- The session after a call of `gpsd_next_hunt_setting` that stays on the current
setting: only the retry counter has moved. -/
def hunt_stay (s : gps_device_t) : gps_device_t :=
  { s with lexer := { s.lexer with retry_counter := (s.lexer.retry_counter + 1) % 2 ^ 64 } }

/-- Elapsed time `now − start` in nanoseconds. -/
def elapsed_ns (start now : timespec) : Int :=
  (now.tv_sec - start.tv_sec) * 1000000000 + (now.tv_nsec - start.tv_nsec)

/-- A timespec as `clock_gettime` answers it: `0 ≤ tv_nsec < 10^9`. -/
@[reducible]
def timespec.normal (t : timespec) : Prop := 0 ≤ t.tv_nsec ∧ t.tv_nsec < 1000000000

/-- The session of scenario S4 on its last cell: fixed framing "8N1", cursor on the last
rate (index 9), retry counter at `SNIFF_RETRIES` for `MAX_PACKET_LENGTH = 9216`. -/
def last_cell_session : gps_device_t :=
  { fresh_session [56, 78, 49] with
    baudindex := 9
    lexer := { type := BAD_PACKET, retry_counter := 9344 } }

/-- The session after the first `n` calls of a series of `gpsd_next_hunt_setting` calls;
`clock j` holds the two clock readings of call number `j` (counting from 0). -/
def hunt_after (E : Env) (s : gps_device_t) (clock : Nat → timespec × timespec) :
    Nat → gps_device_t
  | 0 => s
  | n + 1 => (gpsd_next_hunt_setting E (hunt_after E s clock n) (clock n).1 (clock n).2).2

/-- What call number `n` of the series returns. -/
def hunt_result (E : Env) (s : gps_device_t) (clock : Nat → timespec × timespec) (n : Nat) :
    Bool :=
  (gpsd_next_hunt_setting E (hunt_after E s clock n) (clock n).1 (clock n).2).1

/-- How often `gpsd_set_speed` has run on the session: each run logs one `packet_reset`. -/
def set_speed_count (s : gps_device_t) : Nat := s.calls.count syscall.packet_reset

/-- The number of cells of the hunt: the 10 entries of `rates`, once with fixed framing,
once per stop-bit value (1, 2) without. -/
def hunt_cells (s : gps_device_t) : Nat :=
  if s.context.fixed_port_framing.getD 0 0 = 0 then 20 else 10

/-- A clock that answers the same instant at every reading. -/
def frozen_clock (t : timespec) : Nat → timespec × timespec := fun _ => (t, t)

/-- The cells of the hunt without fixed framing: the 10 indices of `rates` times the
stop-bit values 1 and 2. -/
def hunt_grid : Finset (Nat × Nat) := Finset.range 10 ×ˢ {1, 2}

/-! ## Further test inputs -/

/-- An environment in which no descriptor is a tty (a pipe, a file, a socket). -/
def no_tty_env (mpl : Nat) : Env := { spec_env mpl with isatty := fun _ => false }

/-- The fresh session under a context with fixed port speed 9600. -/
def fixed_speed_session : gps_device_t :=
  { fresh_session [] with
    context := { readonly := false, fixed_port_speed := 9600, fixed_port_framing := [] } }

/-! ## Source classifier (`gpsd_classify`) -/

/-- `struct stat`, the two fields `gpsd_classify` reads. -/
structure stat_t where
  st_mode : Nat
  st_rdev : Nat
  deriving DecidableEq

/-- File type bits of `<sys/stat.h>` (Linux values, octal in the header). -/
def S_IFMT : Nat := 0xF000

def S_IFSOCK : Nat := 0xC000

def S_IFREG : Nat := 0x8000

def S_IFCHR : Nat := 0x2000

def S_IFIFO : Nat := 0x1000

def S_ISREG (m : Nat) : Bool := m &&& S_IFMT == S_IFREG

def S_ISSOCK (m : Nat) : Bool := m &&& S_IFMT == S_IFSOCK

def S_ISFIFO (m : Nat) : Bool := m &&& S_IFMT == S_IFIFO

def S_ISCHR (m : Nat) : Bool := m &&& S_IFMT == S_IFCHR

/-- `major()` of `<sys/sysmacros.h>` (glibc, 64-bit `dev_t`). -/
def major (dev : Nat) : Nat := ((dev >>> 8) &&& 0xFFF) ||| ((dev >>> 32) &&& 0xFFFFF000)

/-- `minor()` of `<sys/sysmacros.h>` (glibc, 64-bit `dev_t`). -/
def minor (dev : Nat) : Nat := (dev &&& 0xFF) ||| ((dev >>> 12) &&& 0xFFFFFF00)

/-- `0 == strncmp(path, lit, n)` for a literal `lit` of `n` characters: the first `n`
characters of the path are the literal. -/
def strncmp_eq (path lit : String) (n : Nat) : Bool := path.toList.take n == lit.toList.take n

/-- `static sourcetype_t gpsd_classify(session)`, serial.c lines 46-184, compiled with
`__linux__` and without `BSD`.  `sb` is what `stat(path)` answers (`none`: it failed). -/
def gpsd_classify (path : String) (sb : Option stat_t) : sourcetype_t :=
  match sb with
  | none => SOURCE_UNKNOWN
  | some sb =>
    if S_ISREG sb.st_mode then SOURCE_BLOCKDEV
    else if S_ISSOCK sb.st_mode then SOURCE_TCP
    else if strncmp_eq path "/dev/pts/" 9 then SOURCE_PTY
    else if strncmp_eq path "/dev/pps" 8 then SOURCE_PPS
    else if S_ISFIFO sb.st_mode then SOURCE_PIPE
    else if S_ISCHR sb.st_mode then
      let devmajor := major sb.st_rdev
      let devminor := minor sb.st_rdev
      match devmajor with
      | 3 => SOURCE_PTY
      | 136 => SOURCE_PTY
      | 137 => SOURCE_PTY
      | 138 => SOURCE_PTY
      | 139 => SOURCE_PTY
      | 140 => SOURCE_PTY
      | 141 => SOURCE_PTY
      | 142 => SOURCE_PTY
      | 143 => SOURCE_PTY
      | 4 => SOURCE_RS232
      | 204 => SOURCE_RS232
      | 207 => SOURCE_RS232
      | 10 => if 223 = devminor then SOURCE_PPS else SOURCE_RS232
      | 166 => SOURCE_ACM
      | 188 => SOURCE_USB
      | 216 => SOURCE_BLUETOOTH
      | 217 => SOURCE_BLUETOOTH
      | _ => SOURCE_RS232
    else SOURCE_UNKNOWN

/-- The kind of file a `stat` result describes, as the decision list of the
specification names it. -/
inductive file_kind where
  | regular | socket | fifo | chardev | other
  deriving DecidableEq

/-- The file kind of a mode word. -/
def kind_of_mode (m : Nat) : file_kind :=
  if m &&& S_IFMT = S_IFREG then file_kind.regular
  else if m &&& S_IFMT = S_IFSOCK then file_kind.socket
  else if m &&& S_IFMT = S_IFIFO then file_kind.fifo
  else if m &&& S_IFMT = S_IFCHR then file_kind.chardev
  else file_kind.other

/-- The decision list of the specification for a character device: by major and
minor number. -/
def spec_classify_chardev (maj min : Nat) : sourcetype_t :=
  if maj = 3 ∨ (136 ≤ maj ∧ maj ≤ 143) then SOURCE_PTY
  else if maj = 10 ∧ min = 223 then SOURCE_PPS
  else if maj = 166 then SOURCE_ACM
  else if maj = 188 then SOURCE_USB
  else if maj = 216 ∨ maj = 217 then SOURCE_BLUETOOTH
  else SOURCE_RS232

/-- The ordered decision list of the specification: the first rule that matches. -/
def spec_classify (path : String) (sb : Option stat_t) : sourcetype_t :=
  match sb with
  | none => SOURCE_UNKNOWN
  | some sb =>
    if kind_of_mode sb.st_mode = file_kind.regular then SOURCE_BLOCKDEV
    else if kind_of_mode sb.st_mode = file_kind.socket then SOURCE_TCP
    else if path.toList.take 9 = "/dev/pts/".toList then SOURCE_PTY
    else if path.toList.take 8 = "/dev/pps".toList then SOURCE_PPS
    else if kind_of_mode sb.st_mode = file_kind.fifo then SOURCE_PIPE
    else if kind_of_mode sb.st_mode = file_kind.chardev then
      spec_classify_chardev (major sb.st_rdev) (minor sb.st_rdev)
    else SOURCE_UNKNOWN

/-! ## Opener and closer (`gpsd_serial_open`, `gpsd_close`, `gpsd_assert_sync`) -/

/-- More flag bits of `<termios.h>` (Linux values, octal in the header). -/
def CREAD : Nat := 0x80

def HUPCL : Nat := 0x400

def CLOCAL : Nat := 0x800

def CRTSCTS : Nat := 0x80000000

/-- The descriptor sentinels of include/gpsd.h. -/
def UNALLOCATED_FD : Int := -1

def PLACEHOLDING_FD : Int := -2

/-- Modelled from the spec: `BAD_SOCKET` of include/gpsd.h (not under src/): "`fd ≥ 0` ⇔
the session owns an OS handle requiring release". -/
def BAD_SOCKET (fd : Int) : Bool := decide (fd < 0)

/-- The integer value of a speed code (Linux `<termios.h>`), which is what
`(int)cfgetispeed(...)` stores in `saved_baud`. -/
def speed_t.code : speed_t → Nat
  | B0 => 0
  | B300 => 7
  | B1200 => 9
  | B2400 => 11
  | B4800 => 12
  | B9600 => 13
  | B19200 => 14
  | B38400 => 15
  | B57600 => 4097
  | B115200 => 4098
  | B230400 => 4099
  | B460800 => 4100
  | B500000 => 4101
  | B576000 => 4102
  | B921600 => 4103
  | B1000000 => 4104
  | B1152000 => 4105
  | B1500000 => 4106
  | B2000000 => 4107
  | B2500000 => 4108
  | B3000000 => 4109
  | B3500000 => 4110
  | B4000000 => 4111

/-- Every speed code serial.c names. -/
def speed_t.all : List speed_t :=
  [B0, B300, B1200, B2400, B4800, B9600, B19200, B38400, B57600, B115200, B230400,
   B460800, B500000, B576000, B921600, B1000000, B1152000, B1500000, B2000000, B2500000,
   B3000000, B3500000, B4000000]

/-- The speed code with a given integer value, if it is one serial.c names. -/
def speed_t.of_code (v : Nat) : Option speed_t := speed_t.all.find? (fun c => c.code == v)

/-- `cfsetispeed(&t, (speed_t)v)` for an integer `v`: the speed is set when `v` is the
value of a speed code; any other value is refused (`EINVAL`) and the termios stays as
it is.  The codes serial.c never names (`B50` to `B1800`) are counted with the
refused values. -/
def cfsetispeed_int (t : termios) (v : Int) : termios :=
  match speed_t.of_code (uint_of_int v) with
  | some rate => cfsetispeed t rate
  | none => t

/-- `cfsetospeed(&t, (speed_t)v)` for an integer `v`, as `cfsetispeed_int`. -/
def cfsetospeed_int (t : termios) (v : Int) : termios :=
  match speed_t.of_code (uint_of_int v) with
  | some rate => cfsetospeed t rate
  | none => t

/-- `void gpsd_tty_init(session)`, serial.c lines 235-242 (`zerokill` and `reawake` are
not in the model). -/
def gpsd_tty_init (session : gps_device_t) : gps_device_t :=
  { session with
    gpsdata := { session.gpsdata with gps_fd := -1 }
    saved_baud := -1 }

/-- `speed_t gpsd_get_speed(dev)`, serial.c lines 420-423. -/
def gpsd_get_speed (dev : gps_device_t) : Nat := uint_of_int (code2speed (cfgetospeed dev.ttyset))

/-- `speed_t gpsd_get_speed_old(dev)`, serial.c lines 425-428. -/
def gpsd_get_speed_old (dev : gps_device_t) : Nat :=
  uint_of_int (code2speed (cfgetospeed dev.ttyset_old))

/-- Modelled from the spec: `gpsd_switch_driver` of gpsd/libgpsd_core.c (not under src/):
"bind the driver name": the session gets the driver of that name from the driver
table, if there is one. -/
def gpsd_switch_driver (E : Env) (session : gps_device_t) (type_name : String) : gps_device_t :=
  match E.gpsd_drivers.find? (fun dp => dp.type_name == type_name) with
  | some dp => { session with device_type := some dp }
  | none => session

/-- What `connect` on the RFCOMM socket answers. -/
inductive connect_answer where
  | connected | in_progress | failed
  deriving DecidableEq

/-- What the operating system answers during one `gpsd_serial_open`: `stat` on the path;
whether the Bluetooth branch is taken (`ENABLE_BLUEZ` and `0 == bachk(path)`), with
the answers of `socket` and `connect`; the answers of the first `open` and of the
read-only retry; `fusercount`; `tcgetattr` (`none`: it failed); and the two clock
readings, inside `gpsd_set_speed` and at the end. -/
structure open_answers where
  stat : Option stat_t
  bachk : Bool
  bt_socket : Int
  bt_connect : connect_answer
  open_first : Int
  open_readonly : Int
  fusercount : Int
  tcgetattr : Option termios
  ts_set : timespec
  ts_open : timespec
  deriving DecidableEq

/-- The descriptor `gpsd_serial_open` ends up with in `gps_fd`, serial.c lines 700-767,
and whether it goes on (`false`: it returns `UNALLOCATED_FD` there). -/
def open_descriptor (a : open_answers) : Int × Bool :=
  if a.bachk then
    if a.bt_socket < 0 then (a.bt_socket, false)
    else if a.bt_connect = connect_answer.failed then (a.bt_socket, false)
    else (a.bt_socket, true)
  else if a.open_first = -1 then
    if a.open_readonly = -1 then (a.open_readonly, false)
    else (a.open_readonly, true)
  else (a.open_first, true)

/-- The initial hunt point of `gpsd_serial_open`, serial.c lines 865-877: the speed,
parity and stop bits it hands to `gpsd_set_speed`. -/
def open_hunt_point (session : gps_device_t) : Nat × Int × Nat :=
  let new_speed : Nat :=
    if 0 < session.context.fixed_port_speed then uint_of_int session.context.fixed_port_speed
    else gpsd_get_speed_old session
  if session.context.fixed_port_framing.getD 0 0 = 0 then (new_speed, 78, 1)
  else
    (new_speed, session.context.fixed_port_framing.getD 1 0,
      uint_of_int (session.context.fixed_port_framing.getD 2 0 - 48))

/-- The first part of the termios stage of `gpsd_serial_open`, serial.c lines 821-864,
entered once `tcgetattr` has answered `old`: keep the old termios, write `saved_baud`
(the fixed port speed when there is one) to the line, set the raw flags, reset the
hunt index. -/
def open_prepare (session : gps_device_t) (old : termios) : gps_device_t :=
  let session := { session with ttyset_old := old, ttyset := old }
  let session :=
    if 0 < session.context.fixed_port_speed then
      { session with saved_baud := session.context.fixed_port_speed }
    else session
  let session :=
    if session.saved_baud ≠ -1 then
      let t := cfsetospeed_int (cfsetispeed_int session.ttyset session.saved_baud)
        session.saved_baud
      { session with
        ttyset := t
        calls := session.calls ++
          [syscall.tcsetattr session.gpsdata.gps_fd t, syscall.tcflush session.gpsdata.gps_fd] }
    else session
  let t := session.ttyset
  let t := { t with c_cc := List.replicate t.c_cc.length 0 }
  let t := { t with c_cflag := clear_bits t.c_cflag (PARENB ||| PARODD ||| CRTSCTS ||| CSTOPB) }
  let t := { t with c_cflag := t.c_cflag ||| (CREAD ||| CLOCAL) }
  let t := { t with c_iflag := 0, c_oflag := 0, c_lflag := 0 }
  { session with ttyset := t, baudindex := 0 }

/-- The end of `gpsd_serial_open`, serial.c lines 884-895: the framing a block device
reports, the hunt clock, the descriptor as return value. -/
def open_finish (session : gps_device_t) (ts_open : timespec) : Int × gps_device_t :=
  let session :=
    if session.sourcetype = SOURCE_UNKNOWN ∨ session.sourcetype = SOURCE_BLOCKDEV then
      { session with
        gpsdata := { session.gpsdata with
          dev := { session.gpsdata.dev with parity := 78, stopbits := 1 } } }
    else session
  let session := { session with ts_startCurrentBaud := ts_open }
  (session.gpsdata.gps_fd, session)

/-- The termios stage of `gpsd_serial_open`, serial.c lines 821-895, entered once
`tcgetattr` has answered `old`. -/
def open_termios_stage (E : Env) (session : gps_device_t) (a : open_answers) (old : termios) :
    Int × gps_device_t :=
  let session := open_prepare session old
  let point := open_hunt_point session
  open_finish (gpsd_set_speed E session point.1 point.2.1 point.2.2 a.ts_set) a.ts_open

/-- `int gpsd_serial_open(session)`, serial.c lines 668-896.  The log keeps the termios
writes only (`open`, `close`, `ioctl`, `fcntl` are not logged); `servicetype` is not
in the model; `SOURCE_BLOCKDEV >= sourcetype` holds for `SOURCE_UNKNOWN` and
`SOURCE_BLOCKDEV`, the first two values of the enumeration. -/
def gpsd_serial_open (E : Env) (session : gps_device_t) (a : open_answers) :
    Int × gps_device_t :=
  let session :=
    { session with sourcetype := gpsd_classify session.gpsdata.dev.path a.stat }
  if session.sourcetype = SOURCE_UNKNOWN then (UNALLOCATED_FD, session)
  else if session.sourcetype = SOURCE_PPS then
    (PLACEHOLDING_FD, gpsd_switch_driver E session "PPS")
  else
    let d := open_descriptor a
    let session := { session with gpsdata := { session.gpsdata with gps_fd := d.1 } }
    if d.2 = false then (UNALLOCATED_FD, session)
    else if ¬ (session.sourcetype = SOURCE_PTY ∨ session.sourcetype = SOURCE_BLUETOOTH)
        ∧ 1 < a.fusercount then
      (UNALLOCATED_FD,
        { session with gpsdata := { session.gpsdata with gps_fd := UNALLOCATED_FD } })
    else
      let session := { session with lexer := { session.lexer with type := BAD_PACKET } }
      if E.isatty session.gpsdata.gps_fd = false then (session.gpsdata.gps_fd, session)
      else
        match a.tcgetattr with
        | none => (UNALLOCATED_FD, session)
        | some old => open_termios_stage E session a old

/-- `void gpsd_assert_sync(session)`, serial.c lines 1002-1011. -/
def gpsd_assert_sync (session : gps_device_t) : gps_device_t :=
  if session.saved_baud = -1 then
    { session with saved_baud := ((cfgetispeed session.ttyset).code : Int) }
  else session

/-- `void gpsd_close(session)`, serial.c lines 1013-1064.  `attr` is what `tcgetattr`
answers at line 1030 (`none`: it failed); `ioctl`, `tcdrain` and `close` are not
logged. -/
def gpsd_close (E : Env) (session : gps_device_t) (attr : Option termios) : gps_device_t :=
  if BAD_SOCKET session.gpsdata.gps_fd then session
  else
    let fd := session.gpsdata.gps_fd
    let session :=
      if E.isatty fd then
        let session :=
          match attr with
          | some t => { session with ttyset_old := t }
          | none => session
        let t := cfsetospeed (cfsetispeed session.ttyset B0) B0
        let session :=
          { session with ttyset := t, calls := session.calls ++ [syscall.tcsetattr fd t] }
        let old := { session.ttyset_old with c_cflag := session.ttyset_old.c_cflag ||| HUPCL }
        { session with ttyset_old := old, calls := session.calls ++ [syscall.tcsetattr fd old] }
      else session
    { session with gpsdata := { session.gpsdata with gps_fd := -1 } }

/-- The termios of the last `tcsetattr` in a log: what was last written to the device. -/
def last_tcsetattr (calls : List syscall) : Option termios :=
  calls.reverse.findSome? fun c =>
    match c with
    | syscall.tcsetattr _ t => some t
    | _ => none

/-! ## More test inputs -/

/-- A session as allocated (all fields zero) for a path, after `gpsd_tty_init`. -/
def new_session (path : String) : gps_device_t :=
  gpsd_tty_init
    { context := { readonly := false, fixed_port_speed := 0, fixed_port_framing := [] }
      gpsdata := { gps_fd := 0, dev := { path := path, baudrate := 0, parity := 0, stopbits := 0 } }
      sourcetype := SOURCE_UNKNOWN
      ttyset := { c_iflag := 0, c_oflag := 0, c_cflag := 0, c_lflag := 0, c_cc := [],
                  c_ispeed := B0, c_ospeed := B0 }
      ttyset_old := { c_iflag := 0, c_oflag := 0, c_cflag := 0, c_lflag := 0, c_cc := [],
                      c_ispeed := B0, c_ospeed := B0 }
      baudindex := 0
      saved_baud := 0
      lexer := { type := 0, retry_counter := 0 }
      ts_startCurrentBaud := { tv_sec := 0, tv_nsec := 0 }
      device_type := none
      calls := [] }

/-- A line left in cooked mode at 4800 baud, 7E1, with `HUPCL` set
(`c_iflag = ICRNL | IXON`, `c_oflag = OPOST | ONLCR`,
`c_cflag = CS7 | CREAD | PARENB | HUPCL | CLOCAL`). -/
def cooked_4800 : termios :=
  { c_iflag := 0x500, c_oflag := 0x5, c_cflag := 0xDA0, c_lflag := 0x8A3B,
    c_cc := [3, 28, 127, 21, 4, 0, 1, 0], c_ispeed := B4800, c_ospeed := B4800 }

/-- The answers of the operating system for a serial port (character device 4:64)
that opens as descriptor 3, is in use by this process only, and holds the termios
`t`. -/
def tty_answers (t : termios) : open_answers :=
  { stat := some { st_mode := 0x21B0, st_rdev := 0x440 }
    bachk := false
    bt_socket := -1
    bt_connect := connect_answer.failed
    open_first := 3
    open_readonly := -1
    fusercount := 1
    tcgetattr := some t
    ts_set := { tv_sec := 100, tv_nsec := 0 }
    ts_open := { tv_sec := 100, tv_nsec := 200000000 } }

/-- The session of a port that was opened at 9600 baud, reached sync
(`gpsd_assert_sync`) and was closed again, the device answering `tcgetattr` with what
was last written to it. -/
def synced_session : gps_device_t :=
  gpsd_close (spec_env 9216)
    (gpsd_assert_sync
      (gpsd_serial_open (spec_env 9216) (new_session "/dev/ttyS0") (tty_answers line_9600)).2)
    (last_tcsetattr
      (gpsd_serial_open (spec_env 9216) (new_session "/dev/ttyS0")
        (tty_answers line_9600)).2.calls)

/-! ## Runs of the serial interface -/

/-- One call of the serial interface on a session, with what the operating system
answers during it. -/
inductive serial_call where
  | serial_open (a : open_answers)
  | set_speed (speed : Nat) (parity : Int) (stopbits : Nat) (now : timespec)
  | next_hunt_setting (ts_now ts_set : timespec)
  | assert_sync
  | close (attr : Option termios)

/-- The session after one call. -/
def serial_step (E : Env) (s : gps_device_t) : serial_call → gps_device_t
  | serial_call.serial_open a => (gpsd_serial_open E s a).2
  | serial_call.set_speed speed parity stopbits now => gpsd_set_speed E s speed parity stopbits now
  | serial_call.next_hunt_setting ts_now ts_set => (gpsd_next_hunt_setting E s ts_now ts_set).2
  | serial_call.assert_sync => gpsd_assert_sync s
  | serial_call.close attr => gpsd_close E s attr

/-- The session after a sequence of calls. -/
def serial_run (E : Env) (s : gps_device_t) : List serial_call → gps_device_t
  | [] => s
  | c :: cs => serial_run E (serial_step E s c) cs

/-- The input speed of the line (as the integer `gpsd_assert_sync` would store) at each
call of `gpsd_assert_sync` in a sequence of calls, in order. -/
def synced_speeds (E : Env) (s : gps_device_t) : List serial_call → List Int
  | [] => []
  | serial_call.assert_sync :: cs =>
      ((cfgetispeed s.ttyset).code : Int) :: synced_speeds E (gpsd_assert_sync s) cs
  | c :: cs => synced_speeds E (serial_step E s c) cs

/-- A newly allocated session under a context with fixed port speed 9600. -/
def new_session_fixed (path : String) : gps_device_t :=
  { new_session path with
    context := { readonly := false, fixed_port_speed := 9600, fixed_port_framing := [] } }

/-! ## The Qualcomm PDS driver (drivers/driver_pds.c)

The driver keeps two statics, the registry `pds_devices` and the transaction counter
`txn_id` of the event hook; they are carried in `pds_world` together with the log of
the socket calls.  Buffers are lists of bytes; multi-byte fields are little-endian (the
driver overlays packed structs on the buffers, on a little-endian machine). -/

def QMI_PDS_MAX : Nat := 16

def QMI_PDS_SERVICE_ID : Nat := 0x10

def QMI_PDS_VERSION : Nat := 0x2

def QMI_PDS_PATH_STARTS : Nat := 6

def QMI_REQUEST : Nat := 0

def QMI_INDICATION : Nat := 4

def QMI_LOC_REG_EVENTS : Nat := 0x21

def QMI_TLV_EVENT_MASK : Nat := 1

def QMI_EVENT_MASK_NMEA : Nat := 4

def QMI_LOC_START : Nat := 0x22

def QMI_LOC_STOP : Nat := 0x23

def QMI_TLV_SESSION_ID : Nat := 1

def QMI_LOC_EVENT_NMEA : Nat := 0x26

def QMI_TLV_NMEA : Nat := 1

/-- The size of the packed `struct qmi_header` (`uint8_t`, three `uint16_t`). -/
def sizeof_qmi_header : Nat := 7

/-- The size of the packed `struct qmi_tlv` without its value (`uint8_t`, `uint16_t`). -/
def sizeof_qmi_tlv : Nat := 3

/-- The constants of `<linux/qrtr.h>` and `<sys/socket.h>` the driver uses. -/
def QRTR_PORT_CTRL : Nat := 0xfffffffe

def QRTR_TYPE_NEW_SERVER : Nat := 4

def QRTR_TYPE_NEW_LOOKUP : Nat := 10

def AF_QIPCRTR : Nat := 42

/-- The size of `struct sockaddr_qrtr` (`sq_family`, padding, `sq_node`, `sq_port`). -/
def sizeof_sockaddr_qrtr : Nat := 12

def EAGAIN : Nat := 11

/-- The packet type `NMEA_PACKET` (include/gpsd.h). -/
def NMEA_PACKET : Int := 1

/-- The conversion of an integer to `int` (32 bits, two's complement). -/
def int_cast (v : Int) : Int := (v + 2 ^ 31) % 2 ^ 32 - 2 ^ 31

/-- The conversion of an integer to `uint16_t`. -/
def uint16_cast (v : Int) : Nat := (v % 2 ^ 16).toNat

/-- The C string a path stands for, as the driver sees it through `strlen`, `strcmp`,
`strtol` and pointer arithmetic: the bytes of the path (UTF-8) up to the first NUL. -/
def c_string (path : String) : List Nat :=
  ((path.toList.flatMap String.utf8EncodeChar).map UInt8.toNat).takeWhile (fun b => b != 0)

/-- `isspace` in the C locale, on a byte: space and the control characters 9 to 13. -/
def isspace (c : Nat) : Bool := c == 32 || (9 ≤ c && c ≤ 13)

def LONG_MAX : Int := 2 ^ 63 - 1

def LONG_MIN : Int := -(2 ^ 63)

/-- The decimal digits (bytes 48 to 57) at the start of a string: the value accumulated
and the number of bytes taken. -/
def strtol_digits : List Nat → Nat → Nat → Nat × Nat
  | [], acc, n => (acc, n)
  | c :: cs, acc, n =>
    if 48 ≤ c ∧ c ≤ 57 then strtol_digits cs (10 * acc + (c - 48)) (n + 1) else (acc, n)

/-- The C library `strtol(nptr, &endptr, 10)` with a 64-bit `long`, on the bytes of a
string: white space, an optional sign (`-` is 45, `+` is 43), decimal digits; the value
is clamped to the range of `long`.  The second component is `endptr - nptr`, which is 0
when there is no digit to convert. -/
def strtol (nptr : List Nat) : Int × Nat :=
  let s := nptr.dropWhile isspace
  let neg := s.head? == some 45
  let signed := neg || s.head? == some 43
  let body := if signed then s.tail else s
  let r := strtol_digits body 0 0
  if r.2 = 0 then (0, 0)
  else
    let v : Int := if neg then -(r.1 : Int) else (r.1 : Int)
    (max LONG_MIN (min LONG_MAX v), (nptr.length - body.length) + r.2)

/-- `enum servicetype_t` (include/gpsd.h). -/
inductive servicetype_t where
  | service_unknown | service_sensor | service_dgpsip | service_ntrip
  deriving DecidableEq

open servicetype_t

/-- `session->driver.pds`. -/
structure pds_t where
  ready : Bool
  hostid : Int
  pds_node : Nat
  pds_port : Nat
  deriving DecidableEq

/-- `struct gps_lexer_t`, the fields the PDS driver touches; `inbuffer` and `outbuffer`
are the byte arrays. -/
structure pds_lexer_t where
  type : Int
  inbuffer : List Nat
  outbuffer : List Nat
  outbuflen : Nat
  deriving DecidableEq

/-- `struct gps_device_t`, the fields the PDS driver touches. -/
structure pds_device_t where
  gpsdata : gps_data_t
  sourcetype : sourcetype_t
  servicetype : servicetype_t
  lexer : pds_lexer_t
  driver_pds : pds_t
  device_type : Option gps_type_t
  deriving DecidableEq

/-- The socket calls of the driver and the dispatch of the driver hook.  `sendto` carries
the control packet (`cmd`, `service`, `instance`, `node`, `port`) and the port it is
addressed to, `send` the bytes of the datagram. -/
inductive pds_call where
  | socket
  | fcntl_nonblock (fd : Int)
  | getsockname (fd : Int)
  | close (fd : Int)
  | sendto (fd : Int) (cmd service inst node port : Nat) (sq_port : Nat)
  | recvfrom (fd : Int)
  | connect (fd : Int) (sq_node sq_port : Nat)
  | send (fd : Int) (buf : List Nat)
  | event_hook (event : event_t)
  deriving DecidableEq

/-- The statics of driver_pds.c and the log of its calls.  An occupied slot of
`pds_devices` is represented by the path of the session it points to, the one thing
the driver reads through the pointer; only the slots below `QMI_PDS_MAX` exist. -/
structure pds_world where
  pds_devices : Nat → Option String
  txn_id : Int
  calls : List pds_call

/-- `const struct gps_type_t driver_pds`, lines 395-404. -/
def driver_pds : gps_type_t := { type_name := "Qualcomm PDS", event_hook := true }

/-- Modelled from the spec: `gpsd_switch_driver` of gpsd/libgpsd_core.c (not under src/),
on a PDS session: "Bind driver": the session gets the driver of that name from the
driver table, if there is one. -/
def pds_switch_driver (E : Env) (session : pds_device_t) (type_name : String) : pds_device_t :=
  match E.gpsd_drivers.find? (fun dp => dp.type_name == type_name) with
  | some dp => { session with device_type := some dp }
  | none => session

/-- A 16-bit field in memory. -/
def le16 (v : Nat) : List Nat := [v % 256, v / 256 % 256]

/-- A 64-bit field in memory. -/
def le64 (v : Nat) : List Nat := (List.range 8).map (fun i => v / 256 ^ i % 256)

/-- The bytes of a `struct qmi_header`. -/
def qmi_header (type txn msg len : Nat) : List Nat :=
  [type % 256] ++ le16 txn ++ le16 msg ++ le16 len

/-- The bytes of a `struct qmi_tlv` with its value. -/
def qmi_tlv (key len : Nat) (value : List Nat) : List Nat :=
  [key % 256] ++ le16 len ++ value

/-- The byte at an index of a buffer. -/
def rd8 (buf : List Nat) (i : Nat) : Nat := buf.getD i 0 % 256

/-- The `uint16_t` at an index of a buffer. -/
def rd16 (buf : List Nat) (i : Nat) : Nat := rd8 buf i + 256 * rd8 buf (i + 1)

/-- `memcpy(dst, src, n)` on buffers: the first `n` bytes of `dst` become those of `src`. -/
def memcpy (dst src : List Nat) (n : Nat) : List Nat := src.take n ++ dst.drop n

/-- `static void qmi_pds_event_hook(session, event)`, lines 195-280.  `send1` is what the
`send` of the REG_EVENTS request answers; the results of the other `send` calls only
select a log message. -/
def qmi_pds_event_hook (w : pds_world) (session : pds_device_t) (event : event_t)
    (send1 : Int) : pds_world :=
  let sock := session.gpsdata.gps_fd
  match event with
  | event_deactivate =>
    if !session.driver_pds.ready then w
    else
      let buf :=
        qmi_header QMI_REQUEST (uint16_cast w.txn_id) QMI_LOC_STOP (sizeof_qmi_tlv + 1)
          ++ qmi_tlv QMI_TLV_SESSION_ID 1 [1]
      { w with txn_id := int_cast (w.txn_id + 1), calls := w.calls ++ [pds_call.send sock buf] }
  | event_reactivate =>
    if !session.driver_pds.ready then w
    else
      let buf :=
        qmi_header QMI_REQUEST (uint16_cast w.txn_id) QMI_LOC_REG_EVENTS (sizeof_qmi_tlv + 8)
          ++ qmi_tlv QMI_TLV_EVENT_MASK 8 (le64 QMI_EVENT_MASK_NMEA)
      let w :=
        { w with txn_id := int_cast (w.txn_id + 1), calls := w.calls ++ [pds_call.send sock buf] }
      if send1 < 0 then w
      else
        let buf :=
          qmi_header QMI_REQUEST (uint16_cast w.txn_id) QMI_LOC_START (sizeof_qmi_tlv + 1)
            ++ qmi_tlv QMI_TLV_SESSION_ID 1 [1]
        { w with txn_id := int_cast (w.txn_id + 1), calls := w.calls ++ [pds_call.send sock buf] }
  | _ => w

/-- The control packet and the sender address `recvfrom` delivers in `qmi_pds_connect`,
with the results of `recvfrom` and `connect` and of the first `send` of the hook. -/
structure pds_connect_answers where
  recvfrom_ret : Int
  sl : Nat
  sq_port : Nat
  cmd : Nat
  service : Nat
  inst : Nat
  node : Nat
  port : Nat
  connect_ret : Int
  send1 : Int

/-- Lines 69-79 of `qmi_pds_connect`: the host id taken from the path, and whether the
path is refused (`endptr == hostname`).  `hostname` is the path from its byte number
`QMI_PDS_PATH_STARTS` on (for a shorter path, which `qmi_pds_open` refuses, the model
reads the empty string). -/
def pds_hostid (path : String) : Int × Bool :=
  let hostname := (c_string path).drop QMI_PDS_PATH_STARTS
  if hostname = c_string "any" then (-1, false)
  else
    let r := strtol hostname
    (int_cast r.1, decide (r.2 = 0))

/-- `static ssize_t qmi_pds_connect(session)`, lines 58-133.  The function runs as the
`get_packet` of `driver_pds`, so the hook it calls through `session->device_type` is
`qmi_pds_event_hook`. -/
def qmi_pds_connect (w : pds_world) (session : pds_device_t) (a : pds_connect_answers) :
    Int × pds_world × pds_device_t :=
  let session := { session with lexer := { session.lexer with outbuflen := 0 } }
  let h := pds_hostid session.gpsdata.dev.path
  let session := { session with driver_pds := { session.driver_pds with hostid := h.1 } }
  if h.2 then (-1, w, session)
  else
    let w := { w with calls := w.calls ++ [pds_call.recvfrom session.gpsdata.gps_fd] }
    if a.recvfrom_ret < 0 then (-1, w, session)
    else if a.sl ≠ sizeof_sockaddr_qrtr ∨ a.sq_port ≠ QRTR_PORT_CTRL then (1, w, session)
    else if a.cmd ≠ QRTR_TYPE_NEW_SERVER then (1, w, session)
    else if a.service = 0 ∧ a.inst = 0 ∧ a.node = 0 ∧ a.port = 0 then (-1, w, session)
    else if session.driver_pds.hostid ≠ -1 ∧ session.driver_pds.hostid ≠ int_cast a.node then
      (1, w, session)
    else
      let session :=
        { session with
          driver_pds := { session.driver_pds with pds_node := a.node, pds_port := a.port } }
      let w :=
        { w with
          calls := w.calls ++ [pds_call.connect session.gpsdata.gps_fd
            session.driver_pds.pds_node session.driver_pds.pds_port] }
      if a.connect_ret < 0 then (-1, w, session)
      else
        let session := { session with driver_pds := { session.driver_pds with ready := true } }
        let w := { w with calls := w.calls ++ [pds_call.event_hook event_reactivate] }
        (1, qmi_pds_event_hook w session event_reactivate a.send1, session)

/-- What `recvfrom` answers in `qmi_pds_get_packet`: its result, `errno`, and the bytes
of the datagram. -/
structure pds_recv_answers where
  ret : Int
  errno : Nat
  data : List Nat

/-- The loop of `qmi_pds_get_packet`, lines 167-182, from `offset` on; `ret` is the
length received.  `fuel` bounds the number of times the loop condition is evaluated;
`none` means the bound was reached with the loop still running. -/
def pds_tlv_walk (ret : Nat) : Nat → Nat → pds_lexer_t → Option pds_lexer_t
  | 0, _, _ => none
  | fuel + 1, offset, lexer =>
    if offset < ret then
      let len := rd16 lexer.inbuffer (offset + 1)
      if offset + sizeof_qmi_tlv + len > ret then some lexer
      else if rd8 lexer.inbuffer offset = QMI_TLV_NMEA then
        some { lexer with
               outbuffer :=
                 (memcpy lexer.outbuffer (lexer.inbuffer.drop (offset + sizeof_qmi_tlv)) len).set
                   len 0
               type := NMEA_PACKET
               outbuflen := len }
      else pds_tlv_walk ret fuel (offset + len) lexer
    else some lexer

/-- `static ssize_t qmi_pds_get_packet(session)`, lines 135-185, with the loop bounded
by `fuel`. -/
def qmi_pds_get_packet (w : pds_world) (session : pds_device_t) (a : pds_recv_answers)
    (fuel : Nat) : Option (Int × pds_world × pds_device_t) :=
  let w := { w with calls := w.calls ++ [pds_call.recvfrom session.gpsdata.gps_fd] }
  if a.ret < 0 ∧ a.errno = EAGAIN then
    some (1, w, { session with lexer := { session.lexer with outbuflen := 0 } })
  else if a.ret < 0 then some (-1, w, session)
  else
    let buf := memcpy session.lexer.inbuffer a.data a.ret.toNat
    let session := { session with lexer := { session.lexer with inbuffer := buf } }
    if rd8 buf 0 ≠ QMI_INDICATION ∨ rd16 buf 3 ≠ QMI_LOC_EVENT_NMEA then
      some (a.ret, w, { session with lexer := { session.lexer with outbuflen := 0 } })
    else
      match pds_tlv_walk a.ret.toNat fuel sizeof_qmi_header session.lexer with
      | none => none
      | some lexer => some (a.ret, w, { session with lexer := lexer })

/-- What the operating system answers during one `qmi_pds_open`: the descriptor from
`socket`, the result of `getsockname` with the family and the length of the address
it fills in, and the result of `sendto`. -/
structure pds_open_answers where
  socket : Int
  getsockname_ret : Int
  sq_family : Nat
  sl : Nat
  sendto_ret : Int

/-- The first loop of `qmi_pds_open`, lines 311-321: some occupied slot holds a session
whose path `strcmp` finds equal to this path. -/
def pds_path_registered (pds_devices : Nat → Option String) (path : String) : Bool :=
  (List.range QMI_PDS_MAX).any (fun i => (pds_devices i).map c_string == some (c_string path))

/-- The second loop of `qmi_pds_open`, lines 323-326: the index of the first free slot,
`QMI_PDS_MAX` when there is none. -/
def pds_free_slot (pds_devices : Nat → Option String) : Nat :=
  ((List.range QMI_PDS_MAX).find? (fun i => (pds_devices i).isNone)).getD QMI_PDS_MAX

/-- `int qmi_pds_open(session)`, lines 294-372.  `path` is an array in the session, so
the `NULL` test of line 304 never holds. -/
def qmi_pds_open (E : Env) (w : pds_world) (session : pds_device_t) (a : pds_open_answers) :
    Int × pds_world × pds_device_t :=
  if (c_string session.gpsdata.dev.path).length < QMI_PDS_PATH_STARTS then (-1, w, session)
  else if pds_path_registered w.pds_devices session.gpsdata.dev.path then (-1, w, session)
  else
    let i := pds_free_slot w.pds_devices
    if i = QMI_PDS_MAX then (-1, w, session)
    else
      let w :=
        { w with
          pds_devices := fun j => if j = i then some session.gpsdata.dev.path else w.pds_devices j
          calls := w.calls ++ [pds_call.socket] }
      let sock := a.socket
      if BAD_SOCKET sock then (-1, w, session)
      else
        let w :=
          { w with calls := w.calls ++ [pds_call.fcntl_nonblock sock, pds_call.getsockname sock] }
        if a.getsockname_ret < 0 ∨ a.sq_family ≠ AF_QIPCRTR ∨ a.sl ≠ sizeof_sockaddr_qrtr then
          (-1, { w with calls := w.calls ++ [pds_call.close sock] }, session)
        else
          let w :=
            { w with
              calls := w.calls ++ [pds_call.sendto sock QRTR_TYPE_NEW_LOOKUP QMI_PDS_SERVICE_ID
                QMI_PDS_VERSION 0 0 QRTR_PORT_CTRL] }
          if a.sendto_ret < 0 then
            (-1, { w with calls := w.calls ++ [pds_call.close sock] }, session)
          else
            let session := pds_switch_driver E session "Qualcomm PDS"
            let session :=
              { session with
                gpsdata := { session.gpsdata with gps_fd := sock }
                sourcetype := SOURCE_QRTR
                servicetype := service_sensor }
            (session.gpsdata.gps_fd, w, session)

/-! ## Test inputs for the PDS driver -/

/-- A PDS session as allocated for a path, with 32-byte buffers filled with 0xFF. -/
def new_pds_session (path : String) : pds_device_t :=
  { gpsdata := { gps_fd := 5, dev := { path := path, baudrate := 0, parity := 0, stopbits := 0 } }
    sourcetype := SOURCE_QRTR
    servicetype := service_sensor
    lexer := { type := BAD_PACKET, inbuffer := List.replicate 32 255,
               outbuffer := List.replicate 32 255, outbuflen := 0 }
    driver_pds := { ready := false, hostid := 0, pds_node := 0, pds_port := 0 }
    device_type := some driver_pds }

/-- The statics at program start, with an empty log. -/
def new_pds_world : pds_world :=
  { pds_devices := fun _ => none, txn_id := 0, calls := [] }

/-- The statics when slot 3 of the registry holds a session with path "pds://any". -/
def registered_pds_world : pds_world :=
  { pds_devices := fun i => if i = 3 then some "pds://any" else none, txn_id := 0, calls := [] }

/-- The session with another path. -/
def pds_with_path (session : pds_device_t) (path : String) : pds_device_t :=
  { session with gpsdata := { session.gpsdata with dev := { session.gpsdata.dev with path := path } } }

/-- The answers during a discovery step that receives, from the control port,
`NEW_SERVER{service = 0x10, instance = 2, node, port}`, with `connect` and `send`
succeeding. -/
def new_server_answers (node port : Nat) : pds_connect_answers :=
  { recvfrom_ret := 20, sl := 12, sq_port := 0xfffffffe, cmd := 4, service := 0x10, inst := 2,
    node := node, port := port, connect_ret := 0, send1 := 18 }

/-- The datagram has the address length of a QRTR sender and comes from the control
port (line 89). -/
@[reducible]
def from_ctrl_port (a : pds_connect_answers) : Prop :=
  a.sl = sizeof_sockaddr_qrtr ∧ a.sq_port = QRTR_PORT_CTRL

/-- The server fields of the control packet are all zero (lines 99-100). -/
@[reducible]
def end_of_lookup (a : pds_connect_answers) : Prop :=
  a.service = 0 ∧ a.inst = 0 ∧ a.node = 0 ∧ a.port = 0

/-- The discovery state of the second session is that of the first. -/
@[reducible]
def pds_unchanged (s s2 : pds_device_t) : Prop :=
  s2.driver_pds.ready = s.driver_pds.ready ∧ s2.driver_pds.pds_node = s.driver_pds.pds_node
  ∧ s2.driver_pds.pds_port = s.driver_pds.pds_port

/-- The answers during a discovery step that receives, from the control port, the
`NEW_SERVER` packet with all server fields zero. -/
def end_of_lookup_answers : pds_connect_answers :=
  { recvfrom_ret := 20, sl := 12, sq_port := 0xfffffffe, cmd := 4, service := 0, inst := 0,
    node := 0, port := 0, connect_ret := 0, send1 := 18 }

/-- A PDS session that is ready, on descriptor 5. -/
def ready_pds_session : pds_device_t :=
  { new_pds_session "pds://any" with
    driver_pds := { ready := true, hostid := -1, pds_node := 1, pds_port := 17 } }

/-- The datagram of scenario S6: an `INDICATION` with msg 0x26 and a single TLV
`key = 1, len = 7, value = "$GPGGA,"`. -/
def nmea_indication : pds_recv_answers :=
  { ret := 17, errno := 0,
    data := [4, 0, 0, 0x26, 0, 10, 0, 1, 7, 0, 36, 71, 80, 71, 71, 65, 44] }

/-! ## Reading the framing back (`gpsd_get_parity`, `gpsd_get_stopbits`) -/

/-- `char gpsd_get_parity(dev)`, serial.c (`N` is 78, `O` is 79, `E` is 69). -/
def gpsd_get_parity (dev : gps_device_t) : Int :=
  if dev.ttyset.c_cflag &&& (PARENB ||| PARODD) = (PARENB ||| PARODD) then 79
  else if dev.ttyset.c_cflag &&& PARENB = PARENB then 69
  else 78

/-- `int gpsd_get_stopbits(dev)`, serial.c. -/
def gpsd_get_stopbits (dev : gps_device_t) : Int :=
  if dev.ttyset.c_cflag &&& CS8 = CS8 then 1
  else if dev.ttyset.c_cflag &&& (CS7 ||| CSTOPB) = (CS7 ||| CSTOPB) then 2
  else 0

/-! ## More of the PDS driver: close, and the vocabulary of the TLV walk -/

/-- Modelled from the spec: what `INVALIDATE_SOCKET` of include/gpsd.h (not under src/)
stores in the descriptor ("close it and invalidate"): a value `BAD_SOCKET` rejects. -/
def INVALIDATE_SOCKET : Int := -1

/-- `void qmi_pds_close(session)`, lines 374-393. -/
def qmi_pds_close (w : pds_world) (session : pds_device_t) : pds_world × pds_device_t :=
  let r : pds_world × pds_device_t :=
    if !BAD_SOCKET session.gpsdata.gps_fd then
      ({ w with calls := w.calls ++ [pds_call.close session.gpsdata.gps_fd] },
       { session with gpsdata := { session.gpsdata with gps_fd := INVALIDATE_SOCKET } })
    else (w, session)
  let w := r.1
  let session := r.2
  match (List.range QMI_PDS_MAX).find?
      (fun i => (w.pds_devices i).map c_string == some (c_string session.gpsdata.dev.path)) with
  | some i => ({ w with pds_devices := fun j => if j = i then none else w.pds_devices j }, session)
  | none => (w, session)

/-- The bytes of a well-formed sequence of TLVs, given as (key, value) pairs: for each
one the key byte, the length of the value as a little-endian `u16`, and the value. -/
def spec_encode_tlvs : List (Nat × List Nat) → List Nat
  | [] => []
  | t :: ts => qmi_tlv t.1 t.2.length t.2 ++ spec_encode_tlvs ts

/-- The value of the first TLV with key 1 in a sequence of TLVs. -/
def spec_first_nmea (tlvs : List (Nat × List Nat)) : Option (List Nat) :=
  (tlvs.find? (fun t => t.1 == QMI_TLV_NMEA)).map (fun t => t.2)

/-- What a call of `qmi_pds_get_packet` leaves in view of the caller: the value
returned, the output bytes up to the output length, the output length and the lexer
type (`none` when the loop bound was reached). -/
def pds_output (r : Option (Int × pds_world × pds_device_t)) :
    Option (Int × List Nat × Nat × Int) :=
  r.map (fun x => (x.1, x.2.2.lexer.outbuffer.take x.2.2.lexer.outbuflen,
    x.2.2.lexer.outbuflen, x.2.2.lexer.type))

/-- An `INDICATION` with msg 0x26 carrying two TLVs: key 2 with the one-byte value
0xAA, then key 1 with the value "abc". -/
def two_tlv_indication : pds_recv_answers :=
  { ret := 17, errno := 0,
    data := qmi_header QMI_INDICATION 0 QMI_LOC_EVENT_NMEA 10
      ++ spec_encode_tlvs [(2, [0xAA]), (1, [97, 98, 99])] }

/-- An `INDICATION` with msg 0x26 carrying one TLV with key 2 and an empty value. -/
def empty_tlv_indication : pds_recv_answers :=
  { ret := 10, errno := 0,
    data := qmi_header QMI_INDICATION 0 QMI_LOC_EVENT_NMEA 3 ++ spec_encode_tlvs [(2, [])] }

/-- What the operating system answers during a `qmi_pds_open` in which `socket` fails. -/
def no_socket_answers : pds_open_answers :=
  { socket := -1, getsockname_ret := 0, sq_family := 42, sl := 12, sendto_ret := 20 }

/-- What the operating system answers during a `qmi_pds_open` in which every call
succeeds; the socket is descriptor 7. -/
def good_open_answers : pds_open_answers :=
  { socket := 7, getsockname_ret := 0, sq_family := 42, sl := 12, sendto_ret := 20 }

/-! ## Theorems -/


/-- C1 (defect in the code).  The staircase of `speed2code` has one wrong step: the
branch serving the speeds in `[3000000, 3500000)` (the one under `#ifdef B3000000`)
answers `B3500000`, a rate above the speed, where the largest supported rate at most
that speed is 3000000 with code `B3000000`, which is what the staircase of the
specification gives. -/
theorem speed2code_3000000_rounds_up :
    speed2code 3000000 = B3500000 ∧ spec_round_down 3000000 = some B3000000 := by
  decide

/-- C2 (defect in the code).  `code2speed` has no `case` for `B2000000` to `B4000000`,
the codes `speed2code` answers from 2000000 up: the supported rate 2000000 is coded
as `B2000000` and decoded as 0, so the round trip is not the identity on every
supported rate. -/
theorem code2speed_drops_2000000 :
    (2000000 : Int) ∈ supported_rates.map Prod.fst
    ∧ speed2code 2000000 = B2000000
    ∧ code2speed (speed2code 2000000) = 0 := by
  decide

/-- The staircase of `speed2code`, branch by branch: the interval of speeds each
branch of the `if` chain serves and the code it answers. -/
theorem speed2code_cases (r : Int) :
    (r < 1200 ∧ speed2code r = B300)
    ∨ ((1200 ≤ r ∧ r < 2400) ∧ speed2code r = B1200)
    ∨ ((2400 ≤ r ∧ r < 4800) ∧ speed2code r = B2400)
    ∨ ((4800 ≤ r ∧ r < 9600) ∧ speed2code r = B4800)
    ∨ ((9600 ≤ r ∧ r < 19200) ∧ speed2code r = B9600)
    ∨ ((19200 ≤ r ∧ r < 38400) ∧ speed2code r = B19200)
    ∨ ((38400 ≤ r ∧ r < 57600) ∧ speed2code r = B38400)
    ∨ ((57600 ≤ r ∧ r < 115200) ∧ speed2code r = B57600)
    ∨ ((115200 ≤ r ∧ r < 230400) ∧ speed2code r = B115200)
    ∨ ((230400 ≤ r ∧ r < 460800) ∧ speed2code r = B230400)
    ∨ ((460800 ≤ r ∧ r < 500000) ∧ speed2code r = B460800)
    ∨ ((500000 ≤ r ∧ r < 576000) ∧ speed2code r = B500000)
    ∨ ((576000 ≤ r ∧ r < 921600) ∧ speed2code r = B576000)
    ∨ ((921600 ≤ r ∧ r < 1000000) ∧ speed2code r = B921600)
    ∨ ((1000000 ≤ r ∧ r < 1152000) ∧ speed2code r = B1000000)
    ∨ ((1152000 ≤ r ∧ r < 1500000) ∧ speed2code r = B1152000)
    ∨ ((1500000 ≤ r ∧ r < 2000000) ∧ speed2code r = B1500000)
    ∨ ((2000000 ≤ r ∧ r < 2500000) ∧ speed2code r = B2000000)
    ∨ ((2500000 ≤ r ∧ r < 3000000) ∧ speed2code r = B2500000)
    ∨ ((3000000 ≤ r ∧ r < 3500000) ∧ speed2code r = B3500000)
    ∨ ((3500000 ≤ r ∧ r < 4000000) ∧ speed2code r = B3500000)
    ∨ (r = 4000000 ∧ speed2code r = B4000000)
    ∨ (4000000 < r ∧ speed2code r = B9600) := by
  by_cases h0 : 1200 > r
  · have e : speed2code r = B300 := by unfold speed2code; rw [if_pos h0]
    exact Or.inl (⟨by omega, e⟩)
  by_cases h1 : 2400 > r
  · have e : speed2code r = B1200 := by unfold speed2code; rw [if_neg h0, if_pos h1]
    exact Or.inr (Or.inl (⟨⟨by omega, by omega⟩, e⟩))
  by_cases h2 : 4800 > r
  · have e : speed2code r = B2400 := by unfold speed2code; rw [if_neg h0, if_neg h1, if_pos h2]
    exact Or.inr (Or.inr (Or.inl (⟨⟨by omega, by omega⟩, e⟩)))
  by_cases h3 : 9600 > r
  · have e : speed2code r = B4800 := by unfold speed2code; rw [if_neg h0, if_neg h1, if_neg h2, if_pos h3]
    exact Or.inr (Or.inr (Or.inr (Or.inl (⟨⟨by omega, by omega⟩, e⟩))))
  by_cases h4 : 19200 > r
  · have e : speed2code r = B9600 := by unfold speed2code; rw [if_neg h0, if_neg h1, if_neg h2, if_neg h3, if_pos h4]
    exact Or.inr (Or.inr (Or.inr (Or.inr (Or.inl (⟨⟨by omega, by omega⟩, e⟩)))))
  by_cases h5 : 38400 > r
  · have e : speed2code r = B19200 := by unfold speed2code; rw [if_neg h0, if_neg h1, if_neg h2, if_neg h3, if_neg h4, if_pos h5]
    exact Or.inr (Or.inr (Or.inr (Or.inr (Or.inr (Or.inl (⟨⟨by omega, by omega⟩, e⟩))))))
  by_cases h6 : 57600 > r
  · have e : speed2code r = B38400 := by unfold speed2code; rw [if_neg h0, if_neg h1, if_neg h2, if_neg h3, if_neg h4, if_neg h5, if_pos h6]
    exact Or.inr (Or.inr (Or.inr (Or.inr (Or.inr (Or.inr (Or.inl (⟨⟨by omega, by omega⟩, e⟩)))))))
  by_cases h7 : 115200 > r
  · have e : speed2code r = B57600 := by unfold speed2code; rw [if_neg h0, if_neg h1, if_neg h2, if_neg h3, if_neg h4, if_neg h5, if_neg h6, if_pos h7]
    exact Or.inr (Or.inr (Or.inr (Or.inr (Or.inr (Or.inr (Or.inr (Or.inl (⟨⟨by omega, by omega⟩, e⟩))))))))
  by_cases h8 : 230400 > r
  · have e : speed2code r = B115200 := by unfold speed2code; rw [if_neg h0, if_neg h1, if_neg h2, if_neg h3, if_neg h4, if_neg h5, if_neg h6, if_neg h7, if_pos h8]
    exact Or.inr (Or.inr (Or.inr (Or.inr (Or.inr (Or.inr (Or.inr (Or.inr (Or.inl (⟨⟨by omega, by omega⟩, e⟩)))))))))
  by_cases h9 : 460800 > r
  · have e : speed2code r = B230400 := by unfold speed2code; rw [if_neg h0, if_neg h1, if_neg h2, if_neg h3, if_neg h4, if_neg h5, if_neg h6, if_neg h7, if_neg h8, if_pos h9]
    exact Or.inr (Or.inr (Or.inr (Or.inr (Or.inr (Or.inr (Or.inr (Or.inr (Or.inr (Or.inl (⟨⟨by omega, by omega⟩, e⟩))))))))))
  by_cases h10 : 500000 > r
  · have e : speed2code r = B460800 := by unfold speed2code; rw [if_neg h0, if_neg h1, if_neg h2, if_neg h3, if_neg h4, if_neg h5, if_neg h6, if_neg h7, if_neg h8, if_neg h9, if_pos h10]
    exact Or.inr (Or.inr (Or.inr (Or.inr (Or.inr (Or.inr (Or.inr (Or.inr (Or.inr (Or.inr (Or.inl (⟨⟨by omega, by omega⟩, e⟩)))))))))))
  by_cases h11 : 576000 > r
  · have e : speed2code r = B500000 := by unfold speed2code; rw [if_neg h0, if_neg h1, if_neg h2, if_neg h3, if_neg h4, if_neg h5, if_neg h6, if_neg h7, if_neg h8, if_neg h9, if_neg h10, if_pos h11]
    exact Or.inr (Or.inr (Or.inr (Or.inr (Or.inr (Or.inr (Or.inr (Or.inr (Or.inr (Or.inr (Or.inr (Or.inl (⟨⟨by omega, by omega⟩, e⟩))))))))))))
  by_cases h12 : 921600 > r
  · have e : speed2code r = B576000 := by unfold speed2code; rw [if_neg h0, if_neg h1, if_neg h2, if_neg h3, if_neg h4, if_neg h5, if_neg h6, if_neg h7, if_neg h8, if_neg h9, if_neg h10, if_neg h11, if_pos h12]
    exact Or.inr (Or.inr (Or.inr (Or.inr (Or.inr (Or.inr (Or.inr (Or.inr (Or.inr (Or.inr (Or.inr (Or.inr (Or.inl (⟨⟨by omega, by omega⟩, e⟩)))))))))))))
  by_cases h13 : 1000000 > r
  · have e : speed2code r = B921600 := by unfold speed2code; rw [if_neg h0, if_neg h1, if_neg h2, if_neg h3, if_neg h4, if_neg h5, if_neg h6, if_neg h7, if_neg h8, if_neg h9, if_neg h10, if_neg h11, if_neg h12, if_pos h13]
    exact Or.inr (Or.inr (Or.inr (Or.inr (Or.inr (Or.inr (Or.inr (Or.inr (Or.inr (Or.inr (Or.inr (Or.inr (Or.inr (Or.inl (⟨⟨by omega, by omega⟩, e⟩))))))))))))))
  by_cases h14 : 1152000 > r
  · have e : speed2code r = B1000000 := by unfold speed2code; rw [if_neg h0, if_neg h1, if_neg h2, if_neg h3, if_neg h4, if_neg h5, if_neg h6, if_neg h7, if_neg h8, if_neg h9, if_neg h10, if_neg h11, if_neg h12, if_neg h13, if_pos h14]
    exact Or.inr (Or.inr (Or.inr (Or.inr (Or.inr (Or.inr (Or.inr (Or.inr (Or.inr (Or.inr (Or.inr (Or.inr (Or.inr (Or.inr (Or.inl (⟨⟨by omega, by omega⟩, e⟩)))))))))))))))
  by_cases h15 : 1500000 > r
  · have e : speed2code r = B1152000 := by unfold speed2code; rw [if_neg h0, if_neg h1, if_neg h2, if_neg h3, if_neg h4, if_neg h5, if_neg h6, if_neg h7, if_neg h8, if_neg h9, if_neg h10, if_neg h11, if_neg h12, if_neg h13, if_neg h14, if_pos h15]
    exact Or.inr (Or.inr (Or.inr (Or.inr (Or.inr (Or.inr (Or.inr (Or.inr (Or.inr (Or.inr (Or.inr (Or.inr (Or.inr (Or.inr (Or.inr (Or.inl (⟨⟨by omega, by omega⟩, e⟩))))))))))))))))
  by_cases h16 : 2000000 > r
  · have e : speed2code r = B1500000 := by unfold speed2code; rw [if_neg h0, if_neg h1, if_neg h2, if_neg h3, if_neg h4, if_neg h5, if_neg h6, if_neg h7, if_neg h8, if_neg h9, if_neg h10, if_neg h11, if_neg h12, if_neg h13, if_neg h14, if_neg h15, if_pos h16]
    exact Or.inr (Or.inr (Or.inr (Or.inr (Or.inr (Or.inr (Or.inr (Or.inr (Or.inr (Or.inr (Or.inr (Or.inr (Or.inr (Or.inr (Or.inr (Or.inr (Or.inl (⟨⟨by omega, by omega⟩, e⟩)))))))))))))))))
  by_cases h17 : 2500000 > r
  · have e : speed2code r = B2000000 := by unfold speed2code; rw [if_neg h0, if_neg h1, if_neg h2, if_neg h3, if_neg h4, if_neg h5, if_neg h6, if_neg h7, if_neg h8, if_neg h9, if_neg h10, if_neg h11, if_neg h12, if_neg h13, if_neg h14, if_neg h15, if_neg h16, if_pos h17]
    exact Or.inr (Or.inr (Or.inr (Or.inr (Or.inr (Or.inr (Or.inr (Or.inr (Or.inr (Or.inr (Or.inr (Or.inr (Or.inr (Or.inr (Or.inr (Or.inr (Or.inr (Or.inl (⟨⟨by omega, by omega⟩, e⟩))))))))))))))))))
  by_cases h18 : 3000000 > r
  · have e : speed2code r = B2500000 := by unfold speed2code; rw [if_neg h0, if_neg h1, if_neg h2, if_neg h3, if_neg h4, if_neg h5, if_neg h6, if_neg h7, if_neg h8, if_neg h9, if_neg h10, if_neg h11, if_neg h12, if_neg h13, if_neg h14, if_neg h15, if_neg h16, if_neg h17, if_pos h18]
    exact Or.inr (Or.inr (Or.inr (Or.inr (Or.inr (Or.inr (Or.inr (Or.inr (Or.inr (Or.inr (Or.inr (Or.inr (Or.inr (Or.inr (Or.inr (Or.inr (Or.inr (Or.inr (Or.inl (⟨⟨by omega, by omega⟩, e⟩)))))))))))))))))))
  by_cases h19 : 3500000 > r
  · have e : speed2code r = B3500000 := by unfold speed2code; rw [if_neg h0, if_neg h1, if_neg h2, if_neg h3, if_neg h4, if_neg h5, if_neg h6, if_neg h7, if_neg h8, if_neg h9, if_neg h10, if_neg h11, if_neg h12, if_neg h13, if_neg h14, if_neg h15, if_neg h16, if_neg h17, if_neg h18, if_pos h19]
    exact Or.inr (Or.inr (Or.inr (Or.inr (Or.inr (Or.inr (Or.inr (Or.inr (Or.inr (Or.inr (Or.inr (Or.inr (Or.inr (Or.inr (Or.inr (Or.inr (Or.inr (Or.inr (Or.inr (Or.inl (⟨⟨by omega, by omega⟩, e⟩))))))))))))))))))))
  by_cases h20 : 4000000 > r
  · have e : speed2code r = B3500000 := by unfold speed2code; rw [if_neg h0, if_neg h1, if_neg h2, if_neg h3, if_neg h4, if_neg h5, if_neg h6, if_neg h7, if_neg h8, if_neg h9, if_neg h10, if_neg h11, if_neg h12, if_neg h13, if_neg h14, if_neg h15, if_neg h16, if_neg h17, if_neg h18, if_neg h19, if_pos h20]
    exact Or.inr (Or.inr (Or.inr (Or.inr (Or.inr (Or.inr (Or.inr (Or.inr (Or.inr (Or.inr (Or.inr (Or.inr (Or.inr (Or.inr (Or.inr (Or.inr (Or.inr (Or.inr (Or.inr (Or.inr (Or.inl (⟨⟨by omega, by omega⟩, e⟩)))))))))))))))))))))
  by_cases h21 : 4000000 = r
  · have e : speed2code r = B4000000 := by unfold speed2code; rw [if_neg h0, if_neg h1, if_neg h2, if_neg h3, if_neg h4, if_neg h5, if_neg h6, if_neg h7, if_neg h8, if_neg h9, if_neg h10, if_neg h11, if_neg h12, if_neg h13, if_neg h14, if_neg h15, if_neg h16, if_neg h17, if_neg h18, if_neg h19, if_neg h20, if_pos h21]
    exact Or.inr (Or.inr (Or.inr (Or.inr (Or.inr (Or.inr (Or.inr (Or.inr (Or.inr (Or.inr (Or.inr (Or.inr (Or.inr (Or.inr (Or.inr (Or.inr (Or.inr (Or.inr (Or.inr (Or.inr (Or.inr (Or.inl (⟨by omega, e⟩))))))))))))))))))))))
  · have e : speed2code r = B9600 := by unfold speed2code; rw [if_neg h0, if_neg h1, if_neg h2, if_neg h3, if_neg h4, if_neg h5, if_neg h6, if_neg h7, if_neg h8, if_neg h9, if_neg h10, if_neg h11, if_neg h12, if_neg h13, if_neg h14, if_neg h15, if_neg h16, if_neg h17, if_neg h18, if_neg h19, if_neg h20, if_neg h21]
    exact Or.inr (Or.inr (Or.inr (Or.inr (Or.inr (Or.inr (Or.inr (Or.inr (Or.inr (Or.inr (Or.inr (Or.inr (Or.inr (Or.inr (Or.inr (Or.inr (Or.inr (Or.inr (Or.inr (Or.inr (Or.inr (Or.inr (⟨by omega, e⟩))))))))))))))))))))))

/-- The round trip never exceeds the speed it started from. -/
theorem code2speed_speed2code_le (r : Int) (h : 300 ≤ r) : code2speed (speed2code r) ≤ r := by
  rcases speed2code_cases r with ⟨hr, e⟩ | ⟨hr, e⟩ | ⟨hr, e⟩ | ⟨hr, e⟩ | ⟨hr, e⟩ | ⟨hr, e⟩ | ⟨hr, e⟩ | ⟨hr, e⟩ | ⟨hr, e⟩ | ⟨hr, e⟩ | ⟨hr, e⟩ | ⟨hr, e⟩ | ⟨hr, e⟩ | ⟨hr, e⟩ | ⟨hr, e⟩ | ⟨hr, e⟩ | ⟨hr, e⟩ | ⟨hr, e⟩ | ⟨hr, e⟩ | ⟨hr, e⟩ | ⟨hr, e⟩ | ⟨hr, e⟩ | ⟨hr, e⟩
  all_goals (rw [e]; simp only [code2speed]; omega)

/-- C3 (counterexample).  `speed2code` is not monotone over all speeds: 4000000 is coded
`B4000000`, and 4000001 falls to the last `else` and is coded `B9600`. -/
theorem speed2code_not_monotone_above_4000000 :
    (4000000 : Int) ≤ 4000001
    ∧ ¬ (speed2code 4000000).rate ≤ (speed2code 4000001).rate := by
  decide

/-- C3 (amended).  `speed2code` is monotone non-decreasing on the speeds up to 4000000:
for all integer speeds `a ≤ b ≤ 4000000` the rate denoted by `speed2code a` is at most
the rate denoted by `speed2code b`. -/
theorem speed2code_monotone_upto_4000000 (a b : Int) (hab : a ≤ b) (hb : b ≤ 4000000) :
    (speed2code a).rate ≤ (speed2code b).rate := by
  rcases speed2code_cases a with ⟨hr, e⟩ | ⟨hr, e⟩ | ⟨hr, e⟩ | ⟨hr, e⟩ | ⟨hr, e⟩ | ⟨hr, e⟩ | ⟨hr, e⟩ | ⟨hr, e⟩ | ⟨hr, e⟩ | ⟨hr, e⟩ | ⟨hr, e⟩ | ⟨hr, e⟩ | ⟨hr, e⟩ | ⟨hr, e⟩ | ⟨hr, e⟩ | ⟨hr, e⟩ | ⟨hr, e⟩ | ⟨hr, e⟩ | ⟨hr, e⟩ | ⟨hr, e⟩ | ⟨hr, e⟩ | ⟨hr, e⟩ | ⟨hr, e⟩
  all_goals
    rw [e]
    rcases speed2code_cases b with ⟨hs, f⟩ | ⟨hs, f⟩ | ⟨hs, f⟩ | ⟨hs, f⟩ | ⟨hs, f⟩ | ⟨hs, f⟩ | ⟨hs, f⟩ | ⟨hs, f⟩ | ⟨hs, f⟩ | ⟨hs, f⟩ | ⟨hs, f⟩ | ⟨hs, f⟩ | ⟨hs, f⟩ | ⟨hs, f⟩ | ⟨hs, f⟩ | ⟨hs, f⟩ | ⟨hs, f⟩ | ⟨hs, f⟩ | ⟨hs, f⟩ | ⟨hs, f⟩ | ⟨hs, f⟩ | ⟨hs, f⟩ | ⟨hs, f⟩
    all_goals (rw [f] <;> simp only [speed_t.rate] <;> omega)

/-- C3 (witness): the speeds 9600 and 3200000. -/
theorem speed2code_monotone_upto_4000000_witness :
    ((9600 : Int) ≤ 3200000 ∧ (3200000 : Int) ≤ 4000000)
    ∧ (speed2code 9600).rate ≤ (speed2code 3200000).rate :=
  ⟨by decide, speed2code_monotone_upto_4000000 9600 3200000 (by decide) (by decide)⟩

/-- Outside the interval `[3000000, 3500000)` the `if` chain of `speed2code` is the
staircase of the specification on `300 ≤ r ≤ 4000000`. -/
theorem speed2code_eq_spec (r : Int) (h1 : 300 ≤ r) (h2 : r ≤ 4000000)
    (h3 : ¬ (3000000 ≤ r ∧ r < 3500000)) : some (speed2code r) = spec_round_down r := by
  rcases speed2code_cases r with ⟨hr, e⟩ | ⟨hr, e⟩ | ⟨hr, e⟩ | ⟨hr, e⟩ | ⟨hr, e⟩ | ⟨hr, e⟩ | ⟨hr, e⟩ | ⟨hr, e⟩ | ⟨hr, e⟩ | ⟨hr, e⟩ | ⟨hr, e⟩ | ⟨hr, e⟩ | ⟨hr, e⟩ | ⟨hr, e⟩ | ⟨hr, e⟩ | ⟨hr, e⟩ | ⟨hr, e⟩ | ⟨hr, e⟩ | ⟨hr, e⟩ | ⟨hr, e⟩ | ⟨hr, e⟩ | ⟨hr, e⟩ | ⟨hr, e⟩
  · rw [e]
    simp only [spec_round_down, supported_rates, spec_round_down_from]
    rw [if_pos (show (300 : Int) ≤ r by omega),
      if_pos (show (300 : Int) ≤ r by omega),
      if_neg (show ¬ (1200 : Int) ≤ r by omega)]
  · rw [e]
    simp only [spec_round_down, supported_rates, spec_round_down_from]
    rw [if_pos (show (300 : Int) ≤ r by omega),
      if_pos (show (300 : Int) ≤ r by omega),
      if_pos (show (1200 : Int) ≤ r by omega),
      if_neg (show ¬ (2400 : Int) ≤ r by omega)]
  · rw [e]
    simp only [spec_round_down, supported_rates, spec_round_down_from]
    rw [if_pos (show (300 : Int) ≤ r by omega),
      if_pos (show (300 : Int) ≤ r by omega),
      if_pos (show (1200 : Int) ≤ r by omega),
      if_pos (show (2400 : Int) ≤ r by omega),
      if_neg (show ¬ (4800 : Int) ≤ r by omega)]
  · rw [e]
    simp only [spec_round_down, supported_rates, spec_round_down_from]
    rw [if_pos (show (300 : Int) ≤ r by omega),
      if_pos (show (300 : Int) ≤ r by omega),
      if_pos (show (1200 : Int) ≤ r by omega),
      if_pos (show (2400 : Int) ≤ r by omega),
      if_pos (show (4800 : Int) ≤ r by omega),
      if_neg (show ¬ (9600 : Int) ≤ r by omega)]
  · rw [e]
    simp only [spec_round_down, supported_rates, spec_round_down_from]
    rw [if_pos (show (300 : Int) ≤ r by omega),
      if_pos (show (300 : Int) ≤ r by omega),
      if_pos (show (1200 : Int) ≤ r by omega),
      if_pos (show (2400 : Int) ≤ r by omega),
      if_pos (show (4800 : Int) ≤ r by omega),
      if_pos (show (9600 : Int) ≤ r by omega),
      if_neg (show ¬ (19200 : Int) ≤ r by omega)]
  · rw [e]
    simp only [spec_round_down, supported_rates, spec_round_down_from]
    rw [if_pos (show (300 : Int) ≤ r by omega),
      if_pos (show (300 : Int) ≤ r by omega),
      if_pos (show (1200 : Int) ≤ r by omega),
      if_pos (show (2400 : Int) ≤ r by omega),
      if_pos (show (4800 : Int) ≤ r by omega),
      if_pos (show (9600 : Int) ≤ r by omega),
      if_pos (show (19200 : Int) ≤ r by omega),
      if_neg (show ¬ (38400 : Int) ≤ r by omega)]
  · rw [e]
    simp only [spec_round_down, supported_rates, spec_round_down_from]
    rw [if_pos (show (300 : Int) ≤ r by omega),
      if_pos (show (300 : Int) ≤ r by omega),
      if_pos (show (1200 : Int) ≤ r by omega),
      if_pos (show (2400 : Int) ≤ r by omega),
      if_pos (show (4800 : Int) ≤ r by omega),
      if_pos (show (9600 : Int) ≤ r by omega),
      if_pos (show (19200 : Int) ≤ r by omega),
      if_pos (show (38400 : Int) ≤ r by omega),
      if_neg (show ¬ (57600 : Int) ≤ r by omega)]
  · rw [e]
    simp only [spec_round_down, supported_rates, spec_round_down_from]
    rw [if_pos (show (300 : Int) ≤ r by omega),
      if_pos (show (300 : Int) ≤ r by omega),
      if_pos (show (1200 : Int) ≤ r by omega),
      if_pos (show (2400 : Int) ≤ r by omega),
      if_pos (show (4800 : Int) ≤ r by omega),
      if_pos (show (9600 : Int) ≤ r by omega),
      if_pos (show (19200 : Int) ≤ r by omega),
      if_pos (show (38400 : Int) ≤ r by omega),
      if_pos (show (57600 : Int) ≤ r by omega),
      if_neg (show ¬ (115200 : Int) ≤ r by omega)]
  · rw [e]
    simp only [spec_round_down, supported_rates, spec_round_down_from]
    rw [if_pos (show (300 : Int) ≤ r by omega),
      if_pos (show (300 : Int) ≤ r by omega),
      if_pos (show (1200 : Int) ≤ r by omega),
      if_pos (show (2400 : Int) ≤ r by omega),
      if_pos (show (4800 : Int) ≤ r by omega),
      if_pos (show (9600 : Int) ≤ r by omega),
      if_pos (show (19200 : Int) ≤ r by omega),
      if_pos (show (38400 : Int) ≤ r by omega),
      if_pos (show (57600 : Int) ≤ r by omega),
      if_pos (show (115200 : Int) ≤ r by omega),
      if_neg (show ¬ (230400 : Int) ≤ r by omega)]
  · rw [e]
    simp only [spec_round_down, supported_rates, spec_round_down_from]
    rw [if_pos (show (300 : Int) ≤ r by omega),
      if_pos (show (300 : Int) ≤ r by omega),
      if_pos (show (1200 : Int) ≤ r by omega),
      if_pos (show (2400 : Int) ≤ r by omega),
      if_pos (show (4800 : Int) ≤ r by omega),
      if_pos (show (9600 : Int) ≤ r by omega),
      if_pos (show (19200 : Int) ≤ r by omega),
      if_pos (show (38400 : Int) ≤ r by omega),
      if_pos (show (57600 : Int) ≤ r by omega),
      if_pos (show (115200 : Int) ≤ r by omega),
      if_pos (show (230400 : Int) ≤ r by omega),
      if_neg (show ¬ (460800 : Int) ≤ r by omega)]
  · rw [e]
    simp only [spec_round_down, supported_rates, spec_round_down_from]
    rw [if_pos (show (300 : Int) ≤ r by omega),
      if_pos (show (300 : Int) ≤ r by omega),
      if_pos (show (1200 : Int) ≤ r by omega),
      if_pos (show (2400 : Int) ≤ r by omega),
      if_pos (show (4800 : Int) ≤ r by omega),
      if_pos (show (9600 : Int) ≤ r by omega),
      if_pos (show (19200 : Int) ≤ r by omega),
      if_pos (show (38400 : Int) ≤ r by omega),
      if_pos (show (57600 : Int) ≤ r by omega),
      if_pos (show (115200 : Int) ≤ r by omega),
      if_pos (show (230400 : Int) ≤ r by omega),
      if_pos (show (460800 : Int) ≤ r by omega),
      if_neg (show ¬ (500000 : Int) ≤ r by omega)]
  · rw [e]
    simp only [spec_round_down, supported_rates, spec_round_down_from]
    rw [if_pos (show (300 : Int) ≤ r by omega),
      if_pos (show (300 : Int) ≤ r by omega),
      if_pos (show (1200 : Int) ≤ r by omega),
      if_pos (show (2400 : Int) ≤ r by omega),
      if_pos (show (4800 : Int) ≤ r by omega),
      if_pos (show (9600 : Int) ≤ r by omega),
      if_pos (show (19200 : Int) ≤ r by omega),
      if_pos (show (38400 : Int) ≤ r by omega),
      if_pos (show (57600 : Int) ≤ r by omega),
      if_pos (show (115200 : Int) ≤ r by omega),
      if_pos (show (230400 : Int) ≤ r by omega),
      if_pos (show (460800 : Int) ≤ r by omega),
      if_pos (show (500000 : Int) ≤ r by omega),
      if_neg (show ¬ (576000 : Int) ≤ r by omega)]
  · rw [e]
    simp only [spec_round_down, supported_rates, spec_round_down_from]
    rw [if_pos (show (300 : Int) ≤ r by omega),
      if_pos (show (300 : Int) ≤ r by omega),
      if_pos (show (1200 : Int) ≤ r by omega),
      if_pos (show (2400 : Int) ≤ r by omega),
      if_pos (show (4800 : Int) ≤ r by omega),
      if_pos (show (9600 : Int) ≤ r by omega),
      if_pos (show (19200 : Int) ≤ r by omega),
      if_pos (show (38400 : Int) ≤ r by omega),
      if_pos (show (57600 : Int) ≤ r by omega),
      if_pos (show (115200 : Int) ≤ r by omega),
      if_pos (show (230400 : Int) ≤ r by omega),
      if_pos (show (460800 : Int) ≤ r by omega),
      if_pos (show (500000 : Int) ≤ r by omega),
      if_pos (show (576000 : Int) ≤ r by omega),
      if_neg (show ¬ (921600 : Int) ≤ r by omega)]
  · rw [e]
    simp only [spec_round_down, supported_rates, spec_round_down_from]
    rw [if_pos (show (300 : Int) ≤ r by omega),
      if_pos (show (300 : Int) ≤ r by omega),
      if_pos (show (1200 : Int) ≤ r by omega),
      if_pos (show (2400 : Int) ≤ r by omega),
      if_pos (show (4800 : Int) ≤ r by omega),
      if_pos (show (9600 : Int) ≤ r by omega),
      if_pos (show (19200 : Int) ≤ r by omega),
      if_pos (show (38400 : Int) ≤ r by omega),
      if_pos (show (57600 : Int) ≤ r by omega),
      if_pos (show (115200 : Int) ≤ r by omega),
      if_pos (show (230400 : Int) ≤ r by omega),
      if_pos (show (460800 : Int) ≤ r by omega),
      if_pos (show (500000 : Int) ≤ r by omega),
      if_pos (show (576000 : Int) ≤ r by omega),
      if_pos (show (921600 : Int) ≤ r by omega),
      if_neg (show ¬ (1000000 : Int) ≤ r by omega)]
  · rw [e]
    simp only [spec_round_down, supported_rates, spec_round_down_from]
    rw [if_pos (show (300 : Int) ≤ r by omega),
      if_pos (show (300 : Int) ≤ r by omega),
      if_pos (show (1200 : Int) ≤ r by omega),
      if_pos (show (2400 : Int) ≤ r by omega),
      if_pos (show (4800 : Int) ≤ r by omega),
      if_pos (show (9600 : Int) ≤ r by omega),
      if_pos (show (19200 : Int) ≤ r by omega),
      if_pos (show (38400 : Int) ≤ r by omega),
      if_pos (show (57600 : Int) ≤ r by omega),
      if_pos (show (115200 : Int) ≤ r by omega),
      if_pos (show (230400 : Int) ≤ r by omega),
      if_pos (show (460800 : Int) ≤ r by omega),
      if_pos (show (500000 : Int) ≤ r by omega),
      if_pos (show (576000 : Int) ≤ r by omega),
      if_pos (show (921600 : Int) ≤ r by omega),
      if_pos (show (1000000 : Int) ≤ r by omega),
      if_neg (show ¬ (1152000 : Int) ≤ r by omega)]
  · rw [e]
    simp only [spec_round_down, supported_rates, spec_round_down_from]
    rw [if_pos (show (300 : Int) ≤ r by omega),
      if_pos (show (300 : Int) ≤ r by omega),
      if_pos (show (1200 : Int) ≤ r by omega),
      if_pos (show (2400 : Int) ≤ r by omega),
      if_pos (show (4800 : Int) ≤ r by omega),
      if_pos (show (9600 : Int) ≤ r by omega),
      if_pos (show (19200 : Int) ≤ r by omega),
      if_pos (show (38400 : Int) ≤ r by omega),
      if_pos (show (57600 : Int) ≤ r by omega),
      if_pos (show (115200 : Int) ≤ r by omega),
      if_pos (show (230400 : Int) ≤ r by omega),
      if_pos (show (460800 : Int) ≤ r by omega),
      if_pos (show (500000 : Int) ≤ r by omega),
      if_pos (show (576000 : Int) ≤ r by omega),
      if_pos (show (921600 : Int) ≤ r by omega),
      if_pos (show (1000000 : Int) ≤ r by omega),
      if_pos (show (1152000 : Int) ≤ r by omega),
      if_neg (show ¬ (1500000 : Int) ≤ r by omega)]
  · rw [e]
    simp only [spec_round_down, supported_rates, spec_round_down_from]
    rw [if_pos (show (300 : Int) ≤ r by omega),
      if_pos (show (300 : Int) ≤ r by omega),
      if_pos (show (1200 : Int) ≤ r by omega),
      if_pos (show (2400 : Int) ≤ r by omega),
      if_pos (show (4800 : Int) ≤ r by omega),
      if_pos (show (9600 : Int) ≤ r by omega),
      if_pos (show (19200 : Int) ≤ r by omega),
      if_pos (show (38400 : Int) ≤ r by omega),
      if_pos (show (57600 : Int) ≤ r by omega),
      if_pos (show (115200 : Int) ≤ r by omega),
      if_pos (show (230400 : Int) ≤ r by omega),
      if_pos (show (460800 : Int) ≤ r by omega),
      if_pos (show (500000 : Int) ≤ r by omega),
      if_pos (show (576000 : Int) ≤ r by omega),
      if_pos (show (921600 : Int) ≤ r by omega),
      if_pos (show (1000000 : Int) ≤ r by omega),
      if_pos (show (1152000 : Int) ≤ r by omega),
      if_pos (show (1500000 : Int) ≤ r by omega),
      if_neg (show ¬ (2000000 : Int) ≤ r by omega)]
  · rw [e]
    simp only [spec_round_down, supported_rates, spec_round_down_from]
    rw [if_pos (show (300 : Int) ≤ r by omega),
      if_pos (show (300 : Int) ≤ r by omega),
      if_pos (show (1200 : Int) ≤ r by omega),
      if_pos (show (2400 : Int) ≤ r by omega),
      if_pos (show (4800 : Int) ≤ r by omega),
      if_pos (show (9600 : Int) ≤ r by omega),
      if_pos (show (19200 : Int) ≤ r by omega),
      if_pos (show (38400 : Int) ≤ r by omega),
      if_pos (show (57600 : Int) ≤ r by omega),
      if_pos (show (115200 : Int) ≤ r by omega),
      if_pos (show (230400 : Int) ≤ r by omega),
      if_pos (show (460800 : Int) ≤ r by omega),
      if_pos (show (500000 : Int) ≤ r by omega),
      if_pos (show (576000 : Int) ≤ r by omega),
      if_pos (show (921600 : Int) ≤ r by omega),
      if_pos (show (1000000 : Int) ≤ r by omega),
      if_pos (show (1152000 : Int) ≤ r by omega),
      if_pos (show (1500000 : Int) ≤ r by omega),
      if_pos (show (2000000 : Int) ≤ r by omega),
      if_neg (show ¬ (2500000 : Int) ≤ r by omega)]
  · rw [e]
    simp only [spec_round_down, supported_rates, spec_round_down_from]
    rw [if_pos (show (300 : Int) ≤ r by omega),
      if_pos (show (300 : Int) ≤ r by omega),
      if_pos (show (1200 : Int) ≤ r by omega),
      if_pos (show (2400 : Int) ≤ r by omega),
      if_pos (show (4800 : Int) ≤ r by omega),
      if_pos (show (9600 : Int) ≤ r by omega),
      if_pos (show (19200 : Int) ≤ r by omega),
      if_pos (show (38400 : Int) ≤ r by omega),
      if_pos (show (57600 : Int) ≤ r by omega),
      if_pos (show (115200 : Int) ≤ r by omega),
      if_pos (show (230400 : Int) ≤ r by omega),
      if_pos (show (460800 : Int) ≤ r by omega),
      if_pos (show (500000 : Int) ≤ r by omega),
      if_pos (show (576000 : Int) ≤ r by omega),
      if_pos (show (921600 : Int) ≤ r by omega),
      if_pos (show (1000000 : Int) ≤ r by omega),
      if_pos (show (1152000 : Int) ≤ r by omega),
      if_pos (show (1500000 : Int) ≤ r by omega),
      if_pos (show (2000000 : Int) ≤ r by omega),
      if_pos (show (2500000 : Int) ≤ r by omega),
      if_neg (show ¬ (3000000 : Int) ≤ r by omega)]
  · omega
  · rw [e]
    simp only [spec_round_down, supported_rates, spec_round_down_from]
    rw [if_pos (show (300 : Int) ≤ r by omega),
      if_pos (show (300 : Int) ≤ r by omega),
      if_pos (show (1200 : Int) ≤ r by omega),
      if_pos (show (2400 : Int) ≤ r by omega),
      if_pos (show (4800 : Int) ≤ r by omega),
      if_pos (show (9600 : Int) ≤ r by omega),
      if_pos (show (19200 : Int) ≤ r by omega),
      if_pos (show (38400 : Int) ≤ r by omega),
      if_pos (show (57600 : Int) ≤ r by omega),
      if_pos (show (115200 : Int) ≤ r by omega),
      if_pos (show (230400 : Int) ≤ r by omega),
      if_pos (show (460800 : Int) ≤ r by omega),
      if_pos (show (500000 : Int) ≤ r by omega),
      if_pos (show (576000 : Int) ≤ r by omega),
      if_pos (show (921600 : Int) ≤ r by omega),
      if_pos (show (1000000 : Int) ≤ r by omega),
      if_pos (show (1152000 : Int) ≤ r by omega),
      if_pos (show (1500000 : Int) ≤ r by omega),
      if_pos (show (2000000 : Int) ≤ r by omega),
      if_pos (show (2500000 : Int) ≤ r by omega),
      if_pos (show (3000000 : Int) ≤ r by omega),
      if_pos (show (3500000 : Int) ≤ r by omega),
      if_neg (show ¬ (4000000 : Int) ≤ r by omega)]
  · rw [e]
    simp only [spec_round_down, supported_rates, spec_round_down_from]
    rw [if_pos (show (300 : Int) ≤ r by omega),
      if_pos (show (300 : Int) ≤ r by omega),
      if_pos (show (1200 : Int) ≤ r by omega),
      if_pos (show (2400 : Int) ≤ r by omega),
      if_pos (show (4800 : Int) ≤ r by omega),
      if_pos (show (9600 : Int) ≤ r by omega),
      if_pos (show (19200 : Int) ≤ r by omega),
      if_pos (show (38400 : Int) ≤ r by omega),
      if_pos (show (57600 : Int) ≤ r by omega),
      if_pos (show (115200 : Int) ≤ r by omega),
      if_pos (show (230400 : Int) ≤ r by omega),
      if_pos (show (460800 : Int) ≤ r by omega),
      if_pos (show (500000 : Int) ≤ r by omega),
      if_pos (show (576000 : Int) ≤ r by omega),
      if_pos (show (921600 : Int) ≤ r by omega),
      if_pos (show (1000000 : Int) ≤ r by omega),
      if_pos (show (1152000 : Int) ≤ r by omega),
      if_pos (show (1500000 : Int) ≤ r by omega),
      if_pos (show (2000000 : Int) ≤ r by omega),
      if_pos (show (2500000 : Int) ≤ r by omega),
      if_pos (show (3000000 : Int) ≤ r by omega),
      if_pos (show (3500000 : Int) ≤ r by omega),
      if_pos (show (4000000 : Int) ≤ r by omega)]
  · omega

/-- When the round trip gives the speed back, the speed is a supported rate. -/
theorem code2speed_speed2code_eq_imp (r : Int) (h : 300 ≤ r)
    (heq : code2speed (speed2code r) = r) : r ∈ supported_rates.map Prod.fst := by
  rcases speed2code_cases r with ⟨hr, e⟩ | ⟨hr, e⟩ | ⟨hr, e⟩ | ⟨hr, e⟩ | ⟨hr, e⟩ | ⟨hr, e⟩ | ⟨hr, e⟩ | ⟨hr, e⟩ | ⟨hr, e⟩ | ⟨hr, e⟩ | ⟨hr, e⟩ | ⟨hr, e⟩ | ⟨hr, e⟩ | ⟨hr, e⟩ | ⟨hr, e⟩ | ⟨hr, e⟩ | ⟨hr, e⟩ | ⟨hr, e⟩ | ⟨hr, e⟩ | ⟨hr, e⟩ | ⟨hr, e⟩ | ⟨hr, e⟩ | ⟨hr, e⟩
  all_goals
    rw [e] at heq
    simp only [code2speed] at heq
    first
      | omega
      | (subst heq; decide)


/-- No branch of `speed2code` answers `B0`. -/
theorem speed2code_ne_B0 (r : Int) : speed2code r ≠ B0 := by
  rcases speed2code_cases r with ⟨hr, e⟩ | ⟨hr, e⟩ | ⟨hr, e⟩ | ⟨hr, e⟩ | ⟨hr, e⟩ | ⟨hr, e⟩ | ⟨hr, e⟩ | ⟨hr, e⟩ | ⟨hr, e⟩ | ⟨hr, e⟩ | ⟨hr, e⟩ | ⟨hr, e⟩ | ⟨hr, e⟩ | ⟨hr, e⟩ | ⟨hr, e⟩ | ⟨hr, e⟩ | ⟨hr, e⟩ | ⟨hr, e⟩ | ⟨hr, e⟩ | ⟨hr, e⟩ | ⟨hr, e⟩ | ⟨hr, e⟩ | ⟨hr, e⟩
  all_goals (rw [e]; decide)

theorem gpsd_set_speed_context (E : Env) (s : gps_device_t) (speed : Nat) (parity : Int)
    (stopbits : Nat) (now : timespec) :
    (gpsd_set_speed E s speed parity stopbits now).context = s.context := by
  unfold gpsd_set_speed
  simp only []
  split_ifs <;> rfl

theorem gpsd_set_speed_dev (E : Env) (s : gps_device_t) (speed : Nat) (parity : Int)
    (stopbits : Nat) (now : timespec) :
    (gpsd_set_speed E s speed parity stopbits now).gpsdata.dev =
      { s.gpsdata.dev with
        baudrate := effective_speed s speed
        parity := normalize_parity (effective_parity s parity)
        stopbits := effective_stopbits s stopbits } := by
  unfold gpsd_set_speed effective_speed effective_parity effective_stopbits
  simp only []
  split_ifs <;> rfl

theorem gpsd_set_speed_ispeed (E : Env) (s : gps_device_t) (speed : Nat) (parity : Int)
    (stopbits : Nat) (now : timespec) :
    (gpsd_set_speed E s speed parity stopbits now).ttyset.c_ispeed =
      speed2code (int_of_speed (effective_speed s speed)) := by
  unfold gpsd_set_speed effective_speed
  simp only []
  split_ifs <;> simp_all [cfsetispeed, cfsetospeed, cfgetispeed, speed2code_ne_B0]

theorem gpsd_set_speed_frame (E : Env) (s : gps_device_t) (speed : Nat) (parity : Int)
    (stopbits : Nat) (now : timespec) :
    (gpsd_set_speed E s speed parity stopbits now).gpsdata.gps_fd = s.gpsdata.gps_fd
    ∧ (gpsd_set_speed E s speed parity stopbits now).sourcetype = s.sourcetype
    ∧ (gpsd_set_speed E s speed parity stopbits now).baudindex = s.baudindex
    ∧ (gpsd_set_speed E s speed parity stopbits now).device_type = s.device_type
    ∧ (gpsd_set_speed E s speed parity stopbits now).ts_startCurrentBaud = now := by
  unfold gpsd_set_speed
  simp only []
  split_ifs <;> simp

theorem wakeup_calls_congr (E : Env) (s1 s2 : gps_device_t) (hc : s1.context = s2.context)
    (hs : s1.sourcetype = s2.sourcetype) (hf : s1.gpsdata.gps_fd = s2.gpsdata.gps_fd)
    (hd : s1.device_type = s2.device_type) : wakeup_calls E s1 = wakeup_calls E s2 := by
  unfold wakeup_calls
  rw [hc, hs, hf, hd]

theorem wakeup_calls_mem (E : Env) (s : gps_device_t) (c : syscall) (h : c ∈ wakeup_calls E s) :
    ∃ d, c = syscall.event_hook d event_wakeup := by
  unfold wakeup_calls at h
  split_ifs at h
  · cases hd : s.device_type with
    | none =>
      rw [hd] at h
      simp only [List.mem_map] at h
      obtain ⟨dp, _, rfl⟩ := h
      exact ⟨_, rfl⟩
    | some dt =>
      rw [hd] at h
      simp only at h
      split_ifs at h
      · simp only [List.mem_singleton] at h
        exact ⟨_, h⟩
      · simp at h
  · simp at h
  · simp at h

theorem gpsd_set_speed_unchanged (E : Env) (s : gps_device_t) (speed : Nat) (parity : Int)
    (stopbits : Nat) (now : timespec)
    (h1 : speed2code (int_of_speed (effective_speed s speed)) = s.ttyset.c_ispeed)
    (h2 : normalize_parity (effective_parity s parity) = s.gpsdata.dev.parity)
    (h3 : effective_stopbits s stopbits = s.gpsdata.dev.stopbits) :
    (gpsd_set_speed E s speed parity stopbits now).ttyset = s.ttyset
    ∧ (gpsd_set_speed E s speed parity stopbits now).calls =
        s.calls ++ (wakeup_calls E s ++ [syscall.packet_reset]) := by
  unfold effective_speed at h1
  unfold effective_parity at h2
  unfold effective_stopbits at h3
  unfold gpsd_set_speed
  simp only [cfgetispeed, h1, h2, h3, ne_eq, not_true_eq_false, or_self, if_false]
  refine ⟨trivial, ?_⟩
  rw [List.append_assoc]
  congr 2

/-- C4 (defect in the code).  Speed 0 does not keep the line speed: `speed2code 0` is
`B300`, not the `B0` the comment at serial.c lines 514-529 relies on, so on a session
without fixed speed whose line is at 9600 baud (8N1 recorded),
`gpsd_set_speed(session, 0, N, 1)` sets input and output speed to `B300` and hands
that termios to `tcsetattr`. -/
theorem gpsd_set_speed_zero_sets_B300 :
    speed2code (int_of_speed 0) = B300
    ∧ (fresh_session []).context.fixed_port_speed = 0
    ∧ cfgetispeed (fresh_session []).ttyset = B9600
    ∧ cfgetispeed (gpsd_set_speed (spec_env 9216) (fresh_session []) 0 78 1 ⟨100, 0⟩).ttyset = B300
    ∧ cfgetospeed (gpsd_set_speed (spec_env 9216) (fresh_session []) 0 78 1 ⟨100, 0⟩).ttyset = B300
    ∧ (gpsd_set_speed (spec_env 9216) (fresh_session []) 0 78 1 ⟨100, 0⟩).calls.head? =
        some (syscall.tcsetattr 3 { line_9600 with c_ispeed := B300, c_ospeed := B300 }) := by
  decide

/-- C5.  Parity normalization: whatever parity byte `gpsd_set_speed` works with (its
argument, or position 1 of the fixed framing), the parity recorded on the session
afterwards is `E` (69) when the byte is `E` or 2, `O` (79) when it is `O` or 1, and
`N` (78) for every other byte; so it is always one of `E`, `O`, `N`. -/
theorem gpsd_set_speed_parity_normalized (E : Env) (s : gps_device_t) (speed : Nat)
    (p : Int) (stopbits : Nat) (now : timespec) :
    (gpsd_set_speed E s speed p stopbits now).gpsdata.dev.parity =
        (if effective_parity s p = 69 ∨ effective_parity s p = 2 then 69
         else if effective_parity s p = 79 ∨ effective_parity s p = 1 then 79
         else 78)
    ∧ ((gpsd_set_speed E s speed p stopbits now).gpsdata.dev.parity = 69
        ∨ (gpsd_set_speed E s speed p stopbits now).gpsdata.dev.parity = 79
        ∨ (gpsd_set_speed E s speed p stopbits now).gpsdata.dev.parity = 78) := by
  rw [gpsd_set_speed_dev]
  refine ⟨rfl, ?_⟩
  simp only [normalize_parity]
  split_ifs <;> simp

/-- C6.  `gpsd_set_speed` is idempotent on the line: a second call with the same
arguments right after the first adds only driver wakeup hooks and the lexer reset to
the log (no `tcsetattr`, no `tcflush`, no `nanosleep`), and leaves the session termios
and the recorded device configuration (baudrate, parity, stopbits) as the first call
left them. -/
theorem gpsd_set_speed_idempotent (E : Env) (s : gps_device_t) (speed : Nat) (parity : Int)
    (stopbits : Nat) (t1 t2 : timespec) :
    (∃ extra : List syscall,
        (gpsd_set_speed E (gpsd_set_speed E s speed parity stopbits t1) speed parity stopbits t2).calls
          = (gpsd_set_speed E s speed parity stopbits t1).calls ++ extra
        ∧ ∀ c ∈ extra, c = syscall.packet_reset ∨ ∃ d, c = syscall.event_hook d event_wakeup)
    ∧ (gpsd_set_speed E (gpsd_set_speed E s speed parity stopbits t1) speed parity stopbits t2).ttyset
        = (gpsd_set_speed E s speed parity stopbits t1).ttyset
    ∧ (gpsd_set_speed E (gpsd_set_speed E s speed parity stopbits t1) speed parity stopbits t2).gpsdata.dev
        = (gpsd_set_speed E s speed parity stopbits t1).gpsdata.dev := by
  have hc := gpsd_set_speed_context E s speed parity stopbits t1
  have hd := gpsd_set_speed_dev E s speed parity stopbits t1
  have hi := gpsd_set_speed_ispeed E s speed parity stopbits t1
  have e1 : effective_speed (gpsd_set_speed E s speed parity stopbits t1) speed
      = effective_speed s speed := by
    unfold effective_speed; rw [hc]
  have e2 : effective_parity (gpsd_set_speed E s speed parity stopbits t1) parity
      = effective_parity s parity := by
    unfold effective_parity; rw [hc]
  have e3 : effective_stopbits (gpsd_set_speed E s speed parity stopbits t1) stopbits
      = effective_stopbits s stopbits := by
    unfold effective_stopbits; rw [hc]
  have hu := gpsd_set_speed_unchanged E (gpsd_set_speed E s speed parity stopbits t1) speed
    parity stopbits t2 (by rw [e1, hi]) (by rw [e2, hd]) (by rw [e3, hd])
  refine ⟨⟨_, hu.2, ?_⟩, hu.1, ?_⟩
  · intro c hcm
    rcases List.mem_append.mp hcm with h | h
    · exact Or.inr (wakeup_calls_mem E _ c h)
    · exact Or.inl (List.mem_singleton.mp h)
  · rw [gpsd_set_speed_dev, e1, e2, e3, hd]

theorem TS_SUB_tv_sec (a b : timespec) (ha : a.normal) (hb : b.normal) :
    3 < (TS_SUB a b).tv_sec ↔ 4000000000 ≤ elapsed_ns a b := by
  unfold timespec.normal at ha hb
  unfold TS_SUB elapsed_ns
  simp only []
  split_ifs <;> simp only [] <;> omega

theorem hunt_not_tty (E : Env) (s : gps_device_t) (t1 t2 : timespec)
    (h : E.isatty s.gpsdata.gps_fd = false ∨ s.sourcetype = SOURCE_PPS) :
    gpsd_next_hunt_setting E s t1 t2 = (false, s) := by
  unfold gpsd_next_hunt_setting
  rcases h with h | h
  · rw [if_pos h]
  · split_ifs <;> rfl

theorem hunt_stays (E : Env) (s : gps_device_t) (t1 t2 : timespec)
    (htty : E.isatty s.gpsdata.gps_fd = true) (hpps : s.sourcetype ≠ SOURCE_PPS)
    (h : ¬ (SNIFF_RETRIES E ≤ s.lexer.retry_counter
            ∨ 3 < (E.TS_SUB s.ts_startCurrentBaud t1).tv_sec)) :
    gpsd_next_hunt_setting E s t1 t2 = (true, hunt_stay s) := by
  unfold gpsd_next_hunt_setting hunt_stay
  simp only [htty, hpps, h, if_false, Bool.true_eq_false]

theorem hunt_reconfigure_fst (E : Env) (s : gps_device_t) (t : timespec) :
    (hunt_reconfigure E s t).1 = true
    ∧ (hunt_reconfigure E s t).2.baudindex = s.baudindex
    ∧ (hunt_reconfigure E s t).2.lexer.retry_counter = 0
    ∧ (hunt_reconfigure E s t).2.ts_startCurrentBaud = t
    ∧ (hunt_reconfigure E s t).2.gpsdata.dev.baudrate
        = effective_speed s (rates.getD s.baudindex 0) := by
  unfold hunt_reconfigure
  simp only [gpsd_set_speed_frame, gpsd_set_speed_dev, and_self]

theorem hunt_exhausted (E : Env) (s : gps_device_t) (t1 t2 : timespec)
    (htty : E.isatty s.gpsdata.gps_fd = true) (hpps : s.sourcetype ≠ SOURCE_PPS)
    (hspeed : ¬ 0 < s.context.fixed_port_speed)
    (h : SNIFF_RETRIES E ≤ s.lexer.retry_counter
            ∨ 3 < (E.TS_SUB s.ts_startCurrentBaud t1).tv_sec) :
    ((gpsd_next_hunt_setting E s t1 t2).1 = false
      ∧ (gpsd_next_hunt_setting E s t1 t2).2.baudindex = 0 ∧ 9 ≤ s.baudindex)
    ∨ ((gpsd_next_hunt_setting E s t1 t2).1 = true
      ∧ (gpsd_next_hunt_setting E s t1 t2).2.baudindex
          = (if 9 ≤ s.baudindex then 0 else s.baudindex + 1)
      ∧ (gpsd_next_hunt_setting E s t1 t2).2.lexer.retry_counter = 0
      ∧ (gpsd_next_hunt_setting E s t1 t2).2.ts_startCurrentBaud = t2
      ∧ (gpsd_next_hunt_setting E s t1 t2).2.gpsdata.dev.baudrate
          = rates.getD (gpsd_next_hunt_setting E s t1 t2).2.baudindex 0) := by
  unfold gpsd_next_hunt_setting
  simp only [htty, hpps, h, hspeed, if_false, if_true, Bool.true_eq_false]
  have hlen : rates.length - 1 = 9 := by decide
  rw [hlen]
  have heff : ∀ (x : gps_device_t) (v : Nat), x.context = s.context →
      effective_speed x v = v := by
    intro x v hx
    unfold effective_speed
    rw [hx, if_neg hspeed]
  by_cases h9 : 9 ≤ s.baudindex
  · simp only [h9, if_true]
    split_ifs
    · left; exact ⟨rfl, rfl, trivial⟩
    · left; exact ⟨rfl, rfl, trivial⟩
    · right
      simp only [hunt_reconfigure_fst, heff, true_and]
  · simp only [h9, if_false]
    right
    have hlt : (s.baudindex + 1) % 2 ^ 32 = s.baudindex + 1 := by
      apply Nat.mod_eq_of_lt
      omega
    simp only [hunt_reconfigure_fst, heff, true_and, hlt]

/-- C7 (counterexample).  3.5 seconds after the current setting became active, with the
retry counter at 0, `gpsd_next_hunt_setting` on a tty, non-PPS session without fixed
speed returns true and only counts the retry: the cell is not treated as exhausted
although more than 3 seconds have elapsed. -/
theorem hunt_deadline_3500ms_stays :
    (3 : Int) * 1000000000 < elapsed_ns (fresh_session []).ts_startCurrentBaud ⟨103, 500000000⟩
    ∧ (spec_env 9216).isatty (fresh_session []).gpsdata.gps_fd = true
    ∧ (fresh_session []).sourcetype ≠ SOURCE_PPS
    ∧ (fresh_session []).context.fixed_port_speed = 0
    ∧ gpsd_next_hunt_setting (spec_env 9216) (fresh_session []) ⟨103, 500000000⟩ ⟨103, 700000000⟩
        = (true, hunt_stay (fresh_session [])) := by
  decide

/-- C7 (amended).  The deadline is counted in whole seconds: with the time difference
computed as the spec says (now minus start) on clock readings with `tv_nsec` in
`[0, 10^9)`, for every tty, non-PPS session without fixed speed, an elapsed time of
at least 4 seconds makes `gpsd_next_hunt_setting` treat the cell as exhausted (it ends
the hunt, or it moves the cursor, runs `gpsd_set_speed` with the rate at the new index
and zeroes the retry counter) whatever the retry counter is; and it returns true
having only counted the retry exactly when the retry counter is below `SNIFF_RETRIES`
and less than 4 seconds have elapsed. -/
theorem hunt_deadline_whole_seconds (E : Env) (s : gps_device_t) (ts_now ts_set : timespec)
    (hE : E.TS_SUB = TS_SUB)
    (htty : E.isatty s.gpsdata.gps_fd = true) (hpps : s.sourcetype ≠ SOURCE_PPS)
    (hspeed : ¬ 0 < s.context.fixed_port_speed)
    (hstart : s.ts_startCurrentBaud.normal) (hnow : ts_now.normal) :
    (4000000000 ≤ elapsed_ns s.ts_startCurrentBaud ts_now →
      (gpsd_next_hunt_setting E s ts_now ts_set).1 = false
      ∨ ((gpsd_next_hunt_setting E s ts_now ts_set).2.baudindex
            = (if 9 ≤ s.baudindex then 0 else s.baudindex + 1)
          ∧ (gpsd_next_hunt_setting E s ts_now ts_set).2.lexer.retry_counter = 0
          ∧ (gpsd_next_hunt_setting E s ts_now ts_set).2.ts_startCurrentBaud = ts_set
          ∧ (gpsd_next_hunt_setting E s ts_now ts_set).2.gpsdata.dev.baudrate
              = rates.getD (gpsd_next_hunt_setting E s ts_now ts_set).2.baudindex 0))
    ∧ (gpsd_next_hunt_setting E s ts_now ts_set = (true, hunt_stay s)
        ↔ s.lexer.retry_counter < SNIFF_RETRIES E
          ∧ elapsed_ns s.ts_startCurrentBaud ts_now < 4000000000) := by
  have hsub := TS_SUB_tv_sec s.ts_startCurrentBaud ts_now hstart hnow
  rw [← hE] at hsub
  have hidx : (hunt_stay s).baudindex = s.baudindex := rfl
  constructor
  · intro h4
    rcases hunt_exhausted E s ts_now ts_set htty hpps hspeed (Or.inr (hsub.mpr h4)) with h | h
    · exact Or.inl h.1
    · exact Or.inr h.2
  · constructor
    · intro hres
      by_contra hcon
      have hex : SNIFF_RETRIES E ≤ s.lexer.retry_counter
          ∨ 3 < (E.TS_SUB s.ts_startCurrentBaud ts_now).tv_sec := by
        by_cases hr : SNIFF_RETRIES E ≤ s.lexer.retry_counter
        · exact Or.inl hr
        · right
          rw [hsub]
          omega
      rcases hunt_exhausted E s ts_now ts_set htty hpps hspeed hex with h | h
      · rw [hres] at h
        simp at h
      · have hb := h.2.1
        rw [hres] at hb
        simp only [hidx] at hb
        split_ifs at hb <;> omega
    · intro hst
      apply hunt_stays E s ts_now ts_set htty hpps
      rw [hsub]
      omega

/-- C7 (witness): the fresh session, 4 seconds after its setting became active. -/
theorem hunt_deadline_whole_seconds_witness :
    ((spec_env 9216).isatty (fresh_session []).gpsdata.gps_fd = true
      ∧ (fresh_session []).sourcetype ≠ SOURCE_PPS
      ∧ ¬ 0 < (fresh_session []).context.fixed_port_speed)
    ∧ (4000000000 ≤ elapsed_ns (fresh_session []).ts_startCurrentBaud ⟨104, 0⟩ →
      (gpsd_next_hunt_setting (spec_env 9216) (fresh_session []) ⟨104, 0⟩ ⟨104, 200000000⟩).1 = false
      ∨ ((gpsd_next_hunt_setting (spec_env 9216) (fresh_session []) ⟨104, 0⟩ ⟨104, 200000000⟩).2.baudindex
            = (if 9 ≤ (fresh_session []).baudindex then 0 else (fresh_session []).baudindex + 1)
          ∧ (gpsd_next_hunt_setting (spec_env 9216) (fresh_session []) ⟨104, 0⟩ ⟨104, 200000000⟩).2.lexer.retry_counter = 0
          ∧ (gpsd_next_hunt_setting (spec_env 9216) (fresh_session []) ⟨104, 0⟩ ⟨104, 200000000⟩).2.ts_startCurrentBaud = ⟨104, 200000000⟩
          ∧ (gpsd_next_hunt_setting (spec_env 9216) (fresh_session []) ⟨104, 0⟩ ⟨104, 200000000⟩).2.gpsdata.dev.baudrate
              = rates.getD (gpsd_next_hunt_setting (spec_env 9216) (fresh_session []) ⟨104, 0⟩ ⟨104, 200000000⟩).2.baudindex 0))
    ∧ (gpsd_next_hunt_setting (spec_env 9216) (fresh_session []) ⟨104, 0⟩ ⟨104, 200000000⟩
          = (true, hunt_stay (fresh_session []))
        ↔ (fresh_session []).lexer.retry_counter < SNIFF_RETRIES (spec_env 9216)
          ∧ elapsed_ns (fresh_session []).ts_startCurrentBaud ⟨104, 0⟩ < 4000000000) :=
  ⟨by decide,
    hunt_deadline_whole_seconds (spec_env 9216) (fresh_session []) ⟨104, 0⟩ ⟨104, 200000000⟩
      rfl (by decide) (by decide) (by decide) (by decide) (by decide)⟩

theorem hunt_reconfigure_frame (E : Env) (s : gps_device_t) (t : timespec) :
    (hunt_reconfigure E s t).2.context = s.context
    ∧ (hunt_reconfigure E s t).2.gpsdata.gps_fd = s.gpsdata.gps_fd
    ∧ (hunt_reconfigure E s t).2.sourcetype = s.sourcetype := by
  unfold hunt_reconfigure
  simp only [gpsd_set_speed_frame, gpsd_set_speed_context, and_self]

theorem hunt_frame (E : Env) (s : gps_device_t) (t1 t2 : timespec) :
    (gpsd_next_hunt_setting E s t1 t2).2.context = s.context
    ∧ (gpsd_next_hunt_setting E s t1 t2).2.gpsdata.gps_fd = s.gpsdata.gps_fd
    ∧ (gpsd_next_hunt_setting E s t1 t2).2.sourcetype = s.sourcetype := by
  unfold gpsd_next_hunt_setting
  simp only []
  split_ifs <;> simp only [hunt_reconfigure_frame, and_self]

/-- C9 (counterexample).  On the last cell of a hunt with fixed framing 8N1 and no fixed
speed, the call that exhausts the cell returns false, and the very next call returns
true. -/
theorem hunt_false_then_true :
    last_cell_session.context.fixed_port_speed = 0
    ∧ (gpsd_next_hunt_setting (spec_env 9216) last_cell_session ⟨100, 0⟩ ⟨100, 0⟩).1 = false
    ∧ (gpsd_next_hunt_setting (spec_env 9216)
        (gpsd_next_hunt_setting (spec_env 9216) last_cell_session ⟨100, 0⟩ ⟨100, 0⟩).2
        ⟨100, 0⟩ ⟨100, 0⟩).1 = true := by
  decide

/-- C9 (amended).  The end of the hunt is not latched.  For every session without fixed
speed on which `gpsd_next_hunt_setting` has returned false: when the handle is not a
tty or the source is PPS the next call returns false as well; on a tty, non-PPS
session the next call returns true (the false return left the cursor at index 0, so
the hunt starts over). -/
theorem hunt_end_is_not_latched (E : Env) (s : gps_device_t) (t1 t2 t3 t4 : timespec)
    (hspeed : ¬ 0 < s.context.fixed_port_speed)
    (hfalse : (gpsd_next_hunt_setting E s t1 t2).1 = false) :
    ((E.isatty s.gpsdata.gps_fd = false ∨ s.sourcetype = SOURCE_PPS) →
      (gpsd_next_hunt_setting E (gpsd_next_hunt_setting E s t1 t2).2 t3 t4).1 = false)
    ∧ (E.isatty s.gpsdata.gps_fd = true → s.sourcetype ≠ SOURCE_PPS →
      (gpsd_next_hunt_setting E (gpsd_next_hunt_setting E s t1 t2).2 t3 t4).1 = true) := by
  constructor
  · intro h
    rw [hunt_not_tty E s t1 t2 h, hunt_not_tty E s t3 t4 h]
  · intro htty hpps
    obtain ⟨hc, hf, hs⟩ := hunt_frame E s t1 t2
    have hidx : (gpsd_next_hunt_setting E s t1 t2).2.baudindex = 0 := by
      by_cases hex : SNIFF_RETRIES E ≤ s.lexer.retry_counter
          ∨ 3 < (E.TS_SUB s.ts_startCurrentBaud t1).tv_sec
      · rcases hunt_exhausted E s t1 t2 htty hpps hspeed hex with h | h
        · exact h.2.1
        · rw [h.1] at hfalse
          simp at hfalse
      · rw [hunt_stays E s t1 t2 htty hpps hex] at hfalse
        simp at hfalse
    have htty1 : E.isatty (gpsd_next_hunt_setting E s t1 t2).2.gpsdata.gps_fd = true := by
      rw [hf]; exact htty
    have hpps1 : (gpsd_next_hunt_setting E s t1 t2).2.sourcetype ≠ SOURCE_PPS := by
      rw [hs]; exact hpps
    have hspeed1 : ¬ 0 < (gpsd_next_hunt_setting E s t1 t2).2.context.fixed_port_speed := by
      rw [hc]; exact hspeed
    by_cases hex : SNIFF_RETRIES E ≤ (gpsd_next_hunt_setting E s t1 t2).2.lexer.retry_counter
        ∨ 3 < (E.TS_SUB (gpsd_next_hunt_setting E s t1 t2).2.ts_startCurrentBaud t3).tv_sec
    · rcases hunt_exhausted E _ t3 t4 htty1 hpps1 hspeed1 hex with h | h
      · have h9 := h.2.2
        rw [hidx] at h9
        omega
      · exact h.1
    · rw [hunt_stays E _ t3 t4 htty1 hpps1 hex]

/-- C9 (witness): the last cell of the fixed-framing hunt. -/
theorem hunt_end_is_not_latched_witness :
    (¬ 0 < last_cell_session.context.fixed_port_speed
      ∧ (gpsd_next_hunt_setting (spec_env 9216) last_cell_session ⟨100, 0⟩ ⟨100, 0⟩).1 = false)
    ∧ (((spec_env 9216).isatty last_cell_session.gpsdata.gps_fd = false
          ∨ last_cell_session.sourcetype = SOURCE_PPS) →
        (gpsd_next_hunt_setting (spec_env 9216)
          (gpsd_next_hunt_setting (spec_env 9216) last_cell_session ⟨100, 0⟩ ⟨100, 0⟩).2
          ⟨101, 0⟩ ⟨101, 200000000⟩).1 = false)
    ∧ ((spec_env 9216).isatty last_cell_session.gpsdata.gps_fd = true →
        last_cell_session.sourcetype ≠ SOURCE_PPS →
        (gpsd_next_hunt_setting (spec_env 9216)
          (gpsd_next_hunt_setting (spec_env 9216) last_cell_session ⟨100, 0⟩ ⟨100, 0⟩).2
          ⟨101, 0⟩ ⟨101, 200000000⟩).1 = true) :=
  ⟨by decide,
    hunt_end_is_not_latched (spec_env 9216) last_cell_session ⟨100, 0⟩ ⟨100, 0⟩ ⟨101, 0⟩
      ⟨101, 200000000⟩ (by decide) (by decide)⟩

theorem wakeup_calls_count (E : Env) (s : gps_device_t) :
    (wakeup_calls E s).count syscall.packet_reset = 0 := by
  rw [List.count_eq_zero]
  intro h
  obtain ⟨d, hd⟩ := wakeup_calls_mem E s _ h
  cases hd

theorem gpsd_set_speed_count (E : Env) (s : gps_device_t) (speed : Nat) (parity : Int)
    (stopbits : Nat) (now : timespec) :
    set_speed_count (gpsd_set_speed E s speed parity stopbits now) = set_speed_count s + 1 := by
  unfold set_speed_count gpsd_set_speed
  simp only []
  split_ifs <;>
    simp [List.count_append, wakeup_calls_count, List.count_cons, List.count_nil]

theorem int_of_speed_rates (i : Nat) : int_of_speed (rates.getD i 0) = (rates.getD i 0 : Nat) := by
  by_cases h : i < 10
  · interval_cases i <;> decide
  · have : rates.getD i 0 = 0 := by
      unfold rates
      rw [List.getD_eq_default]
      simp only [List.length_cons, List.length_nil]
      omega
    rw [this]
    decide

theorem hunt_reconfigure_spec (E : Env) (s : gps_device_t) (t : timespec)
    (hspeed : ¬ 0 < s.context.fixed_port_speed) :
    (hunt_reconfigure E s t).1 = true
    ∧ (hunt_reconfigure E s t).2.baudindex = s.baudindex
    ∧ (hunt_reconfigure E s t).2.lexer.retry_counter = 0
    ∧ set_speed_count (hunt_reconfigure E s t).2 = set_speed_count s + 1
    ∧ (hunt_reconfigure E s t).2.gpsdata.dev.baudrate = rates.getD s.baudindex 0
    ∧ cfgetispeed (hunt_reconfigure E s t).2.ttyset = speed2code (rates.getD s.baudindex 0 : Nat)
    ∧ (s.context.fixed_port_framing.getD 0 0 = 0 →
        (hunt_reconfigure E s t).2.gpsdata.dev.stopbits = s.gpsdata.dev.stopbits) := by
  have heff : ∀ v, effective_speed s v = v := by
    intro v
    unfold effective_speed
    rw [if_neg hspeed]
  unfold hunt_reconfigure
  refine ⟨rfl, ?_, rfl, ?_, ?_, ?_, ?_⟩
  · simp only [gpsd_set_speed_frame]
  · exact gpsd_set_speed_count E s _ _ _ t
  · simp only [gpsd_set_speed_dev, heff]
  · simp only [cfgetispeed, gpsd_set_speed_ispeed, heff, int_of_speed_rates]
  · intro hfr
    simp only [gpsd_set_speed_dev, effective_stopbits, hfr, bne_self_eq_false, Bool.not_false,
      if_true, Bool.false_eq_true, if_false]

theorem hunt_advance (E : Env) (s : gps_device_t) (t1 t2 : timespec)
    (htty : E.isatty s.gpsdata.gps_fd = true) (hpps : s.sourcetype ≠ SOURCE_PPS)
    (hspeed : ¬ 0 < s.context.fixed_port_speed)
    (hex : SNIFF_RETRIES E ≤ s.lexer.retry_counter
            ∨ 3 < (E.TS_SUB s.ts_startCurrentBaud t1).tv_sec)
    (hidx : s.baudindex < 9) :
    (gpsd_next_hunt_setting E s t1 t2).1 = true
    ∧ (gpsd_next_hunt_setting E s t1 t2).2.baudindex = s.baudindex + 1
    ∧ (gpsd_next_hunt_setting E s t1 t2).2.lexer.retry_counter = 0
    ∧ set_speed_count (gpsd_next_hunt_setting E s t1 t2).2 = set_speed_count s + 1
    ∧ (gpsd_next_hunt_setting E s t1 t2).2.gpsdata.dev.baudrate = rates.getD (s.baudindex + 1) 0
    ∧ cfgetispeed (gpsd_next_hunt_setting E s t1 t2).2.ttyset
        = speed2code (rates.getD (s.baudindex + 1) 0 : Nat)
    ∧ (s.context.fixed_port_framing.getD 0 0 = 0 →
        (gpsd_next_hunt_setting E s t1 t2).2.gpsdata.dev.stopbits = s.gpsdata.dev.stopbits) := by
  have hlen : rates.length - 1 = 9 := by decide
  have h9 : ¬ 9 ≤ s.baudindex := by omega
  have hlt : (s.baudindex + 1) % 2 ^ 32 = s.baudindex + 1 := Nat.mod_eq_of_lt (by omega)
  have hrw : gpsd_next_hunt_setting E s t1 t2 =
      hunt_reconfigure E { hunt_stay s with baudindex := s.baudindex + 1 } t2 := by
    unfold gpsd_next_hunt_setting hunt_stay
    simp only [htty, hpps, hex, hspeed, hlen, h9, hlt, if_false, if_true, Bool.true_eq_false]
  rw [hrw]
  exact hunt_reconfigure_spec E _ t2 hspeed

theorem hunt_rollover (E : Env) (s : gps_device_t) (t1 t2 : timespec)
    (htty : E.isatty s.gpsdata.gps_fd = true) (hpps : s.sourcetype ≠ SOURCE_PPS)
    (hspeed : ¬ 0 < s.context.fixed_port_speed)
    (hex : SNIFF_RETRIES E ≤ s.lexer.retry_counter
            ∨ 3 < (E.TS_SUB s.ts_startCurrentBaud t1).tv_sec)
    (hidx : 9 ≤ s.baudindex) (hfr : s.context.fixed_port_framing.getD 0 0 = 0)
    (hstop : s.gpsdata.dev.stopbits < 2) :
    (gpsd_next_hunt_setting E s t1 t2).1 = true
    ∧ (gpsd_next_hunt_setting E s t1 t2).2.baudindex = 0
    ∧ (gpsd_next_hunt_setting E s t1 t2).2.lexer.retry_counter = 0
    ∧ set_speed_count (gpsd_next_hunt_setting E s t1 t2).2 = set_speed_count s + 1
    ∧ (gpsd_next_hunt_setting E s t1 t2).2.gpsdata.dev.baudrate = rates.getD 0 0
    ∧ cfgetispeed (gpsd_next_hunt_setting E s t1 t2).2.ttyset = speed2code (rates.getD 0 0 : Nat)
    ∧ (gpsd_next_hunt_setting E s t1 t2).2.gpsdata.dev.stopbits = s.gpsdata.dev.stopbits + 1 := by
  have hlen : rates.length - 1 = 9 := by decide
  have h2 : ¬ 2 ≤ s.gpsdata.dev.stopbits := by omega
  have hlt : (s.gpsdata.dev.stopbits + 1) % 2 ^ 32 = s.gpsdata.dev.stopbits + 1 :=
    Nat.mod_eq_of_lt (by omega)
  have hrw : gpsd_next_hunt_setting E s t1 t2 =
      hunt_reconfigure E
        { hunt_stay s with
          baudindex := 0
          gpsdata := { s.gpsdata with
            dev := { s.gpsdata.dev with stopbits := s.gpsdata.dev.stopbits + 1 } } } t2 := by
    unfold gpsd_next_hunt_setting hunt_stay
    simp only [htty, hpps, hex, hspeed, hlen, hidx, hfr, h2, hlt, if_false, if_true,
      Bool.true_eq_false, bne_self_eq_false, Bool.false_eq_true]
  rw [hrw]
  obtain ⟨a, b, c, d, e, f, g⟩ := hunt_reconfigure_spec E
    { hunt_stay s with
      baudindex := 0
      gpsdata := { s.gpsdata with
        dev := { s.gpsdata.dev with stopbits := s.gpsdata.dev.stopbits + 1 } } } t2 hspeed
  exact ⟨a, b, c, d, e, f, g hfr⟩

theorem hunt_over (E : Env) (s : gps_device_t) (t1 t2 : timespec)
    (htty : E.isatty s.gpsdata.gps_fd = true) (hpps : s.sourcetype ≠ SOURCE_PPS)
    (hspeed : ¬ 0 < s.context.fixed_port_speed)
    (hex : SNIFF_RETRIES E ≤ s.lexer.retry_counter
            ∨ 3 < (E.TS_SUB s.ts_startCurrentBaud t1).tv_sec)
    (hidx : 9 ≤ s.baudindex)
    (hend : s.context.fixed_port_framing.getD 0 0 ≠ 0 ∨ 2 ≤ s.gpsdata.dev.stopbits) :
    (gpsd_next_hunt_setting E s t1 t2).1 = false
    ∧ (gpsd_next_hunt_setting E s t1 t2).2.baudindex = 0
    ∧ (gpsd_next_hunt_setting E s t1 t2).2.lexer.retry_counter
        = (s.lexer.retry_counter + 1) % 2 ^ 64
    ∧ (gpsd_next_hunt_setting E s t1 t2).2.calls = s.calls
    ∧ (gpsd_next_hunt_setting E s t1 t2).2.gpsdata.dev.baudrate = s.gpsdata.dev.baudrate
    ∧ (gpsd_next_hunt_setting E s t1 t2).2.ttyset = s.ttyset
    ∧ (s.context.fixed_port_framing.getD 0 0 = 0 →
        (gpsd_next_hunt_setting E s t1 t2).2.gpsdata.dev.stopbits
          = (s.gpsdata.dev.stopbits + 1) % 2 ^ 32) := by
  have hlen : rates.length - 1 = 9 := by decide
  by_cases hfr : s.context.fixed_port_framing.getD 0 0 = 0
  · have h2 : 2 ≤ s.gpsdata.dev.stopbits := by
      rcases hend with h | h
      · exact absurd hfr h
      · exact h
    unfold gpsd_next_hunt_setting
    simp only [htty, hpps, hex, hspeed, hlen, hidx, hfr, h2, if_false, if_true,
      Bool.true_eq_false, bne_self_eq_false, Bool.false_eq_true]
    refine ⟨?_, ?_, ?_, ?_, ?_, ?_, ?_⟩ <;> trivial
  · have hb : (s.context.fixed_port_framing.getD 0 0 != 0) = true := by
      rw [bne_iff_ne]
      exact hfr
    unfold gpsd_next_hunt_setting
    simp only [htty, hpps, hex, hspeed, hlen, hidx, hb, if_false, if_true, Bool.true_eq_false]
    refine ⟨?_, ?_, ?_, ?_, ?_, ?_, ?_⟩ <;>
      first | trivial | rfl | (intro h; exact absurd h hfr)

/-- The state of a hunt in which the deadline is never reached, after `c` exhausted cells
and `i` retries in the current cell. -/
theorem hunt_run_inv (E : Env) (s : gps_device_t) (clock : Nat → timespec × timespec)
    (htty : E.isatty s.gpsdata.gps_fd = true) (hpps : s.sourcetype ≠ SOURCE_PPS)
    (hspeed : ¬ 0 < s.context.fixed_port_speed)
    (hidx : s.baudindex = 0) (hrc : s.lexer.retry_counter = 0)
    (hN : SNIFF_RETRIES E < 2 ^ 64)
    (hstop : s.context.fixed_port_framing.getD 0 0 = 0 → s.gpsdata.dev.stopbits = 1)
    (hclock : ∀ n, n < hunt_cells s * (SNIFF_RETRIES E + 1) →
      ¬ 3 < (E.TS_SUB (hunt_after E s clock n).ts_startCurrentBaud (clock n).1).tv_sec) :
    ∀ m c i, m = c * (SNIFF_RETRIES E + 1) + i → i ≤ SNIFF_RETRIES E → c < hunt_cells s →
      (hunt_after E s clock m).context = s.context
      ∧ (hunt_after E s clock m).gpsdata.gps_fd = s.gpsdata.gps_fd
      ∧ (hunt_after E s clock m).sourcetype = s.sourcetype
      ∧ (hunt_after E s clock m).baudindex = c % 10
      ∧ (hunt_after E s clock m).lexer.retry_counter = i
      ∧ set_speed_count (hunt_after E s clock m) = set_speed_count s + c
      ∧ (1 ≤ c → (hunt_after E s clock m).gpsdata.dev.baudrate = rates.getD (c % 10) 0
          ∧ cfgetispeed (hunt_after E s clock m).ttyset
              = speed2code (rates.getD (c % 10) 0 : Nat))
      ∧ (s.context.fixed_port_framing.getD 0 0 = 0 →
          (hunt_after E s clock m).gpsdata.dev.stopbits = 1 + c / 10) := by
  intro m
  induction m with
  | zero =>
    intro c i h hi hc
    have hc0 : c = 0 := by
      rcases Nat.eq_zero_or_pos c with h0 | h0
      · exact h0
      · have := Nat.mul_le_mul_right (SNIFF_RETRIES E + 1) h0
        omega
    subst hc0
    have hi0 : i = 0 := by omega
    subst hi0
    refine ⟨rfl, rfl, rfl, hidx, hrc, rfl, ?_, ?_⟩
    · intro h1; omega
    · intro hfr
      exact hstop hfr
  | succ m ih =>
    intro c i h hi hc
    have hstep : hunt_after E s clock (m + 1)
        = (gpsd_next_hunt_setting E (hunt_after E s clock m) (clock m).1 (clock m).2).2 := rfl
    rw [hstep]
    obtain ⟨fc, ff, fs⟩ := hunt_frame E (hunt_after E s clock m) (clock m).1 (clock m).2
    rcases Nat.eq_zero_or_pos i with hi0 | hipos
    · -- the previous call exhausted cell `c - 1`
      subst hi0
      obtain ⟨c1, rfl⟩ : ∃ c1, c = c1 + 1 := by
        rcases Nat.eq_zero_or_pos c with h0 | h0
        · subst h0; omega
        · exact ⟨c - 1, by omega⟩
      have hm : m = c1 * (SNIFF_RETRIES E + 1) + SNIFF_RETRIES E := by
        rw [Nat.succ_mul] at h
        omega
      obtain ⟨ic, ifd, iso, iidx, irc, icnt, irate, istop⟩ :=
        ih c1 (SNIFF_RETRIES E) hm (Nat.le_refl _) (by omega)
      have htty1 : E.isatty (hunt_after E s clock m).gpsdata.gps_fd = true := by rw [ifd]; exact htty
      have hpps1 : (hunt_after E s clock m).sourcetype ≠ SOURCE_PPS := by rw [iso]; exact hpps
      have hspeed1 : ¬ 0 < (hunt_after E s clock m).context.fixed_port_speed := by
        rw [ic]; exact hspeed
      have hex : SNIFF_RETRIES E ≤ (hunt_after E s clock m).lexer.retry_counter
          ∨ 3 < (E.TS_SUB (hunt_after E s clock m).ts_startCurrentBaud (clock m).1).tv_sec :=
        Or.inl (by rw [irc])
      rw [fc, ff, fs, ic, ifd, iso]
      refine ⟨rfl, rfl, rfl, ?_⟩
      by_cases hb : c1 % 10 < 9
      · obtain ⟨_, a2, a3, a4, a5, a6, a7⟩ := hunt_advance E _ (clock m).1 (clock m).2
          htty1 hpps1 hspeed1 hex (by rw [iidx]; exact hb)
        have hmod : (c1 + 1) % 10 = c1 % 10 + 1 := by omega
        rw [iidx] at a2 a5 a6
        rw [hmod]
        refine ⟨a2, a3, by rw [a4, icnt]; omega, fun _ => ⟨a5, a6⟩, ?_⟩
        intro hfr
        rw [a7 (by rw [ic]; exact hfr), istop hfr]
        omega
      · have hfr : s.context.fixed_port_framing.getD 0 0 = 0 := by
          by_contra hne
          unfold hunt_cells at hc
          rw [if_neg hne] at hc
          omega
        have hc9 : c1 = 9 := by
          unfold hunt_cells at hc
          rw [if_pos hfr] at hc
          omega
        subst hc9
        have hst := istop hfr
        obtain ⟨_, a2, a3, a4, a5, a6, a7⟩ := hunt_rollover E _ (clock m).1 (clock m).2
          htty1 hpps1 hspeed1 hex (by rw [iidx]) (by rw [ic]; exact hfr) (by rw [hst]; decide)
        refine ⟨a2, a3, by rw [a4, icnt], fun _ => ⟨a5, a6⟩, ?_⟩
        intro _
        rw [a7, hst]
    · -- the previous call stayed in cell `c`
      obtain ⟨i1, rfl⟩ : ∃ i1, i = i1 + 1 := ⟨i - 1, by omega⟩
      have hm : m = c * (SNIFF_RETRIES E + 1) + i1 := by omega
      obtain ⟨ic, ifd, iso, iidx, irc, icnt, irate, istop⟩ := ih c i1 hm (by omega) hc
      have htty1 : E.isatty (hunt_after E s clock m).gpsdata.gps_fd = true := by rw [ifd]; exact htty
      have hpps1 : (hunt_after E s clock m).sourcetype ≠ SOURCE_PPS := by rw [iso]; exact hpps
      have hmlt : m < hunt_cells s * (SNIFF_RETRIES E + 1) := by
        have h1 := Nat.mul_le_mul_right (SNIFF_RETRIES E + 1) (Nat.succ_le_of_lt hc)
        rw [Nat.succ_mul] at h1
        omega
      have hnd := hclock m hmlt
      have hex : ¬ (SNIFF_RETRIES E ≤ (hunt_after E s clock m).lexer.retry_counter
          ∨ 3 < (E.TS_SUB (hunt_after E s clock m).ts_startCurrentBaud (clock m).1).tv_sec) := by
        rw [irc]
        intro hcon
        rcases hcon with h1 | h1
        · omega
        · exact hnd h1
      rw [hunt_stays E _ (clock m).1 (clock m).2 htty1 hpps1 hex]
      refine ⟨ic, ifd, iso, iidx, ?_, icnt, irate, istop⟩
      show ((hunt_after E s clock m).lexer.retry_counter + 1) % 2 ^ 64 = i1 + 1
      rw [irc]
      exact Nat.mod_eq_of_lt (by omega)

theorem hunt_run_last (E : Env) (s : gps_device_t) (clock : Nat → timespec × timespec)
    (htty : E.isatty s.gpsdata.gps_fd = true) (hpps : s.sourcetype ≠ SOURCE_PPS)
    (hspeed : ¬ 0 < s.context.fixed_port_speed)
    (hidx : s.baudindex = 0) (hrc : s.lexer.retry_counter = 0)
    (hN : SNIFF_RETRIES E < 2 ^ 64)
    (hstop : s.context.fixed_port_framing.getD 0 0 = 0 → s.gpsdata.dev.stopbits = 1)
    (hclock : ∀ n, n < hunt_cells s * (SNIFF_RETRIES E + 1) →
      ¬ 3 < (E.TS_SUB (hunt_after E s clock n).ts_startCurrentBaud (clock n).1).tv_sec)
    (m c : Nat) (hm : m = c * (SNIFF_RETRIES E + 1) + SNIFF_RETRIES E)
    (hc : c + 1 = hunt_cells s) :
    hunt_result E s clock m = false
    ∧ (hunt_after E s clock (m + 1)).baudindex = 0
    ∧ set_speed_count (hunt_after E s clock (m + 1)) = set_speed_count s + c
    ∧ (hunt_after E s clock (m + 1)).gpsdata.dev.baudrate = rates.getD 9 0
    ∧ cfgetispeed (hunt_after E s clock (m + 1)).ttyset = speed2code (rates.getD 9 0 : Nat)
    ∧ (s.context.fixed_port_framing.getD 0 0 = 0 →
        (hunt_after E s clock (m + 1)).gpsdata.dev.stopbits = 3) := by
  obtain ⟨ic, ifd, iso, iidx, irc, icnt, irate, istop⟩ :=
    hunt_run_inv E s clock htty hpps hspeed hidx hrc hN hstop hclock m c (SNIFF_RETRIES E) hm
      (Nat.le_refl _) (by omega)
  have htty1 : E.isatty (hunt_after E s clock m).gpsdata.gps_fd = true := by rw [ifd]; exact htty
  have hpps1 : (hunt_after E s clock m).sourcetype ≠ SOURCE_PPS := by rw [iso]; exact hpps
  have hspeed1 : ¬ 0 < (hunt_after E s clock m).context.fixed_port_speed := by
    rw [ic]; exact hspeed
  have hex : SNIFF_RETRIES E ≤ (hunt_after E s clock m).lexer.retry_counter
      ∨ 3 < (E.TS_SUB (hunt_after E s clock m).ts_startCurrentBaud (clock m).1).tv_sec :=
    Or.inl (by rw [irc])
  have hcases : (s.context.fixed_port_framing.getD 0 0 ≠ 0 ∧ c = 9)
      ∨ (s.context.fixed_port_framing.getD 0 0 = 0 ∧ c = 19) := by
    unfold hunt_cells at hc
    by_cases hfr : s.context.fixed_port_framing.getD 0 0 = 0
    · rw [if_pos hfr] at hc
      exact Or.inr ⟨hfr, by omega⟩
    · rw [if_neg hfr] at hc
      exact Or.inl ⟨hfr, by omega⟩
  have hc9 : c % 10 = 9 := by
    rcases hcases with h | h <;> omega
  have hend : (hunt_after E s clock m).context.fixed_port_framing.getD 0 0 ≠ 0
      ∨ 2 ≤ (hunt_after E s clock m).gpsdata.dev.stopbits := by
    rcases hcases with h | h
    · left; rw [ic]; exact h.1
    · right; rw [istop h.1]; omega
  obtain ⟨b1, b2, _, b4, b5, b6, b7⟩ := hunt_over E _ (clock m).1 (clock m).2 htty1 hpps1
    hspeed1 hex (by rw [iidx, hc9]) hend
  have hstep : hunt_after E s clock (m + 1)
      = (gpsd_next_hunt_setting E (hunt_after E s clock m) (clock m).1 (clock m).2).2 := rfl
  have hc1 : 1 ≤ c := by rcases hcases with h | h <;> omega
  rw [hstep]
  refine ⟨b1, b2, ?_, ?_, ?_, ?_⟩
  · unfold set_speed_count at icnt ⊢
    rw [b4, icnt]
  · rw [b5, (irate hc1).1, hc9]
  · rw [b6, (irate hc1).2, hc9]
  · intro hfr
    rw [b7 (by rw [ic]; exact hfr), istop hfr]
    rcases hcases with h | h
    · exact absurd hfr h.1
    · rw [h.2]
      decide

theorem hunt_ts_start (E : Env) (s : gps_device_t) (t1 t2 : timespec) :
    (gpsd_next_hunt_setting E s t1 t2).2.ts_startCurrentBaud = s.ts_startCurrentBaud
    ∨ (gpsd_next_hunt_setting E s t1 t2).2.ts_startCurrentBaud = t2 := by
  unfold gpsd_next_hunt_setting
  simp only []
  split_ifs <;> first | (left; rfl) | (right; exact (hunt_reconfigure_fst E _ t2).2.2.2.1)

theorem hunt_after_const_clock (E : Env) (s : gps_device_t) (t : timespec)
    (h : s.ts_startCurrentBaud = t) (n : Nat) :
    (hunt_after E s (fun _ => (t, t)) n).ts_startCurrentBaud = t := by
  induction n with
  | zero => exact h
  | succ n ih =>
    have hstep : hunt_after E s (fun _ => (t, t)) (n + 1)
        = (gpsd_next_hunt_setting E (hunt_after E s (fun _ => (t, t)) n) t t).2 := rfl
    rw [hstep]
    rcases hunt_ts_start E (hunt_after E s (fun _ => (t, t)) n) t t with h1 | h1
    · rw [h1, ih]
    · exact h1

theorem frozen_clock_no_deadline (mpl : Nat) (s : gps_device_t) (t : timespec)
    (h : s.ts_startCurrentBaud = t) (ht : t.normal) (n : Nat) :
    ¬ 3 < ((spec_env mpl).TS_SUB
        (hunt_after (spec_env mpl) s (frozen_clock t) n).ts_startCurrentBaud
        (frozen_clock t n).1).tv_sec := by
  have h1 := hunt_after_const_clock (spec_env mpl) s t h n
  unfold frozen_clock
  rw [h1]
  have h2 : (spec_env mpl).TS_SUB = TS_SUB := rfl
  rw [h2, TS_SUB_tv_sec t t ht ht]
  unfold elapsed_ns
  omega

/-- C10 (counterexample).  From the freshly opened session (cursor index 0, one stop bit,
no fixed speed, no fixed framing), with `MAX_PACKET_LENGTH` 9216 and the deadline
never reached, the call that ends the hunt (number `20 * 9345`) leaves the stop bits
at 3, outside `{1, 2}`: the cursor `(0, 3)` is a value outside the 20 cells. -/
theorem hunt_leaves_stopbits_3 :
    (fresh_session []).baudindex = 0
    ∧ (fresh_session []).gpsdata.dev.stopbits = 1
    ∧ (fresh_session []).context.fixed_port_speed = 0
    ∧ (fresh_session []).context.fixed_port_framing = []
    ∧ (hunt_after (spec_env 9216) (fresh_session []) (frozen_clock ⟨100, 0⟩)
        186900).baudindex = 0
    ∧ (hunt_after (spec_env 9216) (fresh_session []) (frozen_clock ⟨100, 0⟩)
        186900).gpsdata.dev.stopbits = 3 := by
  have h := hunt_run_last (spec_env 9216) (fresh_session []) (frozen_clock ⟨100, 0⟩)
    (by decide) (by decide) (by decide) (by decide) (by decide) (by decide) (fun _ => rfl)
    (fun n _ => frozen_clock_no_deadline 9216 _ ⟨100, 0⟩ rfl (by decide) n)
    186899 19 (by decide) (by decide)
  have e : 186899 + 1 = 186900 := by norm_num
  rw [e] at h
  exact ⟨rfl, rfl, rfl, rfl, h.2.1, h.2.2.2.2.2 rfl⟩

theorem hunt_step_grid (E : Env) (s : gps_device_t) (t1 t2 : timespec)
    (hspeed : ¬ 0 < s.context.fixed_port_speed)
    (hfr : s.context.fixed_port_framing.getD 0 0 = 0)
    (hidx : s.baudindex ≤ 9)
    (hstop : s.gpsdata.dev.stopbits = 1 ∨ s.gpsdata.dev.stopbits = 2) :
    ((gpsd_next_hunt_setting E s t1 t2).1 = true →
      (gpsd_next_hunt_setting E s t1 t2).2.baudindex ≤ 9
      ∧ ((gpsd_next_hunt_setting E s t1 t2).2.gpsdata.dev.stopbits = 1
        ∨ (gpsd_next_hunt_setting E s t1 t2).2.gpsdata.dev.stopbits = 2))
    ∧ ((gpsd_next_hunt_setting E s t1 t2).1 = false →
        E.isatty s.gpsdata.gps_fd = true → s.sourcetype ≠ SOURCE_PPS →
      (gpsd_next_hunt_setting E s t1 t2).2.baudindex = 0
      ∧ (gpsd_next_hunt_setting E s t1 t2).2.gpsdata.dev.stopbits = 3) := by
  by_cases hnt : E.isatty s.gpsdata.gps_fd = false ∨ s.sourcetype = SOURCE_PPS
  · rw [hunt_not_tty E s t1 t2 hnt]
    refine ⟨fun h => Bool.noConfusion h, fun _ htty hpps => ?_⟩
    rcases hnt with h | h
    · rw [h] at htty
      exact absurd htty (by decide)
    · exact absurd h hpps
  · have htty : E.isatty s.gpsdata.gps_fd = true := by
      cases h : E.isatty s.gpsdata.gps_fd
      · exact absurd (Or.inl h) hnt
      · rfl
    have hpps : s.sourcetype ≠ SOURCE_PPS := fun h => hnt (Or.inr h)
    by_cases hex : SNIFF_RETRIES E ≤ s.lexer.retry_counter
        ∨ 3 < (E.TS_SUB s.ts_startCurrentBaud t1).tv_sec
    · by_cases h9 : s.baudindex < 9
      · obtain ⟨a1, a2, _, _, _, _, a7⟩ := hunt_advance E s t1 t2 htty hpps hspeed hex h9
        rw [a1, a2, a7 hfr]
        exact ⟨fun _ => ⟨by omega, hstop⟩, fun h => absurd h (by decide)⟩
      · rcases hstop with h1 | h2
        · obtain ⟨a1, a2, _, _, _, _, a7⟩ := hunt_rollover E s t1 t2 htty hpps hspeed hex
            (by omega) hfr (by omega)
          rw [a1, a2, a7, h1]
          exact ⟨fun _ => ⟨by omega, Or.inr rfl⟩, fun h => absurd h (by decide)⟩
        · obtain ⟨a1, a2, _, _, _, _, a7⟩ := hunt_over E s t1 t2 htty hpps hspeed hex
            (by omega) (Or.inr (by omega))
          rw [a1, a2, a7 hfr, h2]
          exact ⟨fun h => absurd h (by decide), fun _ _ _ => ⟨rfl, by decide⟩⟩
    · rw [hunt_stays E s t1 t2 htty hpps hex]
      exact ⟨fun _ => ⟨hidx, hstop⟩, fun h => Bool.noConfusion h⟩

/-- C10 (amended).  Bounded search space while the hunt goes on.  For every series of
`gpsd_next_hunt_setting` calls on a session starting at cursor index 0 with one stop
bit, no fixed speed and no fixed framing: as long as every call so far has returned
true, the cursor `(baudindex, stopbits)` is one of the 20 cells of
`{0, ..., 9} × {1, 2}`; and when the next call on a tty, non-PPS session returns
false, it leaves the cursor at `(0, 3)`. -/
theorem hunt_cursor_in_grid (E : Env) (s : gps_device_t) (clock : Nat → timespec × timespec)
    (hspeed : ¬ 0 < s.context.fixed_port_speed)
    (hfr : s.context.fixed_port_framing.getD 0 0 = 0)
    (hidx : s.baudindex = 0) (hstop : s.gpsdata.dev.stopbits = 1) (n : Nat)
    (htrue : ∀ j, j < n → hunt_result E s clock j = true) :
    hunt_grid.card = 20
    ∧ ((hunt_after E s clock n).baudindex, (hunt_after E s clock n).gpsdata.dev.stopbits)
        ∈ hunt_grid
    ∧ (hunt_result E s clock n = false →
        E.isatty s.gpsdata.gps_fd = true → s.sourcetype ≠ SOURCE_PPS →
        ((hunt_after E s clock (n + 1)).baudindex,
          (hunt_after E s clock (n + 1)).gpsdata.dev.stopbits) = (0, 3)) := by
  have hinv : ∀ m, (∀ j, j < m → hunt_result E s clock j = true) →
      (hunt_after E s clock m).context = s.context
      ∧ (hunt_after E s clock m).gpsdata.gps_fd = s.gpsdata.gps_fd
      ∧ (hunt_after E s clock m).sourcetype = s.sourcetype
      ∧ (hunt_after E s clock m).baudindex ≤ 9
      ∧ ((hunt_after E s clock m).gpsdata.dev.stopbits = 1
        ∨ (hunt_after E s clock m).gpsdata.dev.stopbits = 2) := by
    intro m
    induction m with
    | zero =>
      intro _
      exact ⟨rfl, rfl, rfl, by rw [show (hunt_after E s clock 0) = s from rfl, hidx]; omega,
        Or.inl hstop⟩
    | succ m ih =>
      intro hall
      obtain ⟨ic, ifd, iso, iidx, istop⟩ := ih (fun j hj => hall j (Nat.lt_succ_of_lt hj))
      have hstep : hunt_after E s clock (m + 1)
          = (gpsd_next_hunt_setting E (hunt_after E s clock m) (clock m).1 (clock m).2).2 := rfl
      obtain ⟨fc, ff, fs⟩ := hunt_frame E (hunt_after E s clock m) (clock m).1 (clock m).2
      have hres : (gpsd_next_hunt_setting E (hunt_after E s clock m) (clock m).1
          (clock m).2).1 = true := hall m (Nat.lt_succ_self m)
      have hg := (hunt_step_grid E (hunt_after E s clock m) (clock m).1 (clock m).2
        (by rw [ic]; exact hspeed) (by rw [ic]; exact hfr) iidx istop).1 hres
      rw [hstep, fc, ff, fs]
      exact ⟨ic, ifd, iso, hg.1, hg.2⟩
  obtain ⟨ic, ifd, iso, iidx, istop⟩ := hinv n htrue
  refine ⟨by decide, ?_, ?_⟩
  · unfold hunt_grid
    rw [Finset.mem_product, Finset.mem_range, Finset.mem_insert, Finset.mem_singleton]
    exact ⟨by omega, istop⟩
  · intro hf htty hpps
    have hstep : hunt_after E s clock (n + 1)
        = (gpsd_next_hunt_setting E (hunt_after E s clock n) (clock n).1 (clock n).2).2 := rfl
    have hg := (hunt_step_grid E (hunt_after E s clock n) (clock n).1 (clock n).2
      (by rw [ic]; exact hspeed) (by rw [ic]; exact hfr) iidx istop).2 hf
      (by rw [ifd]; exact htty) (by rw [iso]; exact hpps)
    rw [hstep, hg.1, hg.2]

/-- C10 (witness): two calls on the fresh session, each past the deadline. -/
theorem hunt_cursor_in_grid_witness :
    (¬ 0 < (fresh_session []).context.fixed_port_speed
      ∧ (fresh_session []).context.fixed_port_framing.getD 0 0 = 0
      ∧ (fresh_session []).baudindex = 0
      ∧ (fresh_session []).gpsdata.dev.stopbits = 1
      ∧ ∀ j, j < 2 → hunt_result (spec_env 9216) (fresh_session [])
          (fun k => (⟨104 + 5 * k, 0⟩, ⟨104 + 5 * k, 200000000⟩)) j = true)
    ∧ hunt_grid.card = 20
    ∧ ((hunt_after (spec_env 9216) (fresh_session [])
          (fun k => (⟨104 + 5 * k, 0⟩, ⟨104 + 5 * k, 200000000⟩)) 2).baudindex,
        (hunt_after (spec_env 9216) (fresh_session [])
          (fun k => (⟨104 + 5 * k, 0⟩, ⟨104 + 5 * k, 200000000⟩)) 2).gpsdata.dev.stopbits)
        ∈ hunt_grid
    ∧ (hunt_result (spec_env 9216) (fresh_session [])
          (fun k => (⟨104 + 5 * k, 0⟩, ⟨104 + 5 * k, 200000000⟩)) 2 = false →
        (spec_env 9216).isatty (fresh_session []).gpsdata.gps_fd = true →
        (fresh_session []).sourcetype ≠ SOURCE_PPS →
        ((hunt_after (spec_env 9216) (fresh_session [])
            (fun k => (⟨104 + 5 * k, 0⟩, ⟨104 + 5 * k, 200000000⟩)) (2 + 1)).baudindex,
          (hunt_after (spec_env 9216) (fresh_session [])
            (fun k => (⟨104 + 5 * k, 0⟩, ⟨104 + 5 * k, 200000000⟩)) (2 + 1)).gpsdata.dev.stopbits)
          = (0, 3)) :=
  ⟨by decide,
    hunt_cursor_in_grid (spec_env 9216) (fresh_session [])
      (fun k => (⟨104 + 5 * k, 0⟩, ⟨104 + 5 * k, 200000000⟩)) (by decide) (by decide)
      (by decide) (by decide) 2 (by decide)⟩

/-- C11 (counterexample).  On a session with fixed port speed 9600 whose handle is not a
tty, with retry counter 0 and no time elapsed (the cell is not exhausted),
`gpsd_next_hunt_setting` returns false. -/
theorem hunt_fixed_speed_not_tty_false :
    0 < fixed_speed_session.context.fixed_port_speed
    ∧ fixed_speed_session.lexer.retry_counter < SNIFF_RETRIES (no_tty_env 9216)
    ∧ ¬ 3 < ((no_tty_env 9216).TS_SUB fixed_speed_session.ts_startCurrentBaud ⟨100, 0⟩).tv_sec
    ∧ gpsd_next_hunt_setting (no_tty_env 9216) fixed_speed_session ⟨100, 0⟩ ⟨100, 0⟩
        = (false, fixed_speed_session) := by
  decide

/-- C11 (amended).  A fixed port speed forbids hunting.  For every session whose context
has `fixed_port_speed > 0`, `gpsd_next_hunt_setting` never runs `gpsd_set_speed`
(nothing is added to the log, the termios is untouched) and never changes baudindex,
stop bits or parity; on a tty, non-PPS session it returns true exactly when the cell
is not exhausted (retry counter below `SNIFF_RETRIES` and deadline not passed) and
false otherwise; when the handle is not a tty or the source is PPS it returns false. -/
theorem hunt_fixed_speed_frame (E : Env) (s : gps_device_t) (ts_now ts_set : timespec)
    (hfix : 0 < s.context.fixed_port_speed) :
    ((gpsd_next_hunt_setting E s ts_now ts_set).2.calls = s.calls
      ∧ (gpsd_next_hunt_setting E s ts_now ts_set).2.ttyset = s.ttyset
      ∧ (gpsd_next_hunt_setting E s ts_now ts_set).2.baudindex = s.baudindex
      ∧ (gpsd_next_hunt_setting E s ts_now ts_set).2.gpsdata.dev = s.gpsdata.dev)
    ∧ (E.isatty s.gpsdata.gps_fd = true → s.sourcetype ≠ SOURCE_PPS →
        ((gpsd_next_hunt_setting E s ts_now ts_set).1 = true
          ↔ ¬ (SNIFF_RETRIES E ≤ s.lexer.retry_counter
                ∨ 3 < (E.TS_SUB s.ts_startCurrentBaud ts_now).tv_sec)))
    ∧ ((E.isatty s.gpsdata.gps_fd = false ∨ s.sourcetype = SOURCE_PPS) →
        (gpsd_next_hunt_setting E s ts_now ts_set).1 = false) := by
  refine ⟨?_, ?_, ?_⟩
  · unfold gpsd_next_hunt_setting
    simp only [hfix, if_true]
    split_ifs <;> exact ⟨rfl, rfl, rfl, rfl⟩
  · intro htty hpps
    by_cases hex : SNIFF_RETRIES E ≤ s.lexer.retry_counter
        ∨ 3 < (E.TS_SUB s.ts_startCurrentBaud ts_now).tv_sec
    · have hf : (gpsd_next_hunt_setting E s ts_now ts_set).1 = false := by
        unfold gpsd_next_hunt_setting
        simp only [htty, hpps, hex, hfix, if_true, if_false, Bool.true_eq_false]
      rw [hf]
      exact ⟨fun h => Bool.noConfusion h, fun h => absurd hex h⟩
    · rw [hunt_stays E s ts_now ts_set htty hpps hex]
      exact ⟨fun _ => hex, fun _ => rfl⟩
  · intro h
    rw [hunt_not_tty E s ts_now ts_set h]

/-- C11 (witness): the fixed-speed session on a tty, one call. -/
theorem hunt_fixed_speed_frame_witness :
    0 < fixed_speed_session.context.fixed_port_speed
    ∧ (((gpsd_next_hunt_setting (spec_env 9216) fixed_speed_session ⟨100, 0⟩ ⟨100, 0⟩).2.calls
          = fixed_speed_session.calls
        ∧ (gpsd_next_hunt_setting (spec_env 9216) fixed_speed_session ⟨100, 0⟩ ⟨100, 0⟩).2.ttyset
          = fixed_speed_session.ttyset
        ∧ (gpsd_next_hunt_setting (spec_env 9216) fixed_speed_session ⟨100, 0⟩ ⟨100, 0⟩).2.baudindex
          = fixed_speed_session.baudindex
        ∧ (gpsd_next_hunt_setting (spec_env 9216) fixed_speed_session ⟨100, 0⟩ ⟨100, 0⟩).2.gpsdata.dev
          = fixed_speed_session.gpsdata.dev)
      ∧ ((spec_env 9216).isatty fixed_speed_session.gpsdata.gps_fd = true →
          fixed_speed_session.sourcetype ≠ SOURCE_PPS →
          ((gpsd_next_hunt_setting (spec_env 9216) fixed_speed_session ⟨100, 0⟩ ⟨100, 0⟩).1 = true
            ↔ ¬ (SNIFF_RETRIES (spec_env 9216) ≤ fixed_speed_session.lexer.retry_counter
                  ∨ 3 < ((spec_env 9216).TS_SUB fixed_speed_session.ts_startCurrentBaud
                      ⟨100, 0⟩).tv_sec)))
      ∧ (((spec_env 9216).isatty fixed_speed_session.gpsdata.gps_fd = false
            ∨ fixed_speed_session.sourcetype = SOURCE_PPS) →
          (gpsd_next_hunt_setting (spec_env 9216) fixed_speed_session ⟨100, 0⟩ ⟨100, 0⟩).1
            = false)) :=
  ⟨by decide, hunt_fixed_speed_frame (spec_env 9216) fixed_speed_session ⟨100, 0⟩ ⟨100, 0⟩
    (by decide)⟩

/-- The `switch (devmajor)` of `gpsd_classify` is the decision list of the specification
for character devices. -/
theorem spec_classify_chardev_eq (maj min : Nat) :
    (match maj with
      | 3 => SOURCE_PTY
      | 136 => SOURCE_PTY
      | 137 => SOURCE_PTY
      | 138 => SOURCE_PTY
      | 139 => SOURCE_PTY
      | 140 => SOURCE_PTY
      | 141 => SOURCE_PTY
      | 142 => SOURCE_PTY
      | 143 => SOURCE_PTY
      | 4 => SOURCE_RS232
      | 204 => SOURCE_RS232
      | 207 => SOURCE_RS232
      | 10 => if 223 = min then SOURCE_PPS else SOURCE_RS232
      | 166 => SOURCE_ACM
      | 188 => SOURCE_USB
      | 216 => SOURCE_BLUETOOTH
      | 217 => SOURCE_BLUETOOTH
      | _ => SOURCE_RS232) = spec_classify_chardev maj min := by
  unfold spec_classify_chardev
  split <;> first
    | rfl
    | (split_ifs <;> first | rfl | omega)
    | (simp_all; done)
    | (simp_all; split_ifs <;> first | rfl | omega)

theorem kind_of_mode_iff (m : Nat) :
    (S_ISREG m = true ↔ kind_of_mode m = file_kind.regular)
    ∧ (S_ISSOCK m = true ↔ kind_of_mode m = file_kind.socket)
    ∧ (S_ISFIFO m = true ↔ kind_of_mode m = file_kind.fifo)
    ∧ (S_ISCHR m = true ↔ kind_of_mode m = file_kind.chardev) := by
  unfold S_ISREG S_ISSOCK S_ISFIFO S_ISCHR kind_of_mode
  generalize m &&& S_IFMT = x
  simp only [beq_iff_eq, S_IFREG, S_IFSOCK, S_IFIFO, S_IFCHR]
  refine ⟨?_, ?_, ?_, ?_⟩ <;> constructor <;> intro h <;> split_ifs at * <;> simp_all

/-- C13.  `gpsd_classify` is the ordered decision list of the specification (Linux,
not BSD): `SOURCE_UNKNOWN` when `stat` fails, otherwise the first rule that matches
among regular file, socket, path starting with /dev/pts/, path starting with
/dev/pps, FIFO, character device by major and minor number, and `SOURCE_UNKNOWN` for
anything else; in particular a character device at /dev/pts/3 classifies as
`SOURCE_PTY`. -/
theorem gpsd_classify_decision_list (path : String) (sb : Option stat_t) (cb : stat_t) :
    gpsd_classify path sb = spec_classify path sb
    ∧ (S_ISCHR cb.st_mode = true → gpsd_classify "/dev/pts/3" (some cb) = SOURCE_PTY) := by
  constructor
  · cases sb with
    | none => rfl
    | some sb =>
      obtain ⟨h1, h2, h3, h4⟩ := kind_of_mode_iff sb.st_mode
      unfold gpsd_classify spec_classify strncmp_eq
      simp only [h1, h2, h3, h4, beq_iff_eq, spec_classify_chardev_eq]
      have e9 : "/dev/pts/".toList.take 9 = "/dev/pts/".toList := by decide
      have e8 : "/dev/pps".toList.take 8 = "/dev/pps".toList := by decide
      rw [e9, e8]
  · intro hc
    obtain ⟨h1, h2, _, h4⟩ := kind_of_mode_iff cb.st_mode
    have hk := h4.mp hc
    have hr : S_ISREG cb.st_mode = false := by
      cases h : S_ISREG cb.st_mode
      · rfl
      · rw [h1.mp h] at hk
        exact absurd hk (by decide)
    have hs : S_ISSOCK cb.st_mode = false := by
      cases h : S_ISSOCK cb.st_mode
      · rfl
      · rw [h2.mp h] at hk
        exact absurd hk (by decide)
    have hp : strncmp_eq "/dev/pts/3" "/dev/pts/" 9 = true := by decide
    unfold gpsd_classify
    simp only [hr, hs, hp, if_true, if_false, Bool.false_eq_true]

/-- C13 (witness): the pty slave 136:3 at /dev/pts/3. -/
theorem gpsd_classify_decision_list_witness :
    S_ISCHR (stat_t.mk 0x2190 0x8803).st_mode = true
    ∧ gpsd_classify "/dev/pts/3" (some (stat_t.mk 0x2190 0x8803))
        = spec_classify "/dev/pts/3" (some (stat_t.mk 0x2190 0x8803))
    ∧ (S_ISCHR (stat_t.mk 0x2190 0x8803).st_mode = true →
        gpsd_classify "/dev/pts/3" (some (stat_t.mk 0x2190 0x8803)) = SOURCE_PTY) :=
  ⟨by decide,
    gpsd_classify_decision_list "/dev/pts/3" (some (stat_t.mk 0x2190 0x8803))
      (stat_t.mk 0x2190 0x8803)⟩

/-- C12 (counterexample).  A port found in cooked mode at 4800 baud 7E1 is opened (the
open succeeds with descriptor 3) and closed at once, the device answering the
`tcgetattr` of `gpsd_close` with what was last written to it: the termios that
`gpsd_close` writes last is the raw 8N1 setting of the open with `HUPCL`, not the
termios that `tcgetattr` returned at open time. -/
theorem open_close_does_not_restore :
    (gpsd_serial_open (spec_env 9216) (new_session "/dev/ttyS0") (tty_answers cooked_4800)).1 = 3
    ∧ (gpsd_serial_open (spec_env 9216) (new_session "/dev/ttyS0")
        (tty_answers cooked_4800)).2.ttyset_old = cooked_4800
    ∧ last_tcsetattr
        (gpsd_close (spec_env 9216)
          (gpsd_serial_open (spec_env 9216) (new_session "/dev/ttyS0")
            (tty_answers cooked_4800)).2
          (last_tcsetattr
            (gpsd_serial_open (spec_env 9216) (new_session "/dev/ttyS0")
              (tty_answers cooked_4800)).2.calls)).calls
        = some { c_iflag := 0, c_oflag := 0, c_cflag := 0xCB0, c_lflag := 0,
                 c_cc := [0, 0, 0, 0, 0, 0, 0, 0], c_ispeed := B4800, c_ospeed := B4800 }
    ∧ last_tcsetattr
        (gpsd_close (spec_env 9216)
          (gpsd_serial_open (spec_env 9216) (new_session "/dev/ttyS0")
            (tty_answers cooked_4800)).2
          (last_tcsetattr
            (gpsd_serial_open (spec_env 9216) (new_session "/dev/ttyS0")
              (tty_answers cooked_4800)).2.calls)).calls
        ≠ some cooked_4800 := by
  decide

theorem last_tcsetattr_append_one (cs : List syscall) (fd : Int) (t : termios) :
    last_tcsetattr (cs ++ [syscall.tcsetattr fd t]) = some t := by
  unfold last_tcsetattr
  rw [List.reverse_append]
  rfl

theorem gpsd_close_last_written (E : Env) (s : gps_device_t) (attr : Option termios)
    (hfd : 0 ≤ s.gpsdata.gps_fd) (htty : E.isatty s.gpsdata.gps_fd = true) :
    last_tcsetattr (gpsd_close E s attr).calls
      = some { attr.getD s.ttyset_old with
          c_cflag := (attr.getD s.ttyset_old).c_cflag ||| HUPCL } := by
  have hbad : BAD_SOCKET s.gpsdata.gps_fd = false := by
    unfold BAD_SOCKET
    rw [decide_eq_false_iff_not]
    omega
  unfold gpsd_close
  simp only [hbad, htty, if_true, Bool.false_eq_true, if_false]
  cases attr with
  | none => exact last_tcsetattr_append_one _ _ _
  | some t => exact last_tcsetattr_append_one _ _ _

theorem gpsd_serial_open_tty (E : Env) (s : gps_device_t) (a : open_answers)
    (hfd : 0 ≤ (gpsd_serial_open E s a).1)
    (htty : E.isatty (gpsd_serial_open E s a).1 = true) :
    ∃ pre old, a.tcgetattr = some old
      ∧ gpsd_serial_open E s a = open_termios_stage E pre a old
      ∧ pre.context = s.context ∧ pre.saved_baud = s.saved_baud
      ∧ pre.calls = s.calls
      ∧ pre.sourcetype = gpsd_classify s.gpsdata.dev.path a.stat := by
  unfold gpsd_serial_open at hfd htty ⊢
  simp only [] at hfd htty ⊢
  split_ifs at hfd htty ⊢ with h1 h2 h3 h4 h5
  · simp [UNALLOCATED_FD] at hfd
  · simp [PLACEHOLDING_FD] at hfd
  · simp [UNALLOCATED_FD] at hfd
  · simp [UNALLOCATED_FD] at hfd
  · simp only at htty
    rw [h5] at htty
    exact absurd htty (by decide)
  · cases hg : a.tcgetattr with
    | none =>
      rw [hg] at hfd
      simp [UNALLOCATED_FD] at hfd
    | some old =>
      exact ⟨_, old, rfl, rfl, rfl, rfl, rfl, rfl⟩

theorem gpsd_set_speed_keeps (E : Env) (s : gps_device_t) (speed : Nat) (parity : Int)
    (stopbits : Nat) (now : timespec) :
    (gpsd_set_speed E s speed parity stopbits now).ttyset_old = s.ttyset_old
    ∧ (gpsd_set_speed E s speed parity stopbits now).saved_baud = s.saved_baud := by
  unfold gpsd_set_speed
  simp only []
  split_ifs <;> exact ⟨rfl, rfl⟩

theorem open_prepare_spec (pre : gps_device_t) (old : termios) :
    (open_prepare pre old).gpsdata = pre.gpsdata
    ∧ (open_prepare pre old).context = pre.context
    ∧ (open_prepare pre old).sourcetype = pre.sourcetype
    ∧ (open_prepare pre old).ttyset_old = old
    ∧ (open_prepare pre old).baudindex = 0
    ∧ (open_prepare pre old).saved_baud
        = (if 0 < pre.context.fixed_port_speed then pre.context.fixed_port_speed
           else pre.saved_baud) := by
  unfold open_prepare
  simp only []
  split_ifs <;> simp_all

theorem open_hunt_point_spec (p : gps_device_t) :
    open_hunt_point p
      = ((if 0 < p.context.fixed_port_speed then uint_of_int p.context.fixed_port_speed
          else uint_of_int (code2speed (cfgetospeed p.ttyset_old))),
         (if p.context.fixed_port_framing.getD 0 0 = 0 then 78
          else p.context.fixed_port_framing.getD 1 0),
         (if p.context.fixed_port_framing.getD 0 0 = 0 then 1
          else uint_of_int (p.context.fixed_port_framing.getD 2 0 - 48))) := by
  unfold open_hunt_point gpsd_get_speed_old
  simp only []
  split_ifs <;> rfl

theorem open_finish_spec (g : gps_device_t) (ts : timespec) :
    (open_finish g ts).1 = g.gpsdata.gps_fd
    ∧ (open_finish g ts).2.gpsdata.gps_fd = g.gpsdata.gps_fd
    ∧ (open_finish g ts).2.context = g.context
    ∧ (open_finish g ts).2.ttyset_old = g.ttyset_old
    ∧ (open_finish g ts).2.baudindex = g.baudindex
    ∧ (open_finish g ts).2.saved_baud = g.saved_baud
    ∧ (open_finish g ts).2.gpsdata.dev.baudrate = g.gpsdata.dev.baudrate
    ∧ (¬ (g.sourcetype = SOURCE_UNKNOWN ∨ g.sourcetype = SOURCE_BLOCKDEV) →
        (open_finish g ts).2.gpsdata.dev.parity = g.gpsdata.dev.parity)
    ∧ (¬ (g.sourcetype = SOURCE_UNKNOWN ∨ g.sourcetype = SOURCE_BLOCKDEV) →
        (open_finish g ts).2.gpsdata.dev.stopbits = g.gpsdata.dev.stopbits) := by
  unfold open_finish
  simp only []
  split_ifs with h
  · exact ⟨rfl, rfl, rfl, rfl, rfl, rfl, rfl, fun hn => absurd h hn, fun hn => absurd h hn⟩
  · exact ⟨rfl, rfl, rfl, rfl, rfl, rfl, rfl, fun _ => rfl, fun _ => rfl⟩

theorem open_termios_stage_spec (E : Env) (pre : gps_device_t) (a : open_answers)
    (old : termios) :
    (open_termios_stage E pre a old).1 = pre.gpsdata.gps_fd
    ∧ (open_termios_stage E pre a old).2.gpsdata.gps_fd = pre.gpsdata.gps_fd
    ∧ (open_termios_stage E pre a old).2.context = pre.context
    ∧ (open_termios_stage E pre a old).2.ttyset_old = old
    ∧ (open_termios_stage E pre a old).2.baudindex = 0
    ∧ (open_termios_stage E pre a old).2.saved_baud
        = (if 0 < pre.context.fixed_port_speed then pre.context.fixed_port_speed
           else pre.saved_baud)
    ∧ (open_termios_stage E pre a old).2.gpsdata.dev.baudrate
        = (if 0 < pre.context.fixed_port_speed then uint_of_int pre.context.fixed_port_speed
           else uint_of_int (code2speed (cfgetospeed old)))
    ∧ (pre.sourcetype ≠ SOURCE_UNKNOWN → pre.sourcetype ≠ SOURCE_BLOCKDEV →
        (open_termios_stage E pre a old).2.gpsdata.dev.parity
          = normalize_parity
              (if pre.context.fixed_port_framing.getD 0 0 = 0 then 78
               else pre.context.fixed_port_framing.getD 1 0)
        ∧ (open_termios_stage E pre a old).2.gpsdata.dev.stopbits
          = (if pre.context.fixed_port_framing.getD 0 0 = 0 then 1
             else uint_of_int (pre.context.fixed_port_framing.getD 2 0 - 48))) := by
  obtain ⟨p1, p2, p3, p4, p5, p6⟩ := open_prepare_spec pre old
  have hp := open_hunt_point_spec (open_prepare pre old)
  rw [p2, p4] at hp
  obtain ⟨f1, f2, f3, _, _⟩ := gpsd_set_speed_frame E (open_prepare pre old)
    (open_hunt_point (open_prepare pre old)).1 (open_hunt_point (open_prepare pre old)).2.1
    (open_hunt_point (open_prepare pre old)).2.2 a.ts_set
  have fc := gpsd_set_speed_context E (open_prepare pre old)
    (open_hunt_point (open_prepare pre old)).1 (open_hunt_point (open_prepare pre old)).2.1
    (open_hunt_point (open_prepare pre old)).2.2 a.ts_set
  obtain ⟨k1, k2⟩ := gpsd_set_speed_keeps E (open_prepare pre old)
    (open_hunt_point (open_prepare pre old)).1 (open_hunt_point (open_prepare pre old)).2.1
    (open_hunt_point (open_prepare pre old)).2.2 a.ts_set
  have fd := gpsd_set_speed_dev E (open_prepare pre old)
    (open_hunt_point (open_prepare pre old)).1 (open_hunt_point (open_prepare pre old)).2.1
    (open_hunt_point (open_prepare pre old)).2.2 a.ts_set
  have hbaud : effective_speed (open_prepare pre old) (open_hunt_point (open_prepare pre old)).1
      = (if 0 < pre.context.fixed_port_speed then uint_of_int pre.context.fixed_port_speed
         else uint_of_int (code2speed (cfgetospeed old))) := by
    unfold effective_speed
    rw [hp, p2]
    split_ifs <;> rfl
  have hpar : effective_parity (open_prepare pre old)
      (open_hunt_point (open_prepare pre old)).2.1
      = (if pre.context.fixed_port_framing.getD 0 0 = 0 then 78
         else pre.context.fixed_port_framing.getD 1 0) := by
    unfold effective_parity
    rw [hp, p2]
    by_cases h0 : pre.context.fixed_port_framing.getD 0 0 = 0
    · simp only [h0, bne_self_eq_false, Bool.false_eq_true, if_false, if_true]
    · have hb : (pre.context.fixed_port_framing.getD 0 0 != 0) = true := by
        rw [bne_iff_ne]; exact h0
      simp only [hb, h0, if_true, if_false]
  have hstp : effective_stopbits (open_prepare pre old)
      (open_hunt_point (open_prepare pre old)).2.2
      = (if pre.context.fixed_port_framing.getD 0 0 = 0 then 1
         else uint_of_int (pre.context.fixed_port_framing.getD 2 0 - 48)) := by
    unfold effective_stopbits
    rw [hp, p2]
    by_cases h0 : pre.context.fixed_port_framing.getD 0 0 = 0
    · simp only [h0, bne_self_eq_false, Bool.false_eq_true, if_false, if_true]
    · have hb : (pre.context.fixed_port_framing.getD 0 0 != 0) = true := by
        rw [bne_iff_ne]; exact h0
      simp only [hb, h0, if_true, if_false]
  obtain ⟨q1, q2, q3, q4, q5, q6, q7, q8, q9⟩ := open_finish_spec
    (gpsd_set_speed E (open_prepare pre old)
      (open_hunt_point (open_prepare pre old)).1 (open_hunt_point (open_prepare pre old)).2.1
      (open_hunt_point (open_prepare pre old)).2.2 a.ts_set) a.ts_open
  have hrw : open_termios_stage E pre a old = open_finish
      (gpsd_set_speed E (open_prepare pre old)
        (open_hunt_point (open_prepare pre old)).1 (open_hunt_point (open_prepare pre old)).2.1
        (open_hunt_point (open_prepare pre old)).2.2 a.ts_set) a.ts_open := rfl
  rw [hrw]
  refine ⟨by rw [q1, f1, p1], by rw [q2, f1, p1], by rw [q3, fc, p2], by rw [q4, k1, p4],
    by rw [q5, f3, p5], by rw [q6, k2, p6], by rw [q7, fd, hbaud], ?_⟩
  intro hu hb
  have hn : ¬ ((gpsd_set_speed E (open_prepare pre old)
      (open_hunt_point (open_prepare pre old)).1 (open_hunt_point (open_prepare pre old)).2.1
      (open_hunt_point (open_prepare pre old)).2.2 a.ts_set).sourcetype = SOURCE_UNKNOWN
      ∨ (gpsd_set_speed E (open_prepare pre old)
      (open_hunt_point (open_prepare pre old)).1 (open_hunt_point (open_prepare pre old)).2.1
      (open_hunt_point (open_prepare pre old)).2.2 a.ts_set).sourcetype = SOURCE_BLOCKDEV) := by
    rw [f2, p3]
    intro h
    rcases h with h | h
    · exact hu h
    · exact hb h
  constructor
  · rw [q8 hn, fd, hpar]
  · rw [q9 hn, fd, hstp]

/-- C12 (amended).  Open then close writes back the line as it is at close time.  When
`gpsd_serial_open` has succeeded on a tty (it returned a descriptor `fd ≥ 0` that is a
tty) and `gpsd_close` is called at once, the termios that `gpsd_close` writes last is
what the `tcgetattr` of `gpsd_close` returned, with `HUPCL` set in `c_cflag`; it is
the value saved at open time (`ttyset_old`, with `HUPCL` set) only when that
`tcgetattr` fails. -/
theorem open_close_last_written (E : Env) (s : gps_device_t) (a : open_answers)
    (attr : Option termios)
    (hfd : 0 ≤ (gpsd_serial_open E s a).1)
    (htty : E.isatty (gpsd_serial_open E s a).1 = true) :
    ∃ old, a.tcgetattr = some old
      ∧ (gpsd_serial_open E s a).2.ttyset_old = old
      ∧ last_tcsetattr (gpsd_close E (gpsd_serial_open E s a).2 attr).calls
          = some { attr.getD old with c_cflag := (attr.getD old).c_cflag ||| HUPCL } := by
  obtain ⟨pre, old, hg, hopen, _⟩ := gpsd_serial_open_tty E s a hfd htty
  obtain ⟨h1, h2, _, h4, _⟩ := open_termios_stage_spec E pre a old
  rw [hopen] at hfd htty ⊢
  refine ⟨old, hg, h4, ?_⟩
  rw [gpsd_close_last_written E _ attr (by rw [h2, ← h1]; exact hfd)
    (by rw [h2, ← h1]; exact htty), h4]

/-- C12 (witness): the cooked 4800 baud port, the device answering with what was last
written to it. -/
theorem open_close_last_written_witness :
    (0 ≤ (gpsd_serial_open (spec_env 9216) (new_session "/dev/ttyS0")
          (tty_answers cooked_4800)).1
      ∧ (spec_env 9216).isatty (gpsd_serial_open (spec_env 9216) (new_session "/dev/ttyS0")
          (tty_answers cooked_4800)).1 = true)
    ∧ ∃ old, (tty_answers cooked_4800).tcgetattr = some old
      ∧ (gpsd_serial_open (spec_env 9216) (new_session "/dev/ttyS0")
          (tty_answers cooked_4800)).2.ttyset_old = old
      ∧ last_tcsetattr (gpsd_close (spec_env 9216)
          (gpsd_serial_open (spec_env 9216) (new_session "/dev/ttyS0")
            (tty_answers cooked_4800)).2
          (some line_9600)).calls
          = some { (some line_9600).getD old with
              c_cflag := ((some line_9600).getD old).c_cflag ||| HUPCL } :=
  ⟨by decide,
    open_close_last_written (spec_env 9216) (new_session "/dev/ttyS0")
      (tty_answers cooked_4800) (some line_9600) (by decide) (by decide)⟩

/-- C14 (counterexample).  A port was opened at 9600 baud, reached sync and was closed:
`saved_baud` is 13 (the value of `B9600`), there is no fixed speed.  Opened again on a
line now found at 4800 baud, `gpsd_serial_open` hands 4800, the speed read from
`ttyset_old`, to `gpsd_set_speed`, not `saved_baud`: the recorded baudrate is 4800 and
the line is left at `B4800`. -/
theorem open_passes_old_line_speed :
    synced_session.saved_baud = 13
    ∧ synced_session.context.fixed_port_speed = 0
    ∧ (gpsd_serial_open (spec_env 9216) synced_session (tty_answers cooked_4800)).1 = 3
    ∧ (open_hunt_point (open_prepare synced_session cooked_4800)).1 = 4800
    ∧ (gpsd_serial_open (spec_env 9216) synced_session
        (tty_answers cooked_4800)).2.gpsdata.dev.baudrate = 4800
    ∧ cfgetispeed (gpsd_serial_open (spec_env 9216) synced_session
        (tty_answers cooked_4800)).2.ttyset = B4800 := by
  decide

/-- C14 (amended).  Initial hunt point of open.  For every session on which
`gpsd_serial_open` reaches the termios stage (it returns a descriptor `fd ≥ 0` that is
a tty): the speed it hands to `gpsd_set_speed` is the fixed port speed of the context
when that is `> 0`, otherwise the speed of the line as read at open time
(`code2speed` of the output speed in `ttyset_old`; `saved_baud` is only written to
the termios before that); parity and stop bits are positions 1 and 2 of the fixed
framing when the framing is fixed, otherwise `N` and 1; the session records that
speed and (unless the source is a block device) that framing, and baudindex is 0
afterwards. -/
theorem open_initial_hunt_point (E : Env) (s : gps_device_t) (a : open_answers)
    (hfd : 0 ≤ (gpsd_serial_open E s a).1)
    (htty : E.isatty (gpsd_serial_open E s a).1 = true) :
    ∃ pre old, a.tcgetattr = some old
      ∧ gpsd_serial_open E s a = open_termios_stage E pre a old
      ∧ open_hunt_point (open_prepare pre old)
          = ((if 0 < s.context.fixed_port_speed then uint_of_int s.context.fixed_port_speed
              else uint_of_int (code2speed (cfgetospeed old))),
             (if s.context.fixed_port_framing.getD 0 0 = 0 then 78
              else s.context.fixed_port_framing.getD 1 0),
             (if s.context.fixed_port_framing.getD 0 0 = 0 then 1
              else uint_of_int (s.context.fixed_port_framing.getD 2 0 - 48)))
      ∧ (gpsd_serial_open E s a).2.baudindex = 0
      ∧ (gpsd_serial_open E s a).2.gpsdata.dev.baudrate
          = (if 0 < s.context.fixed_port_speed then uint_of_int s.context.fixed_port_speed
             else uint_of_int (code2speed (cfgetospeed old)))
      ∧ (gpsd_classify s.gpsdata.dev.path a.stat ≠ SOURCE_BLOCKDEV →
          (gpsd_serial_open E s a).2.gpsdata.dev.parity
            = normalize_parity
                (if s.context.fixed_port_framing.getD 0 0 = 0 then 78
                 else s.context.fixed_port_framing.getD 1 0)
          ∧ (gpsd_serial_open E s a).2.gpsdata.dev.stopbits
            = (if s.context.fixed_port_framing.getD 0 0 = 0 then 1
               else uint_of_int (s.context.fixed_port_framing.getD 2 0 - 48))) := by
  obtain ⟨pre, old, hg, hopen, hc, _, _, hsrc⟩ := gpsd_serial_open_tty E s a hfd htty
  obtain ⟨_, _, _, _, h5, _, h7, h8⟩ := open_termios_stage_spec E pre a old
  have hunk : pre.sourcetype ≠ SOURCE_UNKNOWN := by
    intro hu
    rw [hsrc] at hu
    unfold gpsd_serial_open at hfd
    simp only [hu, if_true] at hfd
    simp [UNALLOCATED_FD] at hfd
  refine ⟨pre, old, hg, hopen, ?_, ?_, ?_, ?_⟩
  · obtain ⟨_, p2, _, p4, _⟩ := open_prepare_spec pre old
    rw [open_hunt_point_spec, p2, p4, hc]
  · rw [hopen, h5]
  · rw [hopen, h7, hc]
  · intro hb
    rw [hopen, ← hc]
    exact h8 hunk (by rw [hsrc]; exact hb)

/-- C14 (witness): the synced session opened again on the line at 4800 baud. -/
theorem open_initial_hunt_point_witness :
    (0 ≤ (gpsd_serial_open (spec_env 9216) synced_session (tty_answers cooked_4800)).1
      ∧ (spec_env 9216).isatty
          (gpsd_serial_open (spec_env 9216) synced_session (tty_answers cooked_4800)).1 = true)
    ∧ ∃ pre old, (tty_answers cooked_4800).tcgetattr = some old
      ∧ gpsd_serial_open (spec_env 9216) synced_session (tty_answers cooked_4800)
          = open_termios_stage (spec_env 9216) pre (tty_answers cooked_4800) old
      ∧ open_hunt_point (open_prepare pre old)
          = ((if 0 < synced_session.context.fixed_port_speed then
                uint_of_int synced_session.context.fixed_port_speed
              else uint_of_int (code2speed (cfgetospeed old))),
             (if synced_session.context.fixed_port_framing.getD 0 0 = 0 then 78
              else synced_session.context.fixed_port_framing.getD 1 0),
             (if synced_session.context.fixed_port_framing.getD 0 0 = 0 then 1
              else uint_of_int (synced_session.context.fixed_port_framing.getD 2 0 - 48)))
      ∧ (gpsd_serial_open (spec_env 9216) synced_session
          (tty_answers cooked_4800)).2.baudindex = 0
      ∧ (gpsd_serial_open (spec_env 9216) synced_session
          (tty_answers cooked_4800)).2.gpsdata.dev.baudrate
          = (if 0 < synced_session.context.fixed_port_speed then
               uint_of_int synced_session.context.fixed_port_speed
             else uint_of_int (code2speed (cfgetospeed old)))
      ∧ (gpsd_classify synced_session.gpsdata.dev.path (tty_answers cooked_4800).stat
            ≠ SOURCE_BLOCKDEV →
          (gpsd_serial_open (spec_env 9216) synced_session
              (tty_answers cooked_4800)).2.gpsdata.dev.parity
            = normalize_parity
                (if synced_session.context.fixed_port_framing.getD 0 0 = 0 then 78
                 else synced_session.context.fixed_port_framing.getD 1 0)
          ∧ (gpsd_serial_open (spec_env 9216) synced_session
              (tty_answers cooked_4800)).2.gpsdata.dev.stopbits
            = (if synced_session.context.fixed_port_framing.getD 0 0 = 0 then 1
               else uint_of_int (synced_session.context.fixed_port_framing.getD 2 0 - 48))) :=
  ⟨by decide,
    open_initial_hunt_point (spec_env 9216) synced_session (tty_answers cooked_4800)
      (by decide) (by decide)⟩

/-- C15 (counterexample).  Under a context with fixed port speed 9600, a new session
(`gpsd_tty_init`) is opened once: `saved_baud` is 9600 although `gpsd_assert_sync` was
never called. -/
theorem saved_baud_set_by_open :
    (gpsd_tty_init (new_session_fixed "/dev/ttyS0")).saved_baud = -1
    ∧ (0 : Int) ≤ (serial_run (spec_env 9216) (gpsd_tty_init (new_session_fixed "/dev/ttyS0"))
        [serial_call.serial_open (tty_answers line_9600)]).saved_baud
    ∧ (serial_run (spec_env 9216) (gpsd_tty_init (new_session_fixed "/dev/ttyS0"))
        [serial_call.serial_open (tty_answers line_9600)]).saved_baud = 9600
    ∧ synced_speeds (spec_env 9216) (gpsd_tty_init (new_session_fixed "/dev/ttyS0"))
        [serial_call.serial_open (tty_answers line_9600)] = [] := by
  decide

theorem gpsd_switch_driver_keeps (E : Env) (s : gps_device_t) (n : String) :
    (gpsd_switch_driver E s n).context = s.context
    ∧ (gpsd_switch_driver E s n).saved_baud = s.saved_baud := by
  unfold gpsd_switch_driver
  split <;> exact ⟨rfl, rfl⟩

theorem gpsd_serial_open_saved_baud (E : Env) (s : gps_device_t) (a : open_answers) :
    (gpsd_serial_open E s a).2.context = s.context
    ∧ ((gpsd_serial_open E s a).2.saved_baud = s.saved_baud
      ∨ (0 < s.context.fixed_port_speed
        ∧ (gpsd_serial_open E s a).2.saved_baud = s.context.fixed_port_speed)) := by
  unfold gpsd_serial_open
  simp only []
  split_ifs
  · exact ⟨rfl, Or.inl rfl⟩
  · exact ⟨(gpsd_switch_driver_keeps E _ _).1, Or.inl (gpsd_switch_driver_keeps E _ _).2⟩
  · exact ⟨rfl, Or.inl rfl⟩
  · exact ⟨rfl, Or.inl rfl⟩
  · exact ⟨rfl, Or.inl rfl⟩
  · cases a.tcgetattr with
    | none => exact ⟨rfl, Or.inl rfl⟩
    | some old =>
      obtain ⟨_, _, h3, _, _, h6, _⟩ := open_termios_stage_spec E
        { s with
          sourcetype := gpsd_classify s.gpsdata.dev.path a.stat
          gpsdata := { s.gpsdata with gps_fd := (open_descriptor a).1 }
          lexer := { s.lexer with type := BAD_PACKET } } a old
      refine ⟨h3, ?_⟩
      by_cases hf : 0 < s.context.fixed_port_speed
      · right
        refine ⟨hf, ?_⟩
        rw [h6]
        exact if_pos hf
      · left
        rw [h6]
        exact if_neg hf

theorem hunt_keeps_saved_baud (E : Env) (s : gps_device_t) (t1 t2 : timespec) :
    (gpsd_next_hunt_setting E s t1 t2).2.saved_baud = s.saved_baud := by
  have hr : ∀ x : gps_device_t, (hunt_reconfigure E x t2).2.saved_baud = x.saved_baud := by
    intro x
    unfold hunt_reconfigure
    exact (gpsd_set_speed_keeps E x _ _ _ t2).2
  unfold gpsd_next_hunt_setting
  simp only []
  split_ifs <;> first | rfl | rw [hr]

theorem gpsd_close_keeps (E : Env) (s : gps_device_t) (attr : Option termios) :
    (gpsd_close E s attr).context = s.context
    ∧ (gpsd_close E s attr).saved_baud = s.saved_baud := by
  unfold gpsd_close
  simp only []
  split_ifs
  · exact ⟨rfl, rfl⟩
  · cases attr <;> exact ⟨rfl, rfl⟩
  · exact ⟨rfl, rfl⟩

theorem gpsd_assert_sync_spec (s : gps_device_t) :
    (gpsd_assert_sync s).context = s.context
    ∧ ((s.saved_baud = -1
        ∧ (gpsd_assert_sync s).saved_baud = ((cfgetispeed s.ttyset).code : Int))
      ∨ (s.saved_baud ≠ -1 ∧ (gpsd_assert_sync s).saved_baud = s.saved_baud)) := by
  unfold gpsd_assert_sync
  split_ifs with h
  · exact ⟨rfl, Or.inl ⟨h, rfl⟩⟩
  · exact ⟨rfl, Or.inr ⟨h, rfl⟩⟩

theorem serial_run_saved_baud (E : Env) (cs : List serial_call) :
    ∀ (s : gps_device_t) (seen : List Int),
      (s.saved_baud = -1
        ∨ (0 < s.context.fixed_port_speed ∧ s.saved_baud = s.context.fixed_port_speed)
        ∨ s.saved_baud ∈ seen) →
      (serial_run E s cs).context = s.context
      ∧ ((serial_run E s cs).saved_baud = -1
        ∨ (0 < s.context.fixed_port_speed
          ∧ (serial_run E s cs).saved_baud = s.context.fixed_port_speed)
        ∨ (serial_run E s cs).saved_baud ∈ seen ++ synced_speeds E s cs) := by
  induction cs with
  | nil =>
    intro s seen h
    refine ⟨rfl, ?_⟩
    rcases h with h | h | h
    · exact Or.inl h
    · exact Or.inr (Or.inl h)
    · exact Or.inr (Or.inr (by simpa [synced_speeds] using h))
  | cons c cs ih =>
    intro s seen h
    cases c with
    | serial_open a =>
      obtain ⟨hc, hs⟩ := gpsd_serial_open_saved_baud E s a
      have hinv : (gpsd_serial_open E s a).2.saved_baud = -1
          ∨ (0 < (gpsd_serial_open E s a).2.context.fixed_port_speed
            ∧ (gpsd_serial_open E s a).2.saved_baud
              = (gpsd_serial_open E s a).2.context.fixed_port_speed)
          ∨ (gpsd_serial_open E s a).2.saved_baud ∈ seen := by
        rw [hc]
        rcases hs with hs | hs
        · rw [hs]; exact h
        · exact Or.inr (Or.inl hs)
      have := ih (gpsd_serial_open E s a).2 seen hinv
      rw [hc] at this
      exact this
    | set_speed speed parity stopbits now =>
      have hc := gpsd_set_speed_context E s speed parity stopbits now
      have hs := (gpsd_set_speed_keeps E s speed parity stopbits now).2
      have hinv : (gpsd_set_speed E s speed parity stopbits now).saved_baud = -1
          ∨ (0 < (gpsd_set_speed E s speed parity stopbits now).context.fixed_port_speed
            ∧ (gpsd_set_speed E s speed parity stopbits now).saved_baud
              = (gpsd_set_speed E s speed parity stopbits now).context.fixed_port_speed)
          ∨ (gpsd_set_speed E s speed parity stopbits now).saved_baud ∈ seen := by
        rw [hc, hs]; exact h
      have := ih (gpsd_set_speed E s speed parity stopbits now) seen hinv
      rw [hc] at this
      exact this
    | next_hunt_setting t1 t2 =>
      have hc := (hunt_frame E s t1 t2).1
      have hs := hunt_keeps_saved_baud E s t1 t2
      have hinv : (gpsd_next_hunt_setting E s t1 t2).2.saved_baud = -1
          ∨ (0 < (gpsd_next_hunt_setting E s t1 t2).2.context.fixed_port_speed
            ∧ (gpsd_next_hunt_setting E s t1 t2).2.saved_baud
              = (gpsd_next_hunt_setting E s t1 t2).2.context.fixed_port_speed)
          ∨ (gpsd_next_hunt_setting E s t1 t2).2.saved_baud ∈ seen := by
        rw [hc, hs]; exact h
      have := ih (gpsd_next_hunt_setting E s t1 t2).2 seen hinv
      rw [hc] at this
      exact this
    | assert_sync =>
      obtain ⟨hc, hs⟩ := gpsd_assert_sync_spec s
      have hinv : (gpsd_assert_sync s).saved_baud = -1
          ∨ (0 < (gpsd_assert_sync s).context.fixed_port_speed
            ∧ (gpsd_assert_sync s).saved_baud = (gpsd_assert_sync s).context.fixed_port_speed)
          ∨ (gpsd_assert_sync s).saved_baud
              ∈ seen ++ [((cfgetispeed s.ttyset).code : Int)] := by
        rw [hc]
        rcases hs with ⟨_, hs⟩ | ⟨hne, hs⟩
        · right; right
          rw [hs]
          exact List.mem_append_right _ (List.mem_singleton.mpr rfl)
        · rw [hs]
          rcases h with h | h | h
          · exact absurd h hne
          · exact Or.inr (Or.inl h)
          · exact Or.inr (Or.inr (List.mem_append_left _ h))
      have := ih (gpsd_assert_sync s) (seen ++ [((cfgetispeed s.ttyset).code : Int)]) hinv
      rw [hc, List.append_assoc] at this
      exact this
    | close attr =>
      obtain ⟨hc, hs⟩ := gpsd_close_keeps E s attr
      have hinv : (gpsd_close E s attr).saved_baud = -1
          ∨ (0 < (gpsd_close E s attr).context.fixed_port_speed
            ∧ (gpsd_close E s attr).saved_baud = (gpsd_close E s attr).context.fixed_port_speed)
          ∨ (gpsd_close E s attr).saved_baud ∈ seen := by
        rw [hc, hs]; exact h
      have := ih (gpsd_close E s attr) seen hinv
      rw [hc] at this
      exact this

/-- C15 (amended).  `saved_baud` records a lock or the fixed speed.  In every session
state reached from `gpsd_tty_init` through any sequence of `gpsd_serial_open`,
`gpsd_set_speed`, `gpsd_next_hunt_setting`, `gpsd_assert_sync` and `gpsd_close`:
`saved_baud` is -1, or the context has a fixed port speed and `saved_baud` is that
speed (written by `gpsd_serial_open`), or `gpsd_assert_sync` was called earlier and
`saved_baud` is the input speed code the line had at that call. -/
theorem saved_baud_lock_or_fixed (E : Env) (s0 : gps_device_t) (cs : List serial_call) :
    (serial_run E (gpsd_tty_init s0) cs).saved_baud = -1
    ∨ (0 < s0.context.fixed_port_speed
      ∧ (serial_run E (gpsd_tty_init s0) cs).saved_baud = s0.context.fixed_port_speed)
    ∨ (serial_run E (gpsd_tty_init s0) cs).saved_baud
        ∈ synced_speeds E (gpsd_tty_init s0) cs := by
  have h := (serial_run_saved_baud E cs (gpsd_tty_init s0) [] (Or.inl rfl)).2
  rw [List.nil_append] at h
  exact h

theorem pds_free_slot_full (reg : Nat → Option String)
    (h : ∀ i, i < QMI_PDS_MAX → (reg i).isSome = true) : pds_free_slot reg = QMI_PDS_MAX := by
  unfold pds_free_slot
  have hn : (List.range QMI_PDS_MAX).find? (fun i => (reg i).isNone) = none := by
    rw [List.find?_eq_none]
    intro i hi
    have hlt := List.mem_range.mp hi
    have := h i hlt
    cases hr : reg i with
    | none => rw [hr] at this; exact absurd this (by decide)
    | some p => simp
  rw [hn]
  rfl

theorem pds_path_registered_of_slot (reg : Nat → Option String) (path : String) (i : Nat)
    (hi : i < QMI_PDS_MAX) (h : reg i = some path) : pds_path_registered reg path = true := by
  unfold pds_path_registered
  rw [List.any_eq_true]
  exact ⟨i, List.mem_range.mpr hi, by rw [h]; simp⟩

/-- C16.  QRTR open refuses duplicates and overflow: when some slot of the 16-slot
registry holds a session with the path of the session being opened, or when all 16
slots are occupied, `qmi_pds_open` returns -1 and leaves the registry, the log of
socket calls (so no socket is created) and the session as they were. -/
theorem qmi_pds_open_refuses (E : Env) (w : pds_world) (session : pds_device_t)
    (a : pds_open_answers)
    (h : (∃ i, i < QMI_PDS_MAX ∧ w.pds_devices i = some session.gpsdata.dev.path)
      ∨ (∀ i, i < QMI_PDS_MAX → (w.pds_devices i).isSome = true)) :
    (qmi_pds_open E w session a).1 = -1
    ∧ (qmi_pds_open E w session a).2.1.pds_devices = w.pds_devices
    ∧ (qmi_pds_open E w session a).2.1.calls = w.calls
    ∧ pds_call.socket ∉ (qmi_pds_open E w session a).2.1.calls.drop w.calls.length
    ∧ (qmi_pds_open E w session a).2.2 = session := by
  have key : (qmi_pds_open E w session a) = (-1, w, session) := by
    unfold qmi_pds_open
    by_cases hl : (c_string session.gpsdata.dev.path).length < QMI_PDS_PATH_STARTS
    · rw [if_pos hl]
    · rw [if_neg hl]
      rcases h with ⟨i, hi, hs⟩ | hfull
      · rw [if_pos (pds_path_registered_of_slot _ _ i hi hs)]
      · by_cases hr : pds_path_registered w.pds_devices session.gpsdata.dev.path = true
        · rw [if_pos hr]
        · rw [if_neg hr]
          simp only [pds_free_slot_full _ hfull, if_true]
  rw [key]
  simp

/-- C16 (witness): slot 3 of the registry holds the path being opened. -/
theorem qmi_pds_open_refuses_witness :
    ((∃ i, i < QMI_PDS_MAX
        ∧ registered_pds_world.pds_devices i = some (new_pds_session "pds://any").gpsdata.dev.path)
      ∨ (∀ i, i < QMI_PDS_MAX → (registered_pds_world.pds_devices i).isSome = true))
    ∧ (qmi_pds_open (spec_env 9216) registered_pds_world (new_pds_session "pds://any")
        ⟨7, 0, 42, 12, 20⟩).1 = -1
    ∧ (qmi_pds_open (spec_env 9216) registered_pds_world (new_pds_session "pds://any")
        ⟨7, 0, 42, 12, 20⟩).2.1.pds_devices = registered_pds_world.pds_devices
    ∧ (qmi_pds_open (spec_env 9216) registered_pds_world (new_pds_session "pds://any")
        ⟨7, 0, 42, 12, 20⟩).2.1.calls = registered_pds_world.calls
    ∧ pds_call.socket ∉ (qmi_pds_open (spec_env 9216) registered_pds_world
        (new_pds_session "pds://any") ⟨7, 0, 42, 12, 20⟩).2.1.calls.drop
          registered_pds_world.calls.length
    ∧ (qmi_pds_open (spec_env 9216) registered_pds_world (new_pds_session "pds://any")
        ⟨7, 0, 42, 12, 20⟩).2.2 = new_pds_session "pds://any" :=
  ⟨Or.inl ⟨3, by decide, rfl⟩,
    qmi_pds_open_refuses (spec_env 9216) registered_pds_world (new_pds_session "pds://any")
      ⟨7, 0, 42, 12, 20⟩ (Or.inl ⟨3, by decide, rfl⟩)⟩

/-- C17 (counterexample).  With the path "qrtr:any" the discovery step reads the host
name "ny" (the path from its seventh byte on), stores host id 0, refuses the path
as an invalid node id (returns -1 before any `recvfrom`); with "qrtr:17" it stores host
id 7. -/
theorem qrtr_any_is_refused :
    pds_hostid "qrtr:any" = (0, true)
    ∧ (qmi_pds_connect new_pds_world (new_pds_session "qrtr:any") (new_server_answers 1 17)).1
        = -1
    ∧ (qmi_pds_connect new_pds_world (new_pds_session "qrtr:any")
        (new_server_answers 1 17)).2.2.driver_pds.hostid = 0
    ∧ (qmi_pds_connect new_pds_world (new_pds_session "qrtr:any")
        (new_server_answers 1 17)).2.1.calls = []
    ∧ pds_hostid "qrtr:17" = (7, false) := by
  decide

theorem pds_hostid_skips_bytes :
    c_string (String.mk (List.replicate 5 (Char.ofNat 233)) ++ ":any")
      = [195, 169, 195, 169, 195, 169, 195, 169, 195, 169, 58, 97, 110, 121]
    ∧ pds_hostid (String.mk (List.replicate 5 (Char.ofNat 233)) ++ ":any") = (0, true)
    ∧ (qmi_pds_open (spec_env 9216) new_pds_world
        (new_pds_session (String.mk (List.replicate 3 (Char.ofNat 233)))) good_open_answers).1
        = 7 := by
  decide

theorem digit_byte_facts (d : Nat) (h : d < 10) :
    (48 ≤ 48 + d ∧ 48 + d ≤ 57) ∧ 48 + d - 48 = d
    ∧ isspace (48 + d) = false
    ∧ ((48 + d : Nat) == 45) = false ∧ ((48 + d : Nat) == 43) = false
    ∧ 48 + d ≠ 97 ∧ 48 + d ≠ 0 := by
  interval_cases d <;> decide

theorem strtol_digits_map (ds : List Nat) (hd : ∀ d ∈ ds, d < 10) :
    ∀ acc n, strtol_digits (ds.map (fun d => 48 + d)) acc n
      = (Nat.ofDigits 10 ds.reverse + acc * 10 ^ ds.length, n + ds.length) := by
  induction ds with
  | nil => intro acc n; simp [strtol_digits]
  | cons d ds ih =>
    intro acc n
    have hf := digit_byte_facts d (hd d (List.mem_cons_self _ _))
    have ih2 := ih (fun x hx => hd x (List.mem_cons_of_mem _ hx)) (10 * acc + d) (n + 1)
    rw [List.map_cons, strtol_digits, if_pos hf.1, hf.2.1, ih2, List.reverse_cons,
      Nat.ofDigits_append, Nat.ofDigits_singleton, List.length_reverse, List.length_cons]
    refine Prod.ext ?_ ?_
    · simp only
      ring
    · simp only
      omega

theorem int_cast_small (v : Nat) (h : v < 2 ^ 31) : int_cast (v : Int) = (v : Int) := by
  unfold int_cast
  have h2 : (v : Int) < 2 ^ 31 := by exact_mod_cast h
  have h0 : (0 : Int) ≤ (v : Int) := Int.natCast_nonneg v
  norm_num at h2 ⊢
  omega

theorem strtol_decimal (ds : List Nat) (hds : ds ≠ []) (hd : ∀ d ∈ ds, d < 10)
    (hv : Nat.ofDigits 10 ds.reverse < 2 ^ 31) :
    (strtol (ds.map (fun d => 48 + d))).1 = ((Nat.ofDigits 10 ds.reverse : Nat) : Int)
    ∧ (strtol (ds.map (fun d => 48 + d))).2 ≠ 0 := by
  cases ds with
  | nil => exact absurd rfl hds
  | cons d ds =>
    have hf := digit_byte_facts d (hd d (List.mem_cons_self _ _))
    have hdig := strtol_digits_map (d :: ds) hd 0 0
    have hdw : List.dropWhile isspace (List.map (fun d => 48 + d) (d :: ds))
        = List.map (fun d => 48 + d) (d :: ds) := by
      rw [List.map_cons, List.dropWhile_cons, hf.2.2.1]
      rfl
    unfold strtol
    simp only [hdw]
    have hh : (List.map (fun d => 48 + d) (d :: ds)).head? = some (48 + d) := rfl
    have e45 : (some (48 + d) == some 45) = false := by
      have := hf.2.2.2.1
      simpa using this
    have e43 : (some (48 + d) == some 43) = false := by
      have := hf.2.2.2.2.1
      simpa using this
    simp only [hh, e45, e43, Bool.false_or, Bool.false_eq_true, if_false, hdig, zero_mul,
      add_zero, zero_add, List.length_cons]
    have hne : ds.length + 1 ≠ 0 := by omega
    rw [if_neg hne]
    constructor
    · simp only
      have h1 : ((Nat.ofDigits 10 (d :: ds).reverse : Nat) : Int) < 2 ^ 31 := by exact_mod_cast hv
      have h0 : (0 : Int) ≤ ((Nat.ofDigits 10 (d :: ds).reverse : Nat) : Int) := Int.natCast_nonneg _
      unfold LONG_MAX LONG_MIN
      norm_num at h1 ⊢
      omega
    · simp only
      omega

theorem pds_hostid_any (path : String) (start : List Nat) (hstart : start.length = 6)
    (hpath : c_string path = start ++ c_string "any") :
    pds_hostid path = (-1, false) := by
  unfold pds_hostid QMI_PDS_PATH_STARTS
  have e : (c_string path).drop 6 = c_string "any" := by
    rw [hpath, ← hstart]
    exact List.drop_left _ _
  rw [e, if_pos rfl]

theorem pds_hostid_decimal (path : String) (start ds : List Nat) (hstart : start.length = 6)
    (hpath : c_string path = start ++ ds.map (fun d => 48 + d))
    (hds : ds ≠ []) (hd : ∀ d ∈ ds, d < 10) (hv : Nat.ofDigits 10 ds.reverse < 2 ^ 31) :
    pds_hostid path = (((Nat.ofDigits 10 ds.reverse : Nat) : Int), false) := by
  unfold pds_hostid QMI_PDS_PATH_STARTS
  have e : (c_string path).drop 6 = ds.map (fun d => 48 + d) := by
    rw [hpath, ← hstart]
    exact List.drop_left _ _
  obtain ⟨h1, h2⟩ := strtol_decimal ds hds hd hv
  have hany : c_string "any" = [97, 110, 121] := by decide
  have hne : ds.map (fun d => 48 + d) ≠ c_string "any" := by
    rw [hany]
    cases ds with
    | nil => exact absurd rfl hds
    | cons d ds =>
      have hf := digit_byte_facts d (hd d (List.mem_cons_self _ _))
      intro hc
      have : 48 + d = 97 := by
        have := congrArg List.head? hc
        simpa using this
      exact hf.2.2.2.2.2.1 this
  rw [e, if_neg hne]
  simp only [h1, int_cast_small _ hv, h2, decide_False]

theorem qmi_pds_event_hook_calls (w : pds_world) (s : pds_device_t) (e : event_t) (r : Int) :
    ∃ l, (qmi_pds_event_hook w s e r).calls = w.calls ++ l
      ∧ ∀ c ∈ l, ∃ buf, c = pds_call.send s.gpsdata.gps_fd buf := by
  unfold qmi_pds_event_hook
  cases e with
  | event_wakeup => exact ⟨[], by simp, by simp⟩
  | event_deactivate =>
    simp only []
    split_ifs
    · exact ⟨[], by simp, by simp⟩
    · exact ⟨[_], rfl, by simp⟩
  | event_reactivate =>
    simp only []
    split_ifs
    · exact ⟨[], by simp, by simp⟩
    · exact ⟨[_], rfl, by simp⟩
    · refine ⟨_, List.append_assoc _ _ _, ?_⟩
      intro c hc
      simp only [List.singleton_append, List.mem_cons, List.mem_singleton, List.not_mem_nil,
        or_false] at hc
      rcases hc with hc | hc
      · exact ⟨_, hc⟩
      · exact ⟨_, hc⟩

theorem qmi_pds_connect_hostid (w : pds_world) (s : pds_device_t) (a : pds_connect_answers) :
    (qmi_pds_connect w s a).2.2.driver_pds.hostid = (pds_hostid s.gpsdata.dev.path).1
    ∧ ((pds_hostid s.gpsdata.dev.path).2 = false →
        pds_call.recvfrom s.gpsdata.gps_fd ∈ (qmi_pds_connect w s a).2.1.calls) := by
  obtain ⟨l, hl, _⟩ := qmi_pds_event_hook_calls
    { w with calls := w.calls ++ [pds_call.recvfrom s.gpsdata.gps_fd]
        ++ [pds_call.connect s.gpsdata.gps_fd a.node a.port]
        ++ [pds_call.event_hook event_reactivate] }
    { s with
      lexer := { s.lexer with outbuflen := 0 }
      driver_pds := { s.driver_pds with hostid := (pds_hostid s.gpsdata.dev.path).1,
                                        pds_node := a.node, pds_port := a.port, ready := true } }
    event_reactivate a.send1
  unfold qmi_pds_connect
  simp only []
  split_ifs with h1 <;> refine ⟨rfl, ?_⟩ <;> intro hv
  · rw [hv] at h1
    exact absurd h1 (by decide)
  all_goals first
    | (simp; done)
    | (simp only [] at hl ⊢
       rw [hl]
       simp)

/-- C17 (amended).  QRTR path grammar, with a start of exactly 6 bytes: for every path
whose bytes are 6 bytes followed by "any" the discovery step sets the host id to -1,
and for every path whose bytes are 6 bytes followed by a decimal numeral (digits `ds`,
as the bytes 48 + d; value below 2^31) it sets the host id to the value of the
numeral; neither path is refused as an invalid node id (the step goes on to
`recvfrom`). -/
theorem qmi_pds_connect_path_grammar (w : pds_world) (s : pds_device_t)
    (a : pds_connect_answers) (path_any path_node : String) (start_any start_node : List Nat)
    (ds : List Nat)
    (hlen_any : start_any.length = 6)
    (hany : c_string path_any = start_any ++ c_string "any")
    (hlen_node : start_node.length = 6)
    (hnode : c_string path_node = start_node ++ ds.map (fun d => 48 + d))
    (hds : ds ≠ []) (hd : ∀ d ∈ ds, d < 10)
    (hv : Nat.ofDigits 10 ds.reverse < 2 ^ 31) :
    (qmi_pds_connect w (pds_with_path s path_any) a).2.2.driver_pds.hostid = -1
    ∧ pds_call.recvfrom s.gpsdata.gps_fd
        ∈ (qmi_pds_connect w (pds_with_path s path_any) a).2.1.calls
    ∧ (qmi_pds_connect w (pds_with_path s path_node) a).2.2.driver_pds.hostid
        = ((Nat.ofDigits 10 ds.reverse : Nat) : Int)
    ∧ pds_call.recvfrom s.gpsdata.gps_fd
        ∈ (qmi_pds_connect w (pds_with_path s path_node) a).2.1.calls := by
  have ha := qmi_pds_connect_hostid w (pds_with_path s path_any) a
  have hn := qmi_pds_connect_hostid w (pds_with_path s path_node) a
  have pa : (pds_with_path s path_any).gpsdata.dev.path = path_any := rfl
  have pn : (pds_with_path s path_node).gpsdata.dev.path = path_node := rfl
  have fa : (pds_with_path s path_any).gpsdata.gps_fd = s.gpsdata.gps_fd := rfl
  have fn : (pds_with_path s path_node).gpsdata.gps_fd = s.gpsdata.gps_fd := rfl
  rw [pa, fa, pds_hostid_any path_any start_any hlen_any hany] at ha
  rw [pn, fn, pds_hostid_decimal path_node start_node ds hlen_node hnode hds hd hv] at hn
  exact ⟨ha.1, ha.2 rfl, hn.1, hn.2 rfl⟩

/-- C17 (witness): the paths "pds://any" and "pds://17". -/
theorem qmi_pds_connect_path_grammar_witness :
    (c_string "pds://").length = 6
    ∧ c_string "pds://any" = c_string "pds://" ++ c_string "any"
    ∧ (c_string "pds://").length = 6
    ∧ c_string "pds://17" = c_string "pds://" ++ [1, 7].map (fun d => 48 + d)
    ∧ [1, 7] ≠ ([] : List Nat) ∧ (∀ d ∈ [1, 7], d < 10)
    ∧ Nat.ofDigits 10 [1, 7].reverse < 2 ^ 31
    ∧ (qmi_pds_connect new_pds_world (pds_with_path (new_pds_session "") "pds://any")
        (new_server_answers 1 17)).2.2.driver_pds.hostid = -1
    ∧ pds_call.recvfrom (new_pds_session "").gpsdata.gps_fd
        ∈ (qmi_pds_connect new_pds_world (pds_with_path (new_pds_session "") "pds://any")
            (new_server_answers 1 17)).2.1.calls
    ∧ (qmi_pds_connect new_pds_world (pds_with_path (new_pds_session "") "pds://17")
        (new_server_answers 1 17)).2.2.driver_pds.hostid
          = ((Nat.ofDigits 10 [1, 7].reverse : Nat) : Int)
    ∧ pds_call.recvfrom (new_pds_session "").gpsdata.gps_fd
        ∈ (qmi_pds_connect new_pds_world (pds_with_path (new_pds_session "") "pds://17")
            (new_server_answers 1 17)).2.1.calls :=
  ⟨by decide, by decide, by decide, by decide, by decide, by decide, by decide,
    qmi_pds_connect_path_grammar new_pds_world (new_pds_session "") (new_server_answers 1 17)
      "pds://any" "pds://17" (c_string "pds://") (c_string "pds://") [1, 7]
      (by decide) (by decide) (by decide) (by decide) (by decide) (by decide) (by decide)⟩

/-- C18 (counterexample).  A session that is not ready, with the valid host id 5 (path
"pds://5"), receives from the control port the `NEW_SERVER` packet whose server fields
are all zero: the host id is not -1 and differs from the node of the packet (0), and
`qmi_pds_connect` returns -1, not 1. -/
theorem end_of_lookup_before_host_filter :
    (new_pds_session "pds://5").driver_pds.ready = false
    ∧ pds_hostid (new_pds_session "pds://5").gpsdata.dev.path = (5, false)
    ∧ end_of_lookup_answers.sq_port = QRTR_PORT_CTRL
    ∧ end_of_lookup_answers.cmd = QRTR_TYPE_NEW_SERVER
    ∧ (5 : Int) ≠ -1 ∧ (5 : Int) ≠ int_cast end_of_lookup_answers.node
    ∧ (qmi_pds_connect new_pds_world (new_pds_session "pds://5") end_of_lookup_answers).1 = -1
    ∧ (qmi_pds_connect new_pds_world (new_pds_session "pds://5") end_of_lookup_answers).1
        ≠ 1 := by
  decide

theorem count_sends (fd : Int) (e : event_t) (l : List pds_call)
    (h : ∀ c ∈ l, ∃ buf, c = pds_call.send fd buf) : l.count (pds_call.event_hook e) = 0 := by
  rw [List.count_eq_zero]
  intro hm
  obtain ⟨buf, hb⟩ := h _ hm
  exact pds_call.noConfusion hb

/-- C18 (amended).  One discovery step is a decision table read in order.  For a session
with a valid host id and a control datagram that `recvfrom` delivers, `qmi_pds_connect`
(1) returns 1 with `ready`, `pds_node`, `pds_port` unchanged when the datagram is not
from `QRTR_PORT_CTRL`; else (2) returns 1 with them unchanged when `cmd` is not
`NEW_SERVER`; else (3) returns -1 with them unchanged when service, instance, node and
port are all zero; else (4) returns 1 with them unchanged when the host id is not -1 and
differs from the node of the packet; else (5), `connect` succeeding, records node and
port of the packet, sets `ready`, fires the REACTIVATE hook once and returns 1. -/
theorem qmi_pds_connect_decision_table (w : pds_world) (s : pds_device_t)
    (a : pds_connect_answers)
    (hvalid : (pds_hostid s.gpsdata.dev.path).2 = false) (hrecv : 0 ≤ a.recvfrom_ret) :
    (¬ from_ctrl_port a →
      (qmi_pds_connect w s a).1 = 1 ∧ pds_unchanged s (qmi_pds_connect w s a).2.2)
    ∧ (from_ctrl_port a → a.cmd ≠ QRTR_TYPE_NEW_SERVER →
      (qmi_pds_connect w s a).1 = 1 ∧ pds_unchanged s (qmi_pds_connect w s a).2.2)
    ∧ (from_ctrl_port a → a.cmd = QRTR_TYPE_NEW_SERVER → end_of_lookup a →
      (qmi_pds_connect w s a).1 = -1 ∧ pds_unchanged s (qmi_pds_connect w s a).2.2)
    ∧ (from_ctrl_port a → a.cmd = QRTR_TYPE_NEW_SERVER → ¬ end_of_lookup a →
      ((pds_hostid s.gpsdata.dev.path).1 ≠ -1
        ∧ (pds_hostid s.gpsdata.dev.path).1 ≠ int_cast a.node) →
      (qmi_pds_connect w s a).1 = 1 ∧ pds_unchanged s (qmi_pds_connect w s a).2.2)
    ∧ (from_ctrl_port a → a.cmd = QRTR_TYPE_NEW_SERVER → ¬ end_of_lookup a →
      ((pds_hostid s.gpsdata.dev.path).1 = -1
        ∨ (pds_hostid s.gpsdata.dev.path).1 = int_cast a.node) →
      0 ≤ a.connect_ret →
      (qmi_pds_connect w s a).1 = 1
      ∧ (qmi_pds_connect w s a).2.2.driver_pds.pds_node = a.node
      ∧ (qmi_pds_connect w s a).2.2.driver_pds.pds_port = a.port
      ∧ (qmi_pds_connect w s a).2.2.driver_pds.ready = true
      ∧ (qmi_pds_connect w s a).2.1.calls.count (pds_call.event_hook event_reactivate)
          = w.calls.count (pds_call.event_hook event_reactivate) + 1) := by
  have hr : ¬ a.recvfrom_ret < 0 := not_lt.mpr hrecv
  unfold from_ctrl_port end_of_lookup pds_unchanged
  refine ⟨?_, ?_, ?_, ?_, ?_⟩
  · intro h1
    have h1' : a.sl ≠ sizeof_sockaddr_qrtr ∨ a.sq_port ≠ QRTR_PORT_CTRL := by
      by_cases hs : a.sl = sizeof_sockaddr_qrtr
      · exact Or.inr (fun hp => h1 ⟨hs, hp⟩)
      · exact Or.inl hs
    unfold qmi_pds_connect
    simp only [hvalid, Bool.false_eq_true, if_false, hr, if_pos h1']
    refine ⟨?_, ?_, ?_, ?_⟩ <;> first | rfl | trivial
  · intro h1 h2
    have h1' : ¬ (a.sl ≠ sizeof_sockaddr_qrtr ∨ a.sq_port ≠ QRTR_PORT_CTRL) := by
      intro h; rcases h with h | h
      · exact h h1.1
      · exact h h1.2
    unfold qmi_pds_connect
    simp only [hvalid, Bool.false_eq_true, if_false, hr, if_neg h1', if_pos h2]
    refine ⟨?_, ?_, ?_, ?_⟩ <;> first | rfl | trivial
  · intro h1 h2 h3
    have h1' : ¬ (a.sl ≠ sizeof_sockaddr_qrtr ∨ a.sq_port ≠ QRTR_PORT_CTRL) := by
      intro h; rcases h with h | h
      · exact h h1.1
      · exact h h1.2
    have h2' : ¬ a.cmd ≠ QRTR_TYPE_NEW_SERVER := fun h => h h2
    unfold qmi_pds_connect
    simp only [hvalid, Bool.false_eq_true, if_false, hr, if_neg h1', if_neg h2', if_pos h3]
    refine ⟨?_, ?_, ?_, ?_⟩ <;> first | rfl | trivial
  · intro h1 h2 h3 h4
    have h1' : ¬ (a.sl ≠ sizeof_sockaddr_qrtr ∨ a.sq_port ≠ QRTR_PORT_CTRL) := by
      intro h; rcases h with h | h
      · exact h h1.1
      · exact h h1.2
    have h2' : ¬ a.cmd ≠ QRTR_TYPE_NEW_SERVER := fun h => h h2
    unfold qmi_pds_connect
    simp only [hvalid, Bool.false_eq_true, if_false, hr, if_neg h1', if_neg h2', if_neg h3,
      if_pos h4]
    refine ⟨?_, ?_, ?_, ?_⟩ <;> first | rfl | trivial
  · intro h1 h2 h3 h4 h5
    have h1' : ¬ (a.sl ≠ sizeof_sockaddr_qrtr ∨ a.sq_port ≠ QRTR_PORT_CTRL) := by
      intro h; rcases h with h | h
      · exact h h1.1
      · exact h h1.2
    have h2' : ¬ a.cmd ≠ QRTR_TYPE_NEW_SERVER := fun h => h h2
    have h4' : ¬ ((pds_hostid s.gpsdata.dev.path).1 ≠ -1
        ∧ (pds_hostid s.gpsdata.dev.path).1 ≠ int_cast a.node) := by
      intro h; rcases h4 with h4 | h4
      · exact h.1 h4
      · exact h.2 h4
    have h5' : ¬ a.connect_ret < 0 := not_lt.mpr h5
    obtain ⟨l, hl, hsend⟩ := qmi_pds_event_hook_calls
      { w with calls := w.calls ++ [pds_call.recvfrom s.gpsdata.gps_fd]
          ++ [pds_call.connect s.gpsdata.gps_fd a.node a.port]
          ++ [pds_call.event_hook event_reactivate] }
      { s with
        lexer := { s.lexer with outbuflen := 0 }
        driver_pds := { s.driver_pds with hostid := (pds_hostid s.gpsdata.dev.path).1,
                                          pds_node := a.node, pds_port := a.port,
                                          ready := true } }
      event_reactivate a.send1
    have hc := count_sends _ event_reactivate l hsend
    unfold qmi_pds_connect
    simp only [hvalid, Bool.false_eq_true, if_false, hr, if_neg h1', if_neg h2', if_neg h3,
      if_neg h4', if_neg h5']
    refine ⟨?_, ?_, ?_, ?_, ?_⟩
    iterate 4 first | rfl | trivial
    simp only [] at hl
    rw [hl]
    simp only [List.count_append, hc]
    simp

/-- C18 (witness): the lookup answer of scenario S5, `NEW_SERVER` for node 1 port 17,
received by a session with path "pds://any". -/
theorem qmi_pds_connect_decision_table_witness :
    (pds_hostid (new_pds_session "pds://any").gpsdata.dev.path).2 = false
    ∧ 0 ≤ (new_server_answers 1 17).recvfrom_ret
    ∧ (qmi_pds_connect new_pds_world (new_pds_session "pds://any")
        (new_server_answers 1 17)).1 = 1
    ∧ (qmi_pds_connect new_pds_world (new_pds_session "pds://any")
        (new_server_answers 1 17)).2.2.driver_pds.pds_node = 1
    ∧ (qmi_pds_connect new_pds_world (new_pds_session "pds://any")
        (new_server_answers 1 17)).2.2.driver_pds.pds_port = 17
    ∧ (qmi_pds_connect new_pds_world (new_pds_session "pds://any")
        (new_server_answers 1 17)).2.2.driver_pds.ready = true
    ∧ (qmi_pds_connect new_pds_world (new_pds_session "pds://any")
        (new_server_answers 1 17)).2.1.calls.count (pds_call.event_hook event_reactivate)
          = new_pds_world.calls.count (pds_call.event_hook event_reactivate) + 1 :=
  ⟨by decide, by decide,
    (qmi_pds_connect_decision_table new_pds_world (new_pds_session "pds://any")
      (new_server_answers 1 17) (by decide) (by decide)).2.2.2.2
      (by decide) (by decide) (by decide) (by decide) (by decide)⟩

/-- C19 (counterexample).  A ready session gets REACTIVATE and the `send` of the
REG_EVENTS request fails (-1): the hook sends one datagram, the REG_EVENTS frame, and
no START frame. -/
theorem reactivate_stops_after_failed_send :
    ready_pds_session.driver_pds.ready = true
    ∧ (qmi_pds_event_hook new_pds_world ready_pds_session event_reactivate (-1)).calls
        = [pds_call.send 5 [0, 0, 0, 0x21, 0, 11, 0, 1, 8, 0, 4, 0, 0, 0, 0, 0, 0, 0]]
    ∧ (qmi_pds_event_hook new_pds_world ready_pds_session event_reactivate (-1)).calls.length
        ≠ 2 := by
  decide

theorem qmi_pds_event_hook_lengths (w : pds_world) (s : pds_device_t) (send1 : Int)
    (e : event_t) (buf : List Nat)
    (h : pds_call.send s.gpsdata.gps_fd buf
      ∈ (qmi_pds_event_hook w s e send1).calls.drop w.calls.length) :
    buf.length = sizeof_qmi_header + sizeof_qmi_tlv + rd16 buf 8
    ∧ rd16 buf 5 = sizeof_qmi_tlv + rd16 buf 8 := by
  unfold qmi_pds_event_hook at h
  cases e with
  | event_wakeup => simp at h
  | event_deactivate =>
    simp only [] at h
    split_ifs at h
    · simp at h
    · simp only [List.drop_left, List.mem_singleton, pds_call.send.injEq, true_and] at h
      rw [h]
      exact ⟨rfl, rfl⟩
  | event_reactivate =>
    simp only [] at h
    split_ifs at h
    · simp at h
    · simp only [List.drop_left, List.mem_singleton, pds_call.send.injEq, true_and] at h
      rw [h]
      exact ⟨rfl, rfl⟩
    · simp only [List.append_assoc, List.drop_left, List.singleton_append, List.mem_cons,
        List.mem_singleton, pds_call.send.injEq, true_and, List.not_mem_nil, or_false] at h
      rcases h with h | h
      · rw [h]
        exact ⟨rfl, rfl⟩
      · rw [h]
        exact ⟨rfl, rfl⟩

/-- C19 (amended).  Outbound QMI frames are packed as specified.  With `t` the low 16
bits of the transaction counter and `u` those of the counter after one increment: when
the session is ready and the `send` of the first request does not fail, the REACTIVATE
hook sends exactly two datagrams in this order, an 18-byte REG_EVENTS frame (type 0,
txn `t`, msg 0x0021, len 11, TLV key 1, TLV len 8, value 8 bytes little-endian 0x04)
and an 11-byte START frame (type 0, txn `u`, msg 0x0022, len 4, TLV key 1, TLV len 1,
value 0x01); when that `send` fails it sends the REG_EVENTS frame only; DEACTIVATE
sends one 11-byte STOP frame (txn `t`, msg 0x0023, len 4, TLV key 1, TLV len 1, value
0x01); when the session is not ready the hook sends nothing; and every frame the hook
sends, read back with the field readers of the input side, is 7 + 3 + tlv.len bytes
long with header len 3 + tlv.len. -/
theorem qmi_pds_event_hook_frames (w : pds_world) (s : pds_device_t) (send1 : Int)
    (e : event_t) :
    (s.driver_pds.ready = true → 0 ≤ send1 →
      (qmi_pds_event_hook w s event_reactivate send1).calls
        = w.calls ++
          [pds_call.send s.gpsdata.gps_fd
             [0, uint16_cast w.txn_id % 256, uint16_cast w.txn_id / 256 % 256, 0x21, 0, 11, 0,
              1, 8, 0, 4, 0, 0, 0, 0, 0, 0, 0],
           pds_call.send s.gpsdata.gps_fd
             [0, uint16_cast (int_cast (w.txn_id + 1)) % 256,
              uint16_cast (int_cast (w.txn_id + 1)) / 256 % 256, 0x22, 0, 4, 0, 1, 1, 0, 1]])
    ∧ (s.driver_pds.ready = true → send1 < 0 →
      (qmi_pds_event_hook w s event_reactivate send1).calls
        = w.calls ++
          [pds_call.send s.gpsdata.gps_fd
             [0, uint16_cast w.txn_id % 256, uint16_cast w.txn_id / 256 % 256, 0x21, 0, 11, 0,
              1, 8, 0, 4, 0, 0, 0, 0, 0, 0, 0]])
    ∧ (s.driver_pds.ready = true →
      (qmi_pds_event_hook w s event_deactivate send1).calls
        = w.calls ++
          [pds_call.send s.gpsdata.gps_fd
             [0, uint16_cast w.txn_id % 256, uint16_cast w.txn_id / 256 % 256, 0x23, 0, 4, 0,
              1, 1, 0, 1]])
    ∧ (s.driver_pds.ready = false → (qmi_pds_event_hook w s e send1).calls = w.calls)
    ∧ (∀ buf, pds_call.send s.gpsdata.gps_fd buf
          ∈ (qmi_pds_event_hook w s e send1).calls.drop w.calls.length →
        buf.length = 7 + 3 + rd16 buf 8 ∧ rd16 buf 5 = 3 + rd16 buf 8) := by
  refine ⟨?_, ?_, ?_, ?_, fun buf h => qmi_pds_event_hook_lengths w s send1 e buf h⟩
  · intro hr h1
    have h1' : ¬ send1 < 0 := not_lt.mpr h1
    unfold qmi_pds_event_hook
    simp only [hr, Bool.not_true, Bool.false_eq_true, if_false, h1']
    rw [List.append_assoc]
    rfl
  · intro hr h1
    unfold qmi_pds_event_hook
    simp only [hr, Bool.not_true, Bool.false_eq_true, if_false, h1, if_true]
    rfl
  · intro hr
    unfold qmi_pds_event_hook
    simp only [hr, Bool.not_true, Bool.false_eq_true, if_false]
    rfl
  · intro hr
    unfold qmi_pds_event_hook
    cases e <;> simp only [hr, Bool.not_false, if_true]

/-- C19 (witness): a ready session on descriptor 5, transaction counter 0, both `send`
succeeding. -/
theorem qmi_pds_event_hook_frames_witness :
    ready_pds_session.driver_pds.ready = true ∧ (0 : Int) ≤ 18
    ∧ (qmi_pds_event_hook new_pds_world ready_pds_session event_reactivate 18).calls
        = [pds_call.send 5 [0, 0, 0, 0x21, 0, 11, 0, 1, 8, 0, 4, 0, 0, 0, 0, 0, 0, 0],
           pds_call.send 5 [0, 1, 0, 0x22, 0, 4, 0, 1, 1, 0, 1]] :=
  ⟨by decide, by decide,
    (qmi_pds_event_hook_frames new_pds_world ready_pds_session 18 event_reactivate).1
      (by decide) (by decide)⟩

theorem rd8_memcpy (dst src : List Nat) (n i : Nat) (hn : src.length = n) (hi : i < n) :
    rd8 (memcpy dst src n) i = rd8 src i := by
  unfold rd8 memcpy
  have h1 : src.take n = src := List.take_of_length_le (le_of_eq hn)
  rw [h1, List.getD_append _ _ _ _ (by omega)]

theorem rd16_memcpy (dst src : List Nat) (n i : Nat) (hn : src.length = n) (hi : i + 1 < n) :
    rd16 (memcpy dst src n) i = rd16 src i := by
  unfold rd16
  rw [rd8_memcpy dst src n i hn (by omega), rd8_memcpy dst src n (i + 1) hn hi]

theorem set_append_at_length (l : List Nat) (x : Nat) (xs : List Nat) (v : Nat) :
    (l ++ x :: xs).set l.length v = l ++ v :: xs := by
  induction l with
  | nil => rfl
  | cons y ys ih => simp [ih]

/-- C20.  NMEA extraction from a single-TLV indication: for every received datagram of
length `n` whose header has type 4 (INDICATION) and msg 0x26 and whose first TLV, at
offset 7, has key 1 and length `L` with 7 + 3 + `L` ≤ `n`, `qmi_pds_get_packet` returns
`n` (for every loop bound of at least one step), the output buffer starts with the `L`
value bytes followed by a NUL at index `L`, the output length is `L`, and the lexer
type is `NMEA_PACKET`.  The input and output buffers have the same size, and `recvfrom`
delivers at most that many bytes. -/
theorem qmi_pds_get_packet_nmea (w : pds_world) (s : pds_device_t) (a : pds_recv_answers)
    (fuel n L : Nat)
    (hret : a.ret = (n : Int)) (hlen : a.data.length = n)
    (htype : rd8 a.data 0 = QMI_INDICATION) (hmsg : rd16 a.data 3 = QMI_LOC_EVENT_NMEA)
    (hkey : rd8 a.data 7 = QMI_TLV_NMEA) (hL : rd16 a.data 8 = L)
    (hfit : 7 + 3 + L ≤ n)
    (hsize : s.lexer.outbuffer.length = s.lexer.inbuffer.length)
    (hmax : n ≤ s.lexer.inbuffer.length) :
    ∃ w2 s2, qmi_pds_get_packet w s a (fuel + 1) = some ((n : Int), w2, s2)
      ∧ s2.lexer.outbuffer.take (L + 1) = (a.data.drop 10).take L ++ [0]
      ∧ s2.lexer.outbuflen = L
      ∧ s2.lexer.type = NMEA_PACKET := by
  have hroom : L < s.lexer.outbuffer.length := by omega
  have hr0 : ¬ a.ret < 0 := by rw [hret]; exact not_lt.mpr (Int.natCast_nonneg n)
  have hn : a.ret.toNat = n := by rw [hret]; exact Int.toNat_natCast n
  have e0 : rd8 (memcpy s.lexer.inbuffer a.data n) 0 = QMI_INDICATION := by
    rw [rd8_memcpy _ _ _ _ hlen (by omega)]; exact htype
  have e3 : rd16 (memcpy s.lexer.inbuffer a.data n) 3 = QMI_LOC_EVENT_NMEA := by
    rw [rd16_memcpy _ _ _ _ hlen (by omega)]; exact hmsg
  have e7 : rd8 (memcpy s.lexer.inbuffer a.data n) 7 = QMI_TLV_NMEA := by
    rw [rd8_memcpy _ _ _ _ hlen (by omega)]; exact hkey
  have e8 : rd16 (memcpy s.lexer.inbuffer a.data n) (7 + 1) = L := by
    rw [rd16_memcpy _ _ _ _ hlen (by omega)]; exact hL
  have hhdr : ¬ (rd8 (memcpy s.lexer.inbuffer a.data n) 0 ≠ QMI_INDICATION
      ∨ rd16 (memcpy s.lexer.inbuffer a.data n) 3 ≠ QMI_LOC_EVENT_NMEA) := by
    rw [e0, e3]; simp
  have hlt : 7 < n := by omega
  have hfit2 : ¬ (7 + 3 + L > n) := by omega
  unfold qmi_pds_get_packet
  simp only [hr0, false_and, if_false, hn, hhdr, sizeof_qmi_header, pds_tlv_walk, hlt, if_true,
    e8, sizeof_qmi_tlv, hfit2, e7]
  rw [hret]
  refine ⟨_, _, rfl, ?_, rfl, rfl⟩
  simp only []
  have hd : (memcpy s.lexer.inbuffer a.data n).drop 10 = a.data.drop 10 ++ s.lexer.inbuffer.drop n := by
    unfold memcpy
    rw [List.take_of_length_le (le_of_eq hlen), List.drop_append_of_le_length (by omega)]
  rw [hd]
  have hlen10 : L ≤ (a.data.drop 10).length := by rw [List.length_drop]; omega
  have hm : memcpy s.lexer.outbuffer (a.data.drop 10 ++ s.lexer.inbuffer.drop n) L
      = (a.data.drop 10).take L ++ s.lexer.outbuffer.drop L := by
    unfold memcpy
    rw [List.take_append_of_le_length hlen10]
  rw [hm]
  have hlt2 : ((a.data.drop 10).take L).length = L := by
    rw [List.length_take]; omega
  obtain ⟨x, xs, hx⟩ : ∃ x xs, s.lexer.outbuffer.drop L = x :: xs := by
    cases hc : s.lexer.outbuffer.drop L with
    | nil =>
      have := congrArg List.length hc
      rw [List.length_drop] at this
      simp at this
      omega
    | cons x xs => exact ⟨x, xs, rfl⟩
  rw [hx]
  have hset : (List.take L (List.drop 10 a.data) ++ x :: xs).set L 0
      = List.take L (List.drop 10 a.data) ++ 0 :: xs := by
    have h := set_append_at_length (List.take L (List.drop 10 a.data)) x xs 0
    rw [hlt2] at h
    exact h
  rw [hset]
  have : L + 1 = (List.take L (List.drop 10 a.data) ++ [0]).length := by
    rw [List.length_append, hlt2]; rfl
  have hsplit : List.take L (List.drop 10 a.data) ++ 0 :: xs
      = (List.take L (List.drop 10 a.data) ++ [0]) ++ xs := by simp
  rw [hsplit, this, List.take_left]

/-- C20 (witness): the datagram of scenario S6, with TLV `key = 1, len = 7` and value
"$GPGGA,", received into 32-byte buffers. -/
theorem qmi_pds_get_packet_nmea_witness :
    nmea_indication.ret = ((17 : Nat) : Int) ∧ nmea_indication.data.length = 17
    ∧ rd8 nmea_indication.data 0 = QMI_INDICATION
    ∧ rd16 nmea_indication.data 3 = QMI_LOC_EVENT_NMEA
    ∧ rd8 nmea_indication.data 7 = QMI_TLV_NMEA ∧ rd16 nmea_indication.data 8 = 7
    ∧ 7 + 3 + 7 ≤ 17
    ∧ ready_pds_session.lexer.outbuffer.length = ready_pds_session.lexer.inbuffer.length
    ∧ 17 ≤ ready_pds_session.lexer.inbuffer.length
    ∧ ∃ w2 s2, qmi_pds_get_packet new_pds_world ready_pds_session nmea_indication (0 + 1)
          = some (((17 : Nat) : Int), w2, s2)
        ∧ s2.lexer.outbuffer.take (7 + 1) = (nmea_indication.data.drop 10).take 7 ++ [0]
        ∧ s2.lexer.outbuflen = 7
        ∧ s2.lexer.type = NMEA_PACKET :=
  ⟨by decide, by decide, by decide, by decide, by decide, by decide, by decide, by decide,
    by decide,
    qmi_pds_get_packet_nmea new_pds_world ready_pds_session nmea_indication 0 17 7
      (by decide) (by decide) (by decide) (by decide) (by decide) (by decide) (by decide)
      (by decide) (by decide)⟩

theorem masked_flags (c k x p m : Nat) :
    (((c &&& k) ||| x) ||| p) &&& m = ((c &&& (k &&& m)) ||| (x &&& m)) ||| (p &&& m) := by
  apply Nat.eq_of_testBit_eq
  intro i
  simp only [Nat.testBit_and, Nat.testBit_or]
  cases c.testBit i <;> cases k.testBit i <;> cases x.testBit i <;> cases p.testBit i
    <;> cases m.testBit i <;> rfl

theorem gpsd_set_speed_ttyset_flags (E : Env) (s : gps_device_t) (speed : Nat) (parity : Int)
    (stopbits : Nat) (now : timespec)
    (hchange : speed2code (int_of_speed (effective_speed s speed)) ≠ cfgetispeed s.ttyset
      ∨ normalize_parity (effective_parity s parity) ≠ s.gpsdata.dev.parity
      ∨ effective_stopbits s stopbits ≠ s.gpsdata.dev.stopbits) :
    (gpsd_set_speed E s speed parity stopbits now).ttyset.c_iflag
      = ((s.ttyset.c_iflag &&& (0xFFFFFFFF ^^^ (PARMRK ||| INPCK))) ||| 0)
        ||| (if normalize_parity (effective_parity s parity) = 69
              ∨ normalize_parity (effective_parity s parity) = 79 then INPCK else 0)
    ∧ (gpsd_set_speed E s speed parity stopbits now).ttyset.c_cflag
      = ((s.ttyset.c_cflag &&& (0xFFFFFFFF ^^^ (CSIZE ||| CSTOPB ||| PARENB ||| PARODD)))
          ||| (if effective_stopbits s stopbits = 2 then CS7 ||| CSTOPB else CS8))
        ||| (if normalize_parity (effective_parity s parity) = 69 then PARENB
             else if normalize_parity (effective_parity s parity) = 79 then PARENB ||| PARODD
             else 0) := by
  have hB0 := speed2code_ne_B0 (int_of_speed (effective_speed s speed))
  generalize hr : speed2code (int_of_speed (effective_speed s speed)) = rate at hchange hB0
  generalize hp : normalize_parity (effective_parity s parity) = p at hchange
  generalize hb : effective_stopbits s stopbits = sb at hchange
  unfold effective_speed at hr
  unfold effective_parity at hp
  unfold effective_stopbits at hb
  unfold gpsd_set_speed clear_bits
  simp only [hr, hp, hb, if_pos hchange, if_neg hB0, cfsetispeed, cfsetospeed, Nat.or_zero]
  by_cases h69 : p = 69
  · have h79 : ¬ p = 79 := by omega
    simp only [h69, true_or, if_true]
    exact ⟨trivial, trivial⟩
  · by_cases h79 : p = 79
    · simp only [h79, or_true, if_true]
      simp only [show ¬ (79 : Int) = 69 by decide, if_false]
      exact ⟨trivial, trivial⟩
    · simp only [h69, h79, or_self, if_false, Nat.or_zero]
      exact ⟨trivial, trivial⟩

theorem masked_flags_cleared (c k x p m : Nat) (hk : k &&& m = 0) :
    (((c &&& k) ||| x) ||| p) &&& m = (x &&& m) ||| (p &&& m) := by
  rw [masked_flags, hk, Nat.and_zero, Nat.zero_or]

theorem normalize_parity_cases (p : Int) :
    normalize_parity p = 69 ∨ normalize_parity p = 79 ∨ normalize_parity p = 78 := by
  unfold normalize_parity
  split_ifs <;> simp

/-- C22.  Framing flags written by `gpsd_set_speed`: whenever it applies a change (the
rate differs from the input speed of the line, or the normalized parity or the stop
bits differ from the recorded ones), the resulting termios has `INPCK` set in `c_iflag`
if and only if the normalized parity is `E` (69) or `O` (79), `PARENB` set iff the
parity is `E` or `O`, `PARODD` set iff the parity is `O`, and the character size and
stop flags are `CS7|CSTOPB` when the stop bits are 2 and `CS8` without `CSTOPB`
otherwise; so `gpsd_get_parity` returns the normalized parity and, for stop bits 1 or
2, `gpsd_get_stopbits` returns the stop bits. -/
theorem gpsd_set_speed_framing_flags (E : Env) (s : gps_device_t) (speed : Nat)
    (parity : Int) (stopbits : Nat) (now : timespec)
    (hchange : speed2code (int_of_speed (effective_speed s speed)) ≠ cfgetispeed s.ttyset
      ∨ normalize_parity (effective_parity s parity) ≠ s.gpsdata.dev.parity
      ∨ effective_stopbits s stopbits ≠ s.gpsdata.dev.stopbits) :
    ((gpsd_set_speed E s speed parity stopbits now).ttyset.c_iflag &&& INPCK ≠ 0
      ↔ (normalize_parity (effective_parity s parity) = 69
          ∨ normalize_parity (effective_parity s parity) = 79))
    ∧ ((gpsd_set_speed E s speed parity stopbits now).ttyset.c_cflag &&& PARENB ≠ 0
      ↔ (normalize_parity (effective_parity s parity) = 69
          ∨ normalize_parity (effective_parity s parity) = 79))
    ∧ ((gpsd_set_speed E s speed parity stopbits now).ttyset.c_cflag &&& PARODD ≠ 0
      ↔ normalize_parity (effective_parity s parity) = 79)
    ∧ (gpsd_set_speed E s speed parity stopbits now).ttyset.c_cflag &&& (CSIZE ||| CSTOPB)
        = (if effective_stopbits s stopbits = 2 then CS7 ||| CSTOPB else CS8)
    ∧ gpsd_get_parity (gpsd_set_speed E s speed parity stopbits now)
        = normalize_parity (effective_parity s parity)
    ∧ ((effective_stopbits s stopbits = 1 ∨ effective_stopbits s stopbits = 2) →
        gpsd_get_stopbits (gpsd_set_speed E s speed parity stopbits now)
          = (effective_stopbits s stopbits : Int)) := by
  obtain ⟨hi, hc⟩ := gpsd_set_speed_ttyset_flags E s speed parity stopbits now hchange
  unfold gpsd_get_parity gpsd_get_stopbits
  rw [hi, masked_flags_cleared _ _ _ _ _ (by decide), hc,
    masked_flags_cleared _ _ _ _ PARENB (by decide),
    masked_flags_cleared _ _ _ _ PARODD (by decide),
    masked_flags_cleared _ _ _ _ (CSIZE ||| CSTOPB) (by decide),
    masked_flags_cleared _ _ _ _ (PARENB ||| PARODD) (by decide),
    masked_flags_cleared _ _ _ _ CS8 (by decide),
    masked_flags_cleared _ _ _ _ (CS7 ||| CSTOPB) (by decide)]
  generalize effective_stopbits s stopbits = sb
  rcases normalize_parity_cases (effective_parity s parity) with hp | hp | hp
  all_goals rw [hp]
  all_goals by_cases h2 : sb = 2
  all_goals simp only [h2, if_true, if_false]
  all_goals refine ⟨by decide, by decide, by decide, by decide, by decide, ?_⟩
  all_goals intro h12
  all_goals first
    | (subst h2; decide)
    | (have h1 : sb = 1 := by tauto
       subst h1; decide)

/-- C22 (witness): the line at 9600 8N1 set to 4800 baud, parity `E`, 2 stop bits. -/
theorem gpsd_set_speed_framing_flags_witness :
    (speed2code (int_of_speed (effective_speed (fresh_session []) 4800))
        ≠ cfgetispeed (fresh_session []).ttyset
      ∨ normalize_parity (effective_parity (fresh_session []) 69)
        ≠ (fresh_session []).gpsdata.dev.parity
      ∨ effective_stopbits (fresh_session []) 2 ≠ (fresh_session []).gpsdata.dev.stopbits)
    ∧ (((gpsd_set_speed (spec_env 9216) (fresh_session []) 4800 69 2 ⟨100, 0⟩).ttyset.c_iflag
          &&& INPCK ≠ 0
        ↔ (normalize_parity (effective_parity (fresh_session []) 69) = 69
            ∨ normalize_parity (effective_parity (fresh_session []) 69) = 79))
      ∧ ((gpsd_set_speed (spec_env 9216) (fresh_session []) 4800 69 2 ⟨100, 0⟩).ttyset.c_cflag
          &&& PARENB ≠ 0
        ↔ (normalize_parity (effective_parity (fresh_session []) 69) = 69
            ∨ normalize_parity (effective_parity (fresh_session []) 69) = 79))
      ∧ ((gpsd_set_speed (spec_env 9216) (fresh_session []) 4800 69 2 ⟨100, 0⟩).ttyset.c_cflag
          &&& PARODD ≠ 0
        ↔ normalize_parity (effective_parity (fresh_session []) 69) = 79)
      ∧ (gpsd_set_speed (spec_env 9216) (fresh_session []) 4800 69 2 ⟨100, 0⟩).ttyset.c_cflag
          &&& (CSIZE ||| CSTOPB)
          = (if effective_stopbits (fresh_session []) 2 = 2 then CS7 ||| CSTOPB else CS8)
      ∧ gpsd_get_parity (gpsd_set_speed (spec_env 9216) (fresh_session []) 4800 69 2 ⟨100, 0⟩)
          = normalize_parity (effective_parity (fresh_session []) 69)
      ∧ ((effective_stopbits (fresh_session []) 2 = 1
            ∨ effective_stopbits (fresh_session []) 2 = 2) →
          gpsd_get_stopbits
              (gpsd_set_speed (spec_env 9216) (fresh_session []) 4800 69 2 ⟨100, 0⟩)
            = (effective_stopbits (fresh_session []) 2 : Int))) :=
  ⟨by decide,
    gpsd_set_speed_framing_flags (spec_env 9216) (fresh_session []) 4800 69 2 ⟨100, 0⟩
      (by decide)⟩

/-- C21 (defect in the code).  The datagram is an `INDICATION` with msg 0x26 whose
payload is the well-formed sequence of two TLVs, key 2 with value 0xAA and key 1 with
value "abc"; the first TLV with key 1 has the value "abc" of length 3.  The walk
advances by the length of a TLV without its 3 header bytes, reads the next TLV at
offset 8, inside the first one, and stops there: `qmi_pds_get_packet` returns 17 and
outputs nothing (the output length stays 0, the lexer type stays `BAD_PACKET`). -/
theorem tlv_walk_misses_second_tlv :
    two_tlv_indication.data
      = [4, 0, 0, 0x26, 0, 10, 0] ++ spec_encode_tlvs [(2, [0xAA]), (1, [97, 98, 99])]
    ∧ spec_first_nmea [(2, [0xAA]), (1, [97, 98, 99])] = some [97, 98, 99]
    ∧ ∀ fuel, pds_output
        (qmi_pds_get_packet new_pds_world ready_pds_session two_tlv_indication (fuel + 2))
        = some (17, [], 0, BAD_PACKET) := by
  refine ⟨by decide, by decide, ?_⟩
  intro fuel
  rfl

theorem pds_tlv_walk_stuck (ret offset : Nat) (lexer : pds_lexer_t)
    (hfit : offset + sizeof_qmi_tlv ≤ ret) (hlen : rd16 lexer.inbuffer (offset + 1) = 0)
    (hkey : rd8 lexer.inbuffer offset ≠ QMI_TLV_NMEA) :
    ∀ fuel, pds_tlv_walk ret fuel offset lexer = none := by
  intro fuel
  induction fuel with
  | zero => rfl
  | succ k ih =>
    unfold sizeof_qmi_tlv at hfit
    have h1 : offset < ret := by omega
    have h2 : ¬ (offset + sizeof_qmi_tlv > ret) := by unfold sizeof_qmi_tlv; omega
    unfold pds_tlv_walk
    simp only [h1, if_true, hlen, h2, if_false, hkey, Nat.add_zero]
    exact ih

/-- C23 (defect in the code).  The datagram is an `INDICATION` with msg 0x26 whose one
TLV has key 2 and length 0 (10 bytes in all).  The TLV fits, its key is not 1, and the
walk advances by its length, 0: the offset stays 7 and the loop never ends.  For every
bound on the number of iterations, `qmi_pds_get_packet` is still in the loop when the
bound is reached. -/
theorem tlv_walk_does_not_terminate :
    empty_tlv_indication.data = [4, 0, 0, 0x26, 0, 3, 0] ++ spec_encode_tlvs [(2, [])]
    ∧ empty_tlv_indication.ret = 10
    ∧ ∀ fuel,
        qmi_pds_get_packet new_pds_world ready_pds_session empty_tlv_indication fuel = none := by
  refine ⟨by decide, by decide, ?_⟩
  intro fuel
  have hw := pds_tlv_walk_stuck 10 7
    { ready_pds_session.lexer with
      inbuffer := memcpy ready_pds_session.lexer.inbuffer empty_tlv_indication.data 10 }
    (by decide) (by decide) (by decide) fuel
  unfold qmi_pds_get_packet
  have e2 : ¬ empty_tlv_indication.ret < 0 := by decide
  have e3 : empty_tlv_indication.ret.toNat = 10 := by decide
  have e4 : ¬ (rd8 (memcpy ready_pds_session.lexer.inbuffer empty_tlv_indication.data 10) 0
        ≠ QMI_INDICATION
      ∨ rd16 (memcpy ready_pds_session.lexer.inbuffer empty_tlv_indication.data 10) 3
        ≠ QMI_LOC_EVENT_NMEA) := by decide
  have e5 : sizeof_qmi_header = 7 := rfl
  simp only [e2, false_and, e3, e4, if_false, e5]
  rw [hw]

theorem pds_free_slot_spec (reg : Nat → Option String)
    (h : pds_free_slot reg ≠ QMI_PDS_MAX) :
    pds_free_slot reg < QMI_PDS_MAX ∧ reg (pds_free_slot reg) = none := by
  unfold pds_free_slot at h ⊢
  cases hf : (List.range QMI_PDS_MAX).find? (fun i => (reg i).isNone) with
  | none =>
    rw [hf] at h
    exact absurd rfl h
  | some i =>
    have hm := List.mem_of_find?_eq_some hf
    have hp := List.find?_some hf
    simp only [Option.getD_some]
    refine ⟨List.mem_range.mp hm, ?_⟩
    cases hr : reg i with
    | none => rfl
    | some p => rw [hr] at hp; simp at hp

theorem qmi_pds_open_late_failure (E : Env) (w : pds_world) (s : pds_device_t)
    (a : pds_open_answers)
    (hpath : ¬ (c_string s.gpsdata.dev.path).length < QMI_PDS_PATH_STARTS)
    (hnew : pds_path_registered w.pds_devices s.gpsdata.dev.path = false)
    (hfree : pds_free_slot w.pds_devices ≠ QMI_PDS_MAX)
    (hfail : BAD_SOCKET a.socket = true
      ∨ (a.getsockname_ret < 0 ∨ a.sq_family ≠ AF_QIPCRTR ∨ a.sl ≠ sizeof_sockaddr_qrtr)
      ∨ a.sendto_ret < 0) :
    (qmi_pds_open E w s a).1 = -1
    ∧ w.pds_devices (pds_free_slot w.pds_devices) = none
    ∧ (qmi_pds_open E w s a).2.1.pds_devices (pds_free_slot w.pds_devices)
        = some s.gpsdata.dev.path
    ∧ (qmi_pds_open E w s a).2.2 = s
    ∧ ∀ a2, qmi_pds_open E (qmi_pds_open E w s a).2.1 s a2
        = (-1, (qmi_pds_open E w s a).2.1, s) := by
  obtain ⟨hlt, hnone⟩ := pds_free_slot_spec w.pds_devices hfree
  have hreg : ¬ pds_path_registered w.pds_devices s.gpsdata.dev.path = true := by
    rw [hnew]; decide
  have key : ∃ calls, qmi_pds_open E w s a
      = (-1, { w with
               pds_devices := fun j => if j = pds_free_slot w.pds_devices
                 then some s.gpsdata.dev.path else w.pds_devices j
               calls := calls }, s) := by
    unfold qmi_pds_open
    simp only [if_neg hpath, if_neg hreg, if_neg hfree]
    by_cases hb : BAD_SOCKET a.socket = true
    · simp only [hb, if_true]
      exact ⟨_, rfl⟩
    · simp only [hb, if_false]
      by_cases hg : a.getsockname_ret < 0 ∨ a.sq_family ≠ AF_QIPCRTR
          ∨ a.sl ≠ sizeof_sockaddr_qrtr
      · simp only [if_pos hg]
        exact ⟨_, rfl⟩
      · have hs : a.sendto_ret < 0 := by
          rcases hfail with h | h | h
          · exact absurd h hb
          · exact absurd h hg
          · exact h
        simp only [if_neg hg, if_pos hs]
        exact ⟨_, rfl⟩
  obtain ⟨calls, hk⟩ := key
  rw [hk]
  refine ⟨rfl, hnone, ?_, rfl, ?_⟩
  · simp
  · intro a2
    have hdup : pds_path_registered
        (fun j => if j = pds_free_slot w.pds_devices then some s.gpsdata.dev.path
          else w.pds_devices j) s.gpsdata.dev.path = true := by
      unfold pds_path_registered
      rw [List.any_eq_true]
      exact ⟨pds_free_slot w.pds_devices, List.mem_range.mpr hlt, by simp⟩
    unfold qmi_pds_open
    simp only [if_neg hpath, hdup, if_true]

/-- C24 (defect in the code).  The registry is empty and `socket` fails: `qmi_pds_open`
returns -1 after it has put the session into slot 0, and the slot stays occupied.  A
second `qmi_pds_open` of the same path, with every system call succeeding, is refused
as a duplicate (returns -1, no socket is created), where on the registry as it was
before the failed call it returns the descriptor; `qmi_pds_close` after the failed
call frees the slot. -/
theorem failed_open_keeps_registry_slot :
    new_pds_world.pds_devices 0 = none
    ∧ (qmi_pds_open (spec_env 9216) new_pds_world (new_pds_session "pds://any")
        no_socket_answers).1 = -1
    ∧ (qmi_pds_open (spec_env 9216) new_pds_world (new_pds_session "pds://any")
        no_socket_answers).2.1.pds_devices 0 = some "pds://any"
    ∧ (qmi_pds_open (spec_env 9216)
        (qmi_pds_open (spec_env 9216) new_pds_world (new_pds_session "pds://any")
          no_socket_answers).2.1
        (new_pds_session "pds://any") good_open_answers).1 = -1
    ∧ (qmi_pds_open (spec_env 9216)
        (qmi_pds_open (spec_env 9216) new_pds_world (new_pds_session "pds://any")
          no_socket_answers).2.1
        (new_pds_session "pds://any") good_open_answers).2.1.calls = [pds_call.socket]
    ∧ (qmi_pds_open (spec_env 9216) new_pds_world (new_pds_session "pds://any")
        good_open_answers).1 = 7
    ∧ (qmi_pds_close
        (qmi_pds_open (spec_env 9216) new_pds_world (new_pds_session "pds://any")
          no_socket_answers).2.1
        (new_pds_session "pds://any")).1.pds_devices 0 = none := by
  decide

end Gpsd
